import Mathlib

/-!
APEX five-stage pipeline simulator: a shallow embedding.

Embedding of `apex_cpu.c` (Part A) and `apex_cpu.h`.  Every stage function of
the C file is a Lean function on an explicit `APEX_CPU` record, written case
by case after the C `switch` it comes from.

Conventions of the embedding.

* C `int` values are `Int`.  The results of the arithmetic that a program can
  drive out of range (the Execute stage, the address and branch-target sums,
  `pc += 4`) are reduced with `wrap32` to the 32-bit two's complement range.
  The two event counters `clock` and `insn_completed` start at 1 and 0 and grow
  by one per tick, so they are left as plain integers.
* `TRUE`/`FALSE` valued `int` fields (`has_insn`, the two flags,
  `fetch_from_next_cycle`, the five display markers) are `Bool`.
* The arrays `regs`, `regf` and `data_memory` are total maps `Int → Int`.  An
  index outside the C array is undefined behaviour in the source; the map just
  stores it.  The division of DIV is total as well (`Int.tdiv`, reduced with
  `wrap32`), where C leaves `x / 0` and `INT_MIN / -1` undefined.  The section
  "Where the C operations are defined" describes the states and programs in
  which no such case occurs; statements that depend on such an access carry
  these conditions as hypotheses.
* `code_memory` is a list; a read outside the list yields `APEX_Instruction.none`.
* Fields of `APEX_CPU` that no function of `apex_cpu.c` reads or writes
  (`code_memory_size` apart from being the list length, `single_step`,
  `load_in_ex`, the four `*_dest*_value` fields) are left out, and so is the
  console output of `APEX_cpu_run`.
-/

namespace Apex

/-- Modelled from the spec: `apex_macros.h`, which defines the `OPCODE_*`
constants, is not part of the sources.  The opcode is "enumerated"; the
constructors are the `OPCODE_*` names that occur in `apex_cpu.c`, and `OTHER`
stands for every `int` that is none of them (it falls through each `switch`). -/
inductive Opcode where
  | ADD | SUB | MUL | DIV | AND | OR | XOR | MOVC | LOAD | STORE
  | BZ | BNZ | BP | BNP | HALT | NOP | ADDL | SUBL | LDI | STI | CMP | JUMP
  | OTHER
  deriving DecidableEq, Repr, Inhabited

/-- Reduction of an integer to the range of a 32-bit two's complement `int`. -/
def wrap32 (x : Int) : Int := (x + 2147483648) % 4294967296 - 2147483648

/-- The C assignment `a[i] = v` on an array modelled as a total map. -/
def arr_set (a : Int → Int) (i v : Int) : Int → Int :=
  fun j => if j = i then v else a j

/-- Format of an APEX instruction (`struct APEX_Instruction`). -/
structure APEX_Instruction where
  opcode_str : String
  opcode : Opcode
  rd : Int
  rs1 : Int
  rs2 : Int
  imm : Int
  deriving DecidableEq, Repr

/-- What a read of `code_memory` outside the loaded program yields in the
model (the C read is out of bounds). -/
def APEX_Instruction.none : APEX_Instruction :=
  { opcode_str := "", opcode := Opcode.OTHER, rd := 0, rs1 := 0, rs2 := 0, imm := 0 }

/-- Model of a CPU stage latch (`struct CPU_Stage`). -/
structure CPU_Stage where
  pc : Int
  opcode_str : String
  opcode : Opcode
  rs1 : Int
  rs2 : Int
  rd : Int
  imm : Int
  rs1_value : Int
  rs2_value : Int
  result_buffer : Int
  result_buffer1 : Int
  memory_address : Int
  has_insn : Bool
  deriving DecidableEq, Repr

/-- A latch as `calloc` leaves it: every field zero.  The header that fixes
which opcode has the value 0 is missing; the opcode of a latch is only read
under `has_insn`, which is `FALSE` here. -/
def CPU_Stage.zero : CPU_Stage :=
  { pc := 0, opcode_str := "", opcode := Opcode.ADD, rs1 := 0, rs2 := 0, rd := 0, imm := 0,
    rs1_value := 0, rs2_value := 0, result_buffer := 0, result_buffer1 := 0,
    memory_address := 0, has_insn := false }

/-- Model of the APEX CPU (`struct APEX_CPU`). -/
structure APEX_CPU where
  pc : Int
  clock : Int
  insn_completed : Int
  regs : Int → Int
  regf : Int → Int
  code_memory : List APEX_Instruction
  data_memory : Int → Int
  zero_flag : Bool
  fetch_from_next_cycle : Bool
  positive_flag : Bool
  mem_dest : Int
  mem_dest1 : Int
  ex_dest : Int
  ex_dest1 : Int
  stall_count : Int
  wp : Bool
  mp : Bool
  ep : Bool
  dp : Bool
  fp : Bool
  fetch : CPU_Stage
  decode : CPU_Stage
  execute : CPU_Stage
  memory : CPU_Stage
  writeback : CPU_Stage
  pfetch : CPU_Stage
  pdecode : CPU_Stage
  pexecute : CPU_Stage
  pmemory : CPU_Stage
  pwriteback : CPU_Stage

/-- Converts the PC (4000 series) into the array index for code memory:
`(pc - 4000) / 4` with C's truncating division. -/
def get_code_memory_index_from_pc (pc : Int) : Int :=
  Int.tdiv (wrap32 (pc - 4000)) 4

/-- The read `cpu->code_memory[i]`. -/
def code_memory_at (code : List APEX_Instruction) (i : Int) : APEX_Instruction :=
  if 0 ≤ i then code.getD i.toNat APEX_Instruction.none else APEX_Instruction.none

/-- The fetch latch after the current instruction's fields have been copied
into it (the common part of `APEX_fetch` and `stall_fetch`). -/
def load_fetch_latch (cpu : APEX_CPU) : CPU_Stage :=
  let current_ins := code_memory_at cpu.code_memory (get_code_memory_index_from_pc cpu.pc)
  { cpu.fetch with
    pc := cpu.pc
    opcode_str := current_ins.opcode_str
    opcode := current_ins.opcode
    rd := current_ins.rd
    rs1 := current_ins.rs1
    rs2 := current_ins.rs2
    imm := current_ins.imm }

/-- Fetch stage of the APEX pipeline (`APEX_fetch`). -/
def APEX_fetch (cpu : APEX_CPU) : APEX_CPU :=
  if cpu.fetch.has_insn then
    if cpu.fetch_from_next_cycle then
      -- skip this cycle
      { cpu with fetch_from_next_cycle := false, fp := false }
    else
      let fetch := load_fetch_latch cpu
      { cpu with
        pc := wrap32 (cpu.pc + 4)
        decode := fetch
        pfetch := fetch
        fetch := if fetch.opcode = Opcode.HALT then { fetch with has_insn := false } else fetch }
  else
    { cpu with fp := false }

/-- Decode stage of the APEX pipeline (`APEX_decode`). -/
def APEX_decode (cpu : APEX_CPU) : APEX_CPU :=
  if cpu.decode.has_insn then
    let decode : CPU_Stage :=
      match cpu.decode.opcode with
      | Opcode.ADD | Opcode.SUB | Opcode.MUL | Opcode.DIV | Opcode.AND | Opcode.OR
      | Opcode.XOR | Opcode.STORE | Opcode.STI | Opcode.CMP =>
          { cpu.decode with
            rs1_value := cpu.regs cpu.decode.rs1
            rs2_value := cpu.regs cpu.decode.rs2 }
      | Opcode.LOAD | Opcode.ADDL | Opcode.SUBL | Opcode.LDI | Opcode.JUMP =>
          { cpu.decode with rs1_value := cpu.regs cpu.decode.rs1 }
      | Opcode.MOVC | Opcode.BZ | Opcode.BNZ | Opcode.BP | Opcode.BNP | Opcode.HALT
      | Opcode.NOP =>
          cpu.decode
      | Opcode.OTHER => cpu.decode
    { cpu with
      execute := decode
      pdecode := decode
      decode := { decode with has_insn := false } }
  else
    { cpu with dp := false }

/-- The body shared by the arithmetic cases of `APEX_execute`: store the result
and set the two flags from it. -/
def execute_arith (cpu : APEX_CPU) (result : Int) : APEX_CPU :=
  { cpu with
    execute := { cpu.execute with result_buffer := result }
    zero_flag := decide (result = 0)
    positive_flag := decide (result > 0) }

/-- The body shared by the taken-transfer cases of `APEX_execute`: new PC,
skip the fetch of this cycle, flush Decode, enable Fetch. -/
def execute_transfer (cpu : APEX_CPU) (target : Int) : APEX_CPU :=
  { cpu with
    pc := target
    fetch_from_next_cycle := true
    decode := { cpu.decode with has_insn := false }
    fetch := { cpu.fetch with has_insn := true } }

/-- The `switch` of `APEX_execute`. -/
def execute_switch (cpu : APEX_CPU) : APEX_CPU :=
  match cpu.execute.opcode with
  | Opcode.ADD => execute_arith cpu (wrap32 (cpu.execute.rs1_value + cpu.execute.rs2_value))
  | Opcode.SUB => execute_arith cpu (wrap32 (cpu.execute.rs1_value - cpu.execute.rs2_value))
  | Opcode.MUL => execute_arith cpu (wrap32 (cpu.execute.rs1_value * cpu.execute.rs2_value))
  | Opcode.DIV =>
      execute_arith cpu (wrap32 (Int.tdiv cpu.execute.rs1_value cpu.execute.rs2_value))
  | Opcode.AND => execute_arith cpu (Int.land cpu.execute.rs1_value cpu.execute.rs2_value)
  | Opcode.OR => execute_arith cpu (Int.lor cpu.execute.rs1_value cpu.execute.rs2_value)
  | Opcode.XOR => execute_arith cpu (Int.xor cpu.execute.rs1_value cpu.execute.rs2_value)
  | Opcode.LOAD =>
      { cpu with
        execute := { cpu.execute with
          memory_address := wrap32 (cpu.execute.rs1_value + cpu.execute.imm) } }
  | Opcode.LDI =>
      { cpu with
        execute := { cpu.execute with
          memory_address := wrap32 (cpu.execute.rs1_value + cpu.execute.imm)
          result_buffer1 := wrap32 (cpu.execute.rs1_value + 4) } }
  | Opcode.BZ =>
      if cpu.zero_flag = true then
        execute_transfer cpu (wrap32 (cpu.execute.pc + cpu.execute.imm))
      else cpu
  | Opcode.BNZ =>
      if cpu.zero_flag = false then
        execute_transfer cpu (wrap32 (cpu.execute.pc + cpu.execute.imm))
      else cpu
  | Opcode.BP =>
      if cpu.positive_flag = true then
        execute_transfer cpu (wrap32 (cpu.execute.pc + cpu.execute.imm))
      else cpu
  | Opcode.BNP =>
      if cpu.positive_flag = false then
        execute_transfer cpu (wrap32 (cpu.execute.pc + cpu.execute.imm))
      else cpu
  | Opcode.MOVC =>
      { cpu with execute := { cpu.execute with result_buffer := wrap32 (cpu.execute.imm + 0) } }
  | Opcode.ADDL => execute_arith cpu (wrap32 (cpu.execute.rs1_value + cpu.execute.imm))
  | Opcode.SUBL => execute_arith cpu (wrap32 (cpu.execute.rs1_value - cpu.execute.imm))
  | Opcode.STORE =>
      { cpu with
        execute := { cpu.execute with
          memory_address := wrap32 (cpu.execute.rs2_value + cpu.execute.imm) } }
  | Opcode.STI =>
      { cpu with
        execute := { cpu.execute with
          memory_address := wrap32 (cpu.execute.rs2_value + cpu.execute.imm)
          result_buffer := wrap32 (cpu.execute.rs2_value + 4) } }
  | Opcode.CMP =>
      { cpu with
        zero_flag := decide (cpu.execute.rs1_value = cpu.execute.rs2_value)
        positive_flag := decide (cpu.execute.rs1_value > cpu.execute.rs2_value) }
  | Opcode.JUMP => execute_transfer cpu (wrap32 (cpu.execute.rs1_value + cpu.execute.imm))
  | Opcode.HALT | Opcode.NOP => cpu
  | Opcode.OTHER => cpu

/-- Execute stage of the APEX pipeline (`APEX_execute`). -/
def APEX_execute (cpu : APEX_CPU) : APEX_CPU :=
  if cpu.execute.has_insn then
    let c := execute_switch cpu
    { c with memory := c.execute, pexecute := c.execute }
  else
    { cpu with ep := false }

/-- The stall-counter prologue of `APEX_memory`. -/
def decay_stall (stall_count : Int) : Int :=
  if stall_count = 2 then 1 else if stall_count = 1 then 0 else stall_count

/-- Memory stage of the APEX pipeline (`APEX_memory`). -/
def APEX_memory (cpu : APEX_CPU) : APEX_CPU :=
  let cpu := { cpu with stall_count := decay_stall cpu.stall_count }
  if cpu.memory.has_insn then
    let c : APEX_CPU :=
      match cpu.memory.opcode with
      | Opcode.LOAD | Opcode.LDI =>
          { cpu with
            memory := { cpu.memory with
              result_buffer := cpu.data_memory cpu.memory.memory_address } }
      | Opcode.STORE | Opcode.STI =>
          { cpu with
            data_memory := arr_set cpu.data_memory cpu.memory.memory_address
              cpu.memory.rs1_value }
      | _ => cpu
    { c with writeback := c.memory, pmemory := c.memory }
  else
    { cpu with mp := false }

/-- Writeback stage of the APEX pipeline (`APEX_writeback`); the second
component is the value the C function returns (`TRUE` when HALT retires). -/
def APEX_writeback (cpu : APEX_CPU) : APEX_CPU × Bool :=
  if cpu.writeback.has_insn then
    let regs : Int → Int :=
      match cpu.writeback.opcode with
      | Opcode.ADD | Opcode.SUB | Opcode.MUL | Opcode.DIV | Opcode.AND | Opcode.OR
      | Opcode.XOR | Opcode.MOVC | Opcode.LOAD | Opcode.ADDL | Opcode.SUBL =>
          arr_set cpu.regs cpu.writeback.rd cpu.writeback.result_buffer
      | Opcode.LDI =>
          arr_set (arr_set cpu.regs cpu.writeback.rd cpu.writeback.result_buffer)
            cpu.writeback.rs1 cpu.writeback.result_buffer1
      | Opcode.STI =>
          arr_set cpu.regs cpu.writeback.rs2 cpu.writeback.result_buffer
      | _ => cpu.regs
    ({ cpu with
        regs := regs
        insn_completed := cpu.insn_completed + 1
        pwriteback := cpu.writeback
        writeback := { cpu.writeback with has_insn := false } },
      decide (cpu.writeback.opcode = Opcode.HALT))
  else
    ({ cpu with wp := false }, false)

/-- Capture of the destinations of the instruction leaving Memory
(`get_mem_dest`). -/
def get_mem_dest (cpu : APEX_CPU) : APEX_CPU :=
  let c : APEX_CPU :=
    if cpu.memory.has_insn then
      match cpu.memory.opcode with
      | Opcode.ADD | Opcode.SUB | Opcode.MUL | Opcode.DIV | Opcode.AND | Opcode.OR
      | Opcode.XOR | Opcode.MOVC | Opcode.LOAD | Opcode.ADDL | Opcode.SUBL =>
          { cpu with mem_dest := cpu.memory.rd, mem_dest1 := -1 }
      | Opcode.LDI => { cpu with mem_dest := cpu.memory.rd, mem_dest1 := cpu.memory.rs1 }
      | Opcode.STI => { cpu with mem_dest := cpu.memory.rs2, mem_dest1 := -1 }
      | _ => cpu
    else cpu
  { c with memory := { c.memory with has_insn := false } }

/-- Capture of the destinations of the instruction leaving Execute
(`get_ex_dest`). -/
def get_ex_dest (cpu : APEX_CPU) : APEX_CPU :=
  let c : APEX_CPU :=
    if cpu.execute.has_insn then
      match cpu.execute.opcode with
      | Opcode.ADD | Opcode.SUB | Opcode.MUL | Opcode.DIV | Opcode.AND | Opcode.OR
      | Opcode.XOR | Opcode.MOVC | Opcode.LOAD | Opcode.ADDL | Opcode.SUBL =>
          { cpu with ex_dest := cpu.execute.rd, ex_dest1 := -1 }
      | Opcode.LDI => { cpu with ex_dest := cpu.execute.rd, ex_dest1 := cpu.execute.rs1 }
      | Opcode.STI => { cpu with ex_dest := cpu.execute.rs2, ex_dest1 := -1 }
      | _ => cpu
    else cpu
  { c with execute := { c.execute with has_insn := false } }

/-- Distance-1 check (`check_mem_dependency`). -/
def check_mem_dependency (cpu : APEX_CPU) : APEX_CPU :=
  if cpu.decode.has_insn then
    let c : APEX_CPU :=
      match cpu.decode.opcode with
      | Opcode.ADD | Opcode.SUB | Opcode.MUL | Opcode.DIV | Opcode.AND | Opcode.OR
      | Opcode.XOR | Opcode.STORE | Opcode.STI | Opcode.CMP =>
          if cpu.decode.rs1 = cpu.mem_dest ∨ cpu.decode.rs2 = cpu.mem_dest then
            { cpu with stall_count := 1, regf := arr_set cpu.regf cpu.mem_dest 1 }
          else if cpu.decode.rs1 = cpu.mem_dest1 ∨ cpu.decode.rs2 = cpu.mem_dest1 then
            { cpu with stall_count := 1, regf := arr_set cpu.regf cpu.mem_dest1 1 }
          else cpu
      | Opcode.LOAD | Opcode.ADDL | Opcode.SUBL | Opcode.LDI | Opcode.JUMP =>
          let c1 : APEX_CPU :=
            if cpu.decode.rs1 = cpu.mem_dest then
              { cpu with stall_count := 1, regf := arr_set cpu.regf cpu.mem_dest 1 }
            else cpu
          if c1.decode.rs1 = c1.mem_dest1 then
            { c1 with stall_count := 1, regf := arr_set c1.regf c1.mem_dest1 1 }
          else c1
      | _ => cpu
    { c with mem_dest := -1, mem_dest1 := -1 }
  else cpu

/-- Distance-2 check (`check_ex_dependency`). -/
def check_ex_dependency (cpu : APEX_CPU) : APEX_CPU :=
  if cpu.decode.has_insn then
    let c : APEX_CPU :=
      match cpu.decode.opcode with
      | Opcode.ADD | Opcode.SUB | Opcode.MUL | Opcode.DIV | Opcode.AND | Opcode.OR
      | Opcode.XOR | Opcode.STORE | Opcode.STI | Opcode.CMP =>
          if cpu.decode.rs1 = cpu.ex_dest ∨ cpu.decode.rs2 = cpu.ex_dest then
            { cpu with stall_count := 2, regf := arr_set cpu.regf cpu.ex_dest 1 }
          else if cpu.decode.rs1 = cpu.ex_dest1 ∨ cpu.decode.rs2 = cpu.ex_dest1 then
            { cpu with stall_count := 2, regf := arr_set cpu.regf cpu.ex_dest1 1 }
          else cpu
      | Opcode.LOAD | Opcode.ADDL | Opcode.SUBL | Opcode.LDI | Opcode.JUMP =>
          let c1 : APEX_CPU :=
            if cpu.decode.rs1 = cpu.ex_dest then
              { cpu with stall_count := 2, regf := arr_set cpu.regf cpu.ex_dest 1 }
            else cpu
          if c1.decode.rs1 = c1.ex_dest1 then
            { c1 with stall_count := 2, regf := arr_set c1.regf c1.ex_dest1 1 }
          else c1
      | _ => cpu
    { c with ex_dest := -1, ex_dest1 := -1 }
  else cpu

/-- What the tick does instead of Decode and Fetch while stalled
(`stall_fetch`): the fetch latch is reloaded, nothing advances. -/
def stall_fetch (cpu : APEX_CPU) : APEX_CPU :=
  if cpu.fetch.has_insn then
    let fetch := load_fetch_latch cpu
    { cpu with fetch := fetch, pdecode := cpu.decode, pfetch := fetch }
  else cpu

/-- Creation and initialisation of the CPU (`APEX_cpu_init`), given the code
memory that `create_code_memory` returned: `calloc` zeroes every field, then
`pc = 4000` and `fetch.has_insn = TRUE`. -/
def APEX_cpu_init (code : List APEX_Instruction) : APEX_CPU :=
  { pc := 4000
    clock := 0
    insn_completed := 0
    regs := fun _ => 0
    regf := fun _ => 0
    code_memory := code
    data_memory := fun _ => 0
    zero_flag := false
    fetch_from_next_cycle := false
    positive_flag := false
    mem_dest := 0
    mem_dest1 := 0
    ex_dest := 0
    ex_dest1 := 0
    stall_count := 0
    wp := false
    mp := false
    ep := false
    dp := false
    fp := false
    fetch := { CPU_Stage.zero with has_insn := true }
    decode := CPU_Stage.zero
    execute := CPU_Stage.zero
    memory := CPU_Stage.zero
    writeback := CPU_Stage.zero
    pfetch := CPU_Stage.zero
    pdecode := CPU_Stage.zero
    pexecute := CPU_Stage.zero
    pmemory := CPU_Stage.zero
    pwriteback := CPU_Stage.zero }

/-- The first part of the loop body of `APEX_cpu_run`: the display markers and
`regf` are reset, then Writeback, Memory, `get_mem_dest`, Execute,
`get_ex_dest` and the two dependency checks run in this order.  The result is
the state "after the hazard check" together with Writeback's return value. -/
def hazard_check (cpu : APEX_CPU) : APEX_CPU × Bool :=
  let cpu := { cpu with wp := true, mp := true, ep := true, dp := true, fp := true,
                        regf := fun _ => 0 }
  let wb := APEX_writeback cpu
  (check_ex_dependency (check_mem_dependency (get_ex_dest (APEX_execute
    (get_mem_dest (APEX_memory wb.1))))), wb.2)

/-- One clock tick: the stage calls of the loop body of `APEX_cpu_run`.
Decode and Fetch run only when `stall_count` is 0 after the hazard check. -/
def APEX_cpu_tick (cpu : APEX_CPU) : APEX_CPU × Bool :=
  let h := hazard_check cpu
  (if h.1.stall_count = 0 then APEX_fetch (APEX_decode h.1) else stall_fetch h.1, h.2)

/-- One iteration of the loop of `APEX_cpu_run` that does not stop: the tick,
then `cpu->clock++`. -/
def APEX_cpu_cycle (cpu : APEX_CPU) : APEX_CPU :=
  let t := (APEX_cpu_tick cpu).1
  { t with clock := t.clock + 1 }

/-- The loop of `APEX_cpu_run` from the current clock value.  `limit` is
`some n` for the modes `simulate` and `display` (`n = atoi(cycle)`), which also
stop when the clock equals `n`, and `none` for the other modes.  The loop
leaves through `break` without the final `clock++`.  The prompt of the mode
`single_step`, which can also end the loop, reads the console and is not
modelled.  `fuel` bounds the number of iterations; `none` means the bound was
reached. -/
def run_loop (limit : Option Int) : Nat → APEX_CPU → Option APEX_CPU
  | 0, _ => none
  | fuel + 1, cpu =>
      let t := APEX_cpu_tick cpu
      if t.2 = true ∨ limit = some t.1.clock then some t.1
      else run_loop limit fuel { t.1 with clock := t.1.clock + 1 }

/-- The simulation loop (`APEX_cpu_run`): `cpu->clock = 1`, then the loop. -/
def APEX_cpu_run (fuel : Nat) (cpu : APEX_CPU) (limit : Option Int) : Option APEX_CPU :=
  run_loop limit fuel { cpu with clock := 1 }

/-- The state at the start of tick `n + 1` of a run that has not stopped. -/
def ticks (n : Nat) (cpu : APEX_CPU) : APEX_CPU :=
  APEX_cpu_cycle^[n] cpu

/-- The state in which `APEX_cpu_run` enters its loop: the initial state with
the clock set to 1.  `ticks n (APEX_cpu_start code)` is the state at the start
of tick `n + 1`. -/
def APEX_cpu_start (code : List APEX_Instruction) : APEX_CPU :=
  { APEX_cpu_init code with clock := 1 }

/-! ## Notions used to state the properties -/

/-- The source registers `APEX_decode` reads for an instruction (the operand
shape of its opcode); `check_mem_dependency` and `check_ex_dependency` compare
the same fields. -/
def srcs_of (o : Opcode) (rs1 rs2 : Int) : List Int :=
  match o with
  | Opcode.ADD | Opcode.SUB | Opcode.MUL | Opcode.DIV | Opcode.AND | Opcode.OR
  | Opcode.XOR | Opcode.STORE | Opcode.STI | Opcode.CMP => [rs1, rs2]
  | Opcode.LOAD | Opcode.ADDL | Opcode.SUBL | Opcode.LDI | Opcode.JUMP => [rs1]
  | _ => []

/-- The destination registers of an instruction: what `APEX_writeback` writes
and what `get_mem_dest` / `get_ex_dest` capture for its opcode. -/
def dests_of (o : Opcode) (rd rs1 rs2 : Int) : List Int :=
  match o with
  | Opcode.ADD | Opcode.SUB | Opcode.MUL | Opcode.DIV | Opcode.AND | Opcode.OR
  | Opcode.XOR | Opcode.MOVC | Opcode.LOAD | Opcode.ADDL | Opcode.SUBL => [rd]
  | Opcode.LDI => [rd, rs1]
  | Opcode.STI => [rs2]
  | _ => []

/-- Source registers of the instruction held in a latch. -/
def CPU_Stage.srcs (l : CPU_Stage) : List Int := srcs_of l.opcode l.rs1 l.rs2

/-- Destination registers of the instruction departing a latch; an empty
latch has none. -/
def CPU_Stage.dests (l : CPU_Stage) : List Int :=
  if l.has_insn then dests_of l.opcode l.rd l.rs1 l.rs2 else []

/-- Source registers of a program instruction. -/
def APEX_Instruction.srcs (i : APEX_Instruction) : List Int := srcs_of i.opcode i.rs1 i.rs2

/-- Destination registers of a program instruction. -/
def APEX_Instruction.dests (i : APEX_Instruction) : List Int :=
  dests_of i.opcode i.rd i.rs1 i.rs2

/-- Instruction `b` reads no register that instruction `a` writes. -/
def no_dep (a b : APEX_Instruction) : Bool :=
  b.srcs.all fun r => !(a.dests.contains r)

/-- No instruction reads a register written by either of the two instructions
before it. -/
def hazard_free : List APEX_Instruction → Bool
  | a :: b :: c :: rest => no_dep a b && no_dep a c && hazard_free (b :: c :: rest)
  | [a, b] => no_dep a b
  | _ => true

/-- The program contains no BZ, BNZ, BP, BNP or JUMP. -/
def branch_free (code : List APEX_Instruction) : Bool :=
  code.all fun i =>
    !(i.opcode = Opcode.BZ || i.opcode = Opcode.BNZ || i.opcode = Opcode.BP
      || i.opcode = Opcode.BNP || i.opcode = Opcode.JUMP)

/-- An instruction retires in the tick that starts in state `cpu`: the
Writeback latch is occupied when `APEX_writeback` runs. -/
def retires (cpu : APEX_CPU) : Bool := cpu.writeback.has_insn

/-! ## The concrete programs of the scenarios -/

/-- `MOVC R1,#10 ; ADD R2,R1,R1 ; HALT`. -/
def scenario1 : List APEX_Instruction :=
  [ { opcode_str := "MOVC", opcode := Opcode.MOVC, rd := 1, rs1 := -1, rs2 := -1, imm := 10 },
    { opcode_str := "ADD", opcode := Opcode.ADD, rd := 2, rs1 := 1, rs2 := 1, imm := 0 },
    { opcode_str := "HALT", opcode := Opcode.HALT, rd := -1, rs1 := -1, rs2 := -1, imm := 0 } ]

/-- `LOAD R1,R2,#0 ; ADD R3,R1,R1 ; HALT`. -/
def scenario2 : List APEX_Instruction :=
  [ { opcode_str := "LOAD", opcode := Opcode.LOAD, rd := 1, rs1 := 2, rs2 := -1, imm := 0 },
    { opcode_str := "ADD", opcode := Opcode.ADD, rd := 3, rs1 := 1, rs2 := 1, imm := 0 },
    { opcode_str := "HALT", opcode := Opcode.HALT, rd := -1, rs1 := -1, rs2 := -1, imm := 0 } ]

/-- The initial state of scenario 2: `regs[2]` is 0 after initialisation, and
the data memory cell at that address holds 7. -/
def scenario2_init : APEX_CPU :=
  { APEX_cpu_init scenario2 with data_memory := arr_set (fun _ => 0) 0 7 }

/-- The state in which the loop is entered in scenario 2. -/
def scenario2_start : APEX_CPU := { scenario2_init with clock := 1 }

/-- `SUB R1,R1,R1 ; BZ #8 ; MOVC R2,#99 ; MOVC R3,#1 ; HALT`; the BZ is at
4004, so `#8` targets 4012, the `MOVC R3,#1`. -/
def scenario3 : List APEX_Instruction :=
  [ { opcode_str := "SUB", opcode := Opcode.SUB, rd := 1, rs1 := 1, rs2 := 1, imm := 0 },
    { opcode_str := "BZ", opcode := Opcode.BZ, rd := -1, rs1 := -1, rs2 := -1, imm := 8 },
    { opcode_str := "MOVC", opcode := Opcode.MOVC, rd := 2, rs1 := -1, rs2 := -1, imm := 99 },
    { opcode_str := "MOVC", opcode := Opcode.MOVC, rd := 3, rs1 := -1, rs2 := -1, imm := 1 },
    { opcode_str := "HALT", opcode := Opcode.HALT, rd := -1, rs1 := -1, rs2 := -1, imm := 0 } ]

/-- `ADD R1,R0,R0 ; HALT`: hazard-free and branch-free, first instruction
reads register 0. -/
def reads_r0 : List APEX_Instruction :=
  [ { opcode_str := "ADD", opcode := Opcode.ADD, rd := 1, rs1 := 0, rs2 := 0, imm := 0 },
    { opcode_str := "HALT", opcode := Opcode.HALT, rd := -1, rs1 := -1, rs2 := -1, imm := 0 } ]

/-- `MOVC R1,#1 ; NOP ; ADD R2,R1,R1 ; HALT`: the ADD reads `R1` while the MOVC
is in Memory and the NOP in Execute. -/
def distance1_program : List APEX_Instruction :=
  [ { opcode_str := "MOVC", opcode := Opcode.MOVC, rd := 1, rs1 := -1, rs2 := -1, imm := 1 },
    { opcode_str := "NOP", opcode := Opcode.NOP, rd := -1, rs1 := -1, rs2 := -1, imm := 0 },
    { opcode_str := "ADD", opcode := Opcode.ADD, rd := 2, rs1 := 1, rs2 := 1, imm := 0 },
    { opcode_str := "HALT", opcode := Opcode.HALT, rd := -1, rs1 := -1, rs2 := -1, imm := 0 } ]

/-- The instruction in the Execute latch is a JUMP, or a BZ/BNZ/BP/BNP whose
flag condition holds: `APEX_execute` performs a control transfer. -/
def taken (cpu : APEX_CPU) : Bool :=
  cpu.execute.has_insn &&
    match cpu.execute.opcode with
    | Opcode.BZ => cpu.zero_flag
    | Opcode.BNZ => !cpu.zero_flag
    | Opcode.BP => cpu.positive_flag
    | Opcode.BNP => !cpu.positive_flag
    | Opcode.JUMP => true
    | _ => false

/-- The address a taken transfer writes to `pc`: `rs1_value + imm` for JUMP,
the branch's own `pc + imm` for the conditional branches. -/
def transfer_target (cpu : APEX_CPU) : Int :=
  match cpu.execute.opcode with
  | Opcode.JUMP => wrap32 (cpu.execute.rs1_value + cpu.execute.imm)
  | _ => wrap32 (cpu.execute.pc + cpu.execute.imm)

/-- The pair of pending destinations after `get_mem_dest` / `get_ex_dest` has
looked at latch `l`: the captured registers when `l` is occupied by an opcode
the `switch` lists, the previous pair otherwise. -/
def captured (l : CPU_Stage) (old old1 : Int) : Int × Int :=
  if l.has_insn then
    match l.opcode with
    | Opcode.ADD | Opcode.SUB | Opcode.MUL | Opcode.DIV | Opcode.AND | Opcode.OR
    | Opcode.XOR | Opcode.MOVC | Opcode.LOAD | Opcode.ADDL | Opcode.SUBL => (l.rd, -1)
    | Opcode.LDI => (l.rd, l.rs1)
    | Opcode.STI => (l.rs2, -1)
    | _ => (old, old1)
  else (old, old1)

/-- Some source register of the instruction in latch `d` equals one of the
two pending destinations `x`, `x1`: the condition under which a dependency
check sets the stall counter. -/
def dep_match (d : CPU_Stage) (x x1 : Int) : Prop :=
  ∃ r ∈ d.srcs, r = x ∨ r = x1

instance (d : CPU_Stage) (x x1 : Int) : Decidable (dep_match d x x1) := by
  unfold dep_match; infer_instance

/-- The pending Memory destinations the hazard check of the tick starting in
`cpu` compares against: captured from the Memory latch, or left over. -/
def pending_mem (cpu : APEX_CPU) : Int × Int :=
  captured cpu.memory cpu.mem_dest cpu.mem_dest1

/-- The pending Execute destinations the hazard check of the tick starting in
`cpu` compares against: captured from the Execute latch, or left over. -/
def pending_ex (cpu : APEX_CPU) : Int × Int :=
  captured cpu.execute cpu.ex_dest cpu.ex_dest1

/-- The Decode latch holds an instruction at the hazard check of the tick that
starts in `cpu`: it is occupied and Execute does not flush it. -/
def decode_checked (cpu : APEX_CPU) : Prop :=
  cpu.decode.has_insn = true ∧ taken cpu = false

instance (cpu : APEX_CPU) : Decidable (decode_checked cpu) := by
  unfold decode_checked; infer_instance

/-- Decode and Fetch advance in the tick that starts in `cpu`: `stall_count`
is 0 after the hazard check, so `APEX_cpu_run` calls `APEX_decode` and
`APEX_fetch` (and not `stall_fetch`). -/
def advances (cpu : APEX_CPU) : Prop := (hazard_check cpu).1.stall_count = 0

instance (cpu : APEX_CPU) : Decidable (advances cpu) := by
  unfold advances; infer_instance

/-- In the tick that starts in `cpu`, `APEX_fetch` is called and fetches an
instruction: Decode and Fetch advance, Fetch is enabled and the skip flag is
not armed. -/
def fetches (cpu : APEX_CPU) : Prop :=
  advances cpu ∧ (hazard_check cpu).1.fetch.has_insn = true ∧
    (hazard_check cpu).1.fetch_from_next_cycle = false

instance (cpu : APEX_CPU) : Decidable (fetches cpu) := by
  unfold fetches; infer_instance

/-- The states at the start of a tick of a run on code memory `code`: the
state in which `APEX_cpu_run` enters its loop, and the state after every
complete loop iteration. -/
inductive Reachable (code : List APEX_Instruction) : APEX_CPU → Prop
  | start : Reachable code (APEX_cpu_start code)
  | cycle (s : APEX_CPU) : Reachable code s → Reachable code (APEX_cpu_cycle s)

/-- Facts about the latches at the start of a tick that every run maintains. -/
structure Inv (s : APEX_CPU) : Prop where
  /-- An instruction is in Execute only if the stall counter is 0. -/
  stall_free : s.execute.has_insn = true → s.stall_count = 0
  /-- The skip flag is not armed. -/
  no_skip : s.fetch_from_next_cycle = false
  /-- Fetch is disabled only behind a HALT. -/
  halt_fetched : s.decode.has_insn = true → s.fetch.has_insn = false →
    s.decode.opcode = Opcode.HALT
  /-- Execute is followed by an empty Decode only when it holds the HALT. -/
  halt_last : s.execute.has_insn = true → s.decode.has_insn = false →
    s.execute.opcode = Opcode.HALT
  /-- The pending Execute destinations are both "none", unless neither Execute
  nor Memory has held an instruction yet. -/
  ex_fresh : (s.ex_dest = -1 ∧ s.ex_dest1 = -1) ∨
    (s.execute.has_insn = false ∧ s.memory.has_insn = false)

/-- Every source register index an instruction of the program reads is a
valid (non-negative) register index. -/
def srcs_nonneg (code : List APEX_Instruction) : Prop :=
  ∀ i ∈ code, ∀ r ∈ i.srcs, 0 ≤ r

instance (code : List APEX_Instruction) : Decidable (srcs_nonneg code) := by
  unfold srcs_nonneg; infer_instance

/-- The instruction a latch holds: the fields `APEX_fetch` copied into it from
code memory. -/
def CPU_Stage.insn (l : CPU_Stage) : APEX_Instruction :=
  { opcode_str := l.opcode_str, opcode := l.opcode, rd := l.rd, rs1 := l.rs1, rs2 := l.rs2,
    imm := l.imm }

/-! ### Bookkeeping for the order of retirement

The C code does not number the instructions it has in flight.  To state the
order of retirement, a run is accompanied by a `History`, which no stage
function reads: for each latch the number of the tick in which `APEX_fetch`
fetched the instruction the latch holds, and the log of retirements.  A tag
moves with its instruction exactly when the C code copies the latch
(`writeback = memory`, `memory = execute`, `execute = decode`,
`decode = fetch`). -/

/-- The bookkeeping beside a CPU state at the start of tick `tick`. -/
structure History where
  /-- Number of the tick about to run (the value of `clock`). -/
  tick : Nat
  /-- Tick in which the instruction in the Decode latch was fetched. -/
  decode : Nat
  /-- Tick in which the instruction in the Execute latch was fetched. -/
  execute : Nat
  /-- Tick in which the instruction in the Memory latch was fetched. -/
  memory : Nat
  /-- Tick in which the instruction in the Writeback latch was fetched. -/
  writeback : Nat
  /-- Retirements so far, most recent first: (tick of retirement, tick of fetch). -/
  retired : List (Nat × Nat)

/-- The bookkeeping when the loop is entered. -/
def History.start : History :=
  { tick := 1, decode := 0, execute := 0, memory := 0, writeback := 0, retired := [] }

/-- The bookkeeping after the tick that starts in CPU state `s`. -/
def History.cycle (g : History) (s : APEX_CPU) : History :=
  { tick := g.tick + 1
    retired := if retires s then (g.tick, g.writeback) :: g.retired else g.retired
    writeback := if s.memory.has_insn then g.memory else g.writeback
    memory := if s.execute.has_insn then g.execute else g.memory
    execute := if advances s ∧ decode_checked s then g.decode else g.execute
    decode := if fetches s then g.tick else g.decode }

/-- The bookkeeping at the start of tick `n + 1` of the run on `code`. -/
def history (code : List APEX_Instruction) : Nat → History
  | 0 => History.start
  | n + 1 => (history code n).cycle (ticks n (APEX_cpu_start code))

/-- Latch `l` holds the instruction that `APEX_fetch` fetched in tick `f` of
the run on `code`: a fetch took place in that tick, and the instruction and
address it placed in Decode are those in `l`. -/
def Fetched (code : List APEX_Instruction) (f : Nat) (l : CPU_Stage) : Prop :=
  1 ≤ f ∧ fetches (ticks (f - 1) (APEX_cpu_start code)) ∧
    l.insn = (ticks f (APEX_cpu_start code)).decode.insn ∧
    l.pc = (ticks f (APEX_cpu_start code)).decode.pc

instance (code : List APEX_Instruction) (f : Nat) (l : CPU_Stage) :
    Decidable (Fetched code f l) := by
  unfold Fetched; infer_instance

/-- What links the bookkeeping `g` to the CPU state `s` at the start of tick
`n + 1`: every occupied latch holds the instruction fetched in the tick its
tag names, the tags of occupied latches decrease along the pipeline, and every
logged retirement is of an instruction fetched before all those in flight. -/
structure Tracks (code : List APEX_Instruction) (n : Nat) (s : APEX_CPU) (g : History) :
    Prop where
  tick : g.tick = n + 1
  d : s.decode.has_insn = true → Fetched code g.decode s.decode ∧ g.decode ≤ n
  e : s.execute.has_insn = true → Fetched code g.execute s.execute ∧ g.execute ≤ n
  m : s.memory.has_insn = true → Fetched code g.memory s.memory ∧ g.memory ≤ n
  w : s.writeback.has_insn = true → Fetched code g.writeback s.writeback ∧ g.writeback ≤ n
  wm : s.writeback.has_insn = true → s.memory.has_insn = true → g.writeback < g.memory
  we : s.writeback.has_insn = true → s.execute.has_insn = true → g.writeback < g.execute
  wd : s.writeback.has_insn = true → s.decode.has_insn = true → g.writeback < g.decode
  me : s.memory.has_insn = true → s.execute.has_insn = true → g.memory < g.execute
  md : s.memory.has_insn = true → s.decode.has_insn = true → g.memory < g.decode
  ed : s.execute.has_insn = true → s.decode.has_insn = true → g.execute < g.decode
  past : ∀ p ∈ g.retired, p.1 ≤ n ∧ p.2 < p.1
  below : ∀ p ∈ g.retired,
    (s.writeback.has_insn = true → p.2 < g.writeback) ∧
    (s.memory.has_insn = true → p.2 < g.memory) ∧
    (s.execute.has_insn = true → p.2 < g.execute) ∧
    (s.decode.has_insn = true → p.2 < g.decode)

/-- The retirement log after `n` ticks is faithful: every entry `(r, f)`
records that in tick `r` the Writeback latch was occupied, by the instruction
fetched in tick `f < r`; every tick up to `n` in which an instruction retired
has an entry; and along the log (most recent first) the ticks of retirement
and the ticks of fetch both decrease strictly. -/
structure LogOK (code : List APEX_Instruction) (n : Nat) (log : List (Nat × Nat)) : Prop where
  valid : ∀ p ∈ log, 1 ≤ p.1 ∧ p.1 ≤ n ∧ p.2 < p.1 ∧
    retires (ticks (p.1 - 1) (APEX_cpu_start code)) = true ∧
    Fetched code p.2 (ticks (p.1 - 1) (APEX_cpu_start code)).writeback
  complete : ∀ r, 1 ≤ r → r ≤ n → retires (ticks (r - 1) (APEX_cpu_start code)) = true →
    ∃ f, (r, f) ∈ log
  sorted : log.Pairwise fun later earlier => earlier.1 < later.1 ∧ earlier.2 < later.2

/-- The instruction in the Decode latch of `s` is stalled for exactly `k`
ticks: in each of the `k` ticks starting in `s` Decode and Fetch do not advance
(`stall_count` is not 0 after the hazard check, `pc` and the Decode latch keep
their values and nothing enters Execute), and in the tick after those they do
advance, the instruction moving from Decode to Execute. -/
def stalls_for (k : Nat) (s : APEX_CPU) : Prop :=
  (∀ i < k, ¬ advances (ticks i s) ∧ (ticks (i + 1) s).pc = s.pc ∧
    (ticks (i + 1) s).decode = s.decode ∧ (ticks (i + 1) s).execute.has_insn = false) ∧
  advances (ticks k s) ∧ (ticks (k + 1) s).execute.has_insn = true ∧
  (ticks (k + 1) s).execute.insn = s.decode.insn ∧
  (ticks (k + 1) s).execute.pc = s.decode.pc

instance (k : Nat) (s : APEX_CPU) : Decidable (stalls_for k s) := by
  unfold stalls_for; infer_instance

/-! ## Notions used to state the stage properties -/

/-- The integer `x` is a value of a 32-bit two's complement `int`. -/
def int32 (x : Int) : Prop := -2147483648 ≤ x ∧ x ≤ 2147483647

instance (x : Int) : Decidable (int32 x) := by
  unfold int32; infer_instance

/-- The opcode table of the specification for the arithmetic category: the
mathematical result of an instruction with operand values `a` (first source),
`b` (second source) and immediate `imm`.  `none` for the opcodes outside the
category and for a division by zero. -/
def arith_spec (o : Opcode) (a b imm : Int) : Option Int :=
  match o with
  | Opcode.ADD => some (a + b)
  | Opcode.SUB => some (a - b)
  | Opcode.MUL => some (a * b)
  | Opcode.DIV => if b = 0 then none else some (Int.tdiv a b)
  | Opcode.AND => some (Int.land a b)
  | Opcode.OR => some (Int.lor a b)
  | Opcode.XOR => some (Int.xor a b)
  | Opcode.ADDL => some (a + imm)
  | Opcode.SUBL => some (a - imm)
  | Opcode.MOVC => some imm
  | _ => none

/-- The opcodes whose execution sets the two flags from the result. -/
def sets_flags_from_result (o : Opcode) : Bool :=
  match o with
  | Opcode.ADD | Opcode.SUB | Opcode.MUL | Opcode.DIV | Opcode.AND | Opcode.OR
  | Opcode.XOR | Opcode.ADDL | Opcode.SUBL => true
  | _ => false

/-- The opcodes for which `APEX_writeback` writes `result_buffer` to `regs[rd]`
and nothing else. -/
def writes_rd (o : Opcode) : Bool :=
  match o with
  | Opcode.ADD | Opcode.SUB | Opcode.MUL | Opcode.DIV | Opcode.AND | Opcode.OR
  | Opcode.XOR | Opcode.MOVC | Opcode.LOAD | Opcode.ADDL | Opcode.SUBL => true
  | _ => false

/-- The opcodes of the last group of cases in the `switch` of `APEX_writeback`,
which writes no register: STORE, the branches, CMP, JUMP, HALT and NOP. -/
def writes_no_register (o : Opcode) : Bool :=
  match o with
  | Opcode.STORE | Opcode.BZ | Opcode.BNZ | Opcode.BP | Opcode.BNP | Opcode.CMP
  | Opcode.JUMP | Opcode.HALT | Opcode.NOP => true
  | _ => false

/-- State `t` shows a control transfer to `target`: `pc` is the target, the
skip flag is armed, Decode is emptied and Fetch is enabled. -/
def transferred (t : APEX_CPU) (target : Int) : Prop :=
  t.pc = target ∧ t.fetch_from_next_cycle = true ∧ t.decode.has_insn = false ∧
    t.fetch.has_insn = true

/-- State `t` is state `s` without a control transfer: `pc`, the occupancy of
Decode, `fetch.has_insn` and the skip flag are those of `s`. -/
def not_transferred (s t : APEX_CPU) : Prop :=
  t.pc = s.pc ∧ t.decode.has_insn = s.decode.has_insn ∧
    t.fetch.has_insn = s.fetch.has_insn ∧
    t.fetch_from_next_cycle = s.fetch_from_next_cycle

/-- An instruction whose opcode is none of the recognised ones, then HALT. -/
def unknown_program : List APEX_Instruction :=
  [ { opcode_str := "FOO", opcode := Opcode.OTHER, rd := 1, rs1 := 2, rs2 := 3, imm := 4 },
    { opcode_str := "HALT", opcode := Opcode.HALT, rd := -1, rs1 := -1, rs2 := -1, imm := 0 } ]

/-- `LDI R1,R1,#0 ; HALT`: an auto-increment load whose destination is its
base register. -/
def ldi_same_register : List APEX_Instruction :=
  [ { opcode_str := "LDI", opcode := Opcode.LDI, rd := 1, rs1 := 1, rs2 := -1, imm := 0 },
    { opcode_str := "HALT", opcode := Opcode.HALT, rd := -1, rs1 := -1, rs2 := -1, imm := 0 } ]

/-- `MOVC R1,#42 ; MOVC R2,#8 ; NOP ; NOP ; STORE R1,R2,#0 ; LOAD R3,R2,#0 ; HALT`:
a STORE immediately followed by a LOAD from the same address 8. -/
def store_load_program : List APEX_Instruction :=
  [ { opcode_str := "MOVC", opcode := Opcode.MOVC, rd := 1, rs1 := -1, rs2 := -1, imm := 42 },
    { opcode_str := "MOVC", opcode := Opcode.MOVC, rd := 2, rs1 := -1, rs2 := -1, imm := 8 },
    { opcode_str := "NOP", opcode := Opcode.NOP, rd := -1, rs1 := -1, rs2 := -1, imm := 0 },
    { opcode_str := "NOP", opcode := Opcode.NOP, rd := -1, rs1 := -1, rs2 := -1, imm := 0 },
    { opcode_str := "STORE", opcode := Opcode.STORE, rd := -1, rs1 := 1, rs2 := 2, imm := 0 },
    { opcode_str := "LOAD", opcode := Opcode.LOAD, rd := 3, rs1 := 2, rs2 := -1, imm := 0 },
    { opcode_str := "HALT", opcode := Opcode.HALT, rd := -1, rs1 := -1, rs2 := -1, imm := 0 } ]

/-- `MOVC R1,#-2147483648 ; MOVC R2,#1 ; NOP ; NOP ; CMP R1,R2 ; HALT`: a
compare whose difference `R1 - R2` is not an `int`. -/
def cmp_program : List APEX_Instruction :=
  [ { opcode_str := "MOVC", opcode := Opcode.MOVC, rd := 1, rs1 := -1, rs2 := -1,
      imm := -2147483648 },
    { opcode_str := "MOVC", opcode := Opcode.MOVC, rd := 2, rs1 := -1, rs2 := -1, imm := 1 },
    { opcode_str := "NOP", opcode := Opcode.NOP, rd := -1, rs1 := -1, rs2 := -1, imm := 0 },
    { opcode_str := "NOP", opcode := Opcode.NOP, rd := -1, rs1 := -1, rs2 := -1, imm := 0 },
    { opcode_str := "CMP", opcode := Opcode.CMP, rd := -1, rs1 := 1, rs2 := 2, imm := 0 },
    { opcode_str := "HALT", opcode := Opcode.HALT, rd := -1, rs1 := -1, rs2 := -1, imm := 0 } ]

/-- Scenario 3 at the start of tick 4: the BZ is in Execute, the zero flag is
set. -/
def scenario3_at_branch : APEX_CPU := ticks 3 (APEX_cpu_start scenario3)

/-- The program `LDI R1,R1,#0 ; HALT` at the start of tick 5: the LDI is in
Writeback with `result_buffer = 0` (the value loaded) and `result_buffer1 = 4`
(the incremented base address). -/
def ldi_at_writeback : APEX_CPU := ticks 4 (APEX_cpu_start ldi_same_register)

/-- The program `store_load_program` at the start of tick 8: the STORE is in
Memory with address 8 and payload 42. -/
def store_at_memory : APEX_CPU := ticks 7 (APEX_cpu_start store_load_program)

/-! ## What each stage does to the latch it holds

The stage functions of the C file act on the whole `APEX_CPU`.  The functions
below isolate, case by case after the same `switch`, what a stage does with
the one latch it works on; lemmas further down link each of them to the stage
function it is read from. -/

/-- The register bank after `APEX_writeback` has committed the instruction in
latch `w` (the `switch` of `APEX_writeback`). -/
def wb_regs (w : CPU_Stage) (regs : Int → Int) : Int → Int :=
  match w.opcode with
  | Opcode.ADD | Opcode.SUB | Opcode.MUL | Opcode.DIV | Opcode.AND | Opcode.OR
  | Opcode.XOR | Opcode.MOVC | Opcode.LOAD | Opcode.ADDL | Opcode.SUBL =>
      arr_set regs w.rd w.result_buffer
  | Opcode.LDI => arr_set (arr_set regs w.rd w.result_buffer) w.rs1 w.result_buffer1
  | Opcode.STI => arr_set regs w.rs2 w.result_buffer
  | _ => regs

/-- The latch `APEX_memory` hands to Writeback for the instruction in latch
`m`: the loads read `data_memory[memory_address]` into `result_buffer`. -/
def mem_latch (m : CPU_Stage) (data_memory : Int → Int) : CPU_Stage :=
  match m.opcode with
  | Opcode.LOAD | Opcode.LDI => { m with result_buffer := data_memory m.memory_address }
  | _ => m

/-- The data memory after `APEX_memory` has processed the instruction in latch
`m`: the stores write `rs1_value` to `data_memory[memory_address]`. -/
def mem_data (m : CPU_Stage) (data_memory : Int → Int) : Int → Int :=
  match m.opcode with
  | Opcode.STORE | Opcode.STI => arr_set data_memory m.memory_address m.rs1_value
  | _ => data_memory

/-- The result the arithmetic cases of `APEX_execute` compute, `none` for the
other opcodes. -/
def ex_result (e : CPU_Stage) : Option Int :=
  match e.opcode with
  | Opcode.ADD => some (wrap32 (e.rs1_value + e.rs2_value))
  | Opcode.SUB => some (wrap32 (e.rs1_value - e.rs2_value))
  | Opcode.MUL => some (wrap32 (e.rs1_value * e.rs2_value))
  | Opcode.DIV => some (wrap32 (Int.tdiv e.rs1_value e.rs2_value))
  | Opcode.AND => some (Int.land e.rs1_value e.rs2_value)
  | Opcode.OR => some (Int.lor e.rs1_value e.rs2_value)
  | Opcode.XOR => some (Int.xor e.rs1_value e.rs2_value)
  | Opcode.ADDL => some (wrap32 (e.rs1_value + e.imm))
  | Opcode.SUBL => some (wrap32 (e.rs1_value - e.imm))
  | _ => none

/-- The latch `APEX_execute` hands to Memory for the instruction in latch `e`
(the `switch` of `APEX_execute`, as far as it writes the latch). -/
def ex_latch (e : CPU_Stage) : CPU_Stage :=
  match e.opcode with
  | Opcode.ADD | Opcode.SUB | Opcode.MUL | Opcode.DIV | Opcode.AND | Opcode.OR
  | Opcode.XOR | Opcode.ADDL | Opcode.SUBL =>
      { e with result_buffer := (ex_result e).getD 0 }
  | Opcode.MOVC => { e with result_buffer := wrap32 (e.imm + 0) }
  | Opcode.LOAD => { e with memory_address := wrap32 (e.rs1_value + e.imm) }
  | Opcode.LDI =>
      { e with
        memory_address := wrap32 (e.rs1_value + e.imm)
        result_buffer1 := wrap32 (e.rs1_value + 4) }
  | Opcode.STORE => { e with memory_address := wrap32 (e.rs2_value + e.imm) }
  | Opcode.STI =>
      { e with
        memory_address := wrap32 (e.rs2_value + e.imm)
        result_buffer := wrap32 (e.rs2_value + 4) }
  | _ => e

/-- The zero flag after `APEX_execute` has processed the instruction in latch
`e`; `z` is the flag before. -/
def ex_zero (e : CPU_Stage) (z : Bool) : Bool :=
  match e.opcode with
  | Opcode.ADD | Opcode.SUB | Opcode.MUL | Opcode.DIV | Opcode.AND | Opcode.OR
  | Opcode.XOR | Opcode.ADDL | Opcode.SUBL => decide ((ex_result e).getD 0 = 0)
  | Opcode.CMP => decide (e.rs1_value = e.rs2_value)
  | _ => z

/-- The positive flag after `APEX_execute` has processed the instruction in
latch `e`; `p` is the flag before. -/
def ex_positive (e : CPU_Stage) (p : Bool) : Bool :=
  match e.opcode with
  | Opcode.ADD | Opcode.SUB | Opcode.MUL | Opcode.DIV | Opcode.AND | Opcode.OR
  | Opcode.XOR | Opcode.ADDL | Opcode.SUBL => decide ((ex_result e).getD 0 > 0)
  | Opcode.CMP => decide (e.rs1_value > e.rs2_value)
  | _ => p

/-- The latch `APEX_decode` hands to Execute for the instruction in latch `d`:
the source registers of the opcode's operand shape are read from `regs`. -/
def dec_latch (d : CPU_Stage) (regs : Int → Int) : CPU_Stage :=
  match d.opcode with
  | Opcode.ADD | Opcode.SUB | Opcode.MUL | Opcode.DIV | Opcode.AND | Opcode.OR
  | Opcode.XOR | Opcode.STORE | Opcode.STI | Opcode.CMP =>
      { d with rs1_value := regs d.rs1, rs2_value := regs d.rs2 }
  | Opcode.LOAD | Opcode.ADDL | Opcode.SUBL | Opcode.LDI | Opcode.JUMP =>
      { d with rs1_value := regs d.rs1 }
  | _ => d

/-- The latch `APEX_fetch` places in Decode for instruction `i` at address
`pc`, when the value fields of the fetch latch are still as `calloc` left
them. -/
def fetched_latch (i : APEX_Instruction) (pc : Int) : CPU_Stage :=
  { CPU_Stage.zero with
    pc := pc
    opcode_str := i.opcode_str
    opcode := i.opcode
    rd := i.rd
    rs1 := i.rs1
    rs2 := i.rs2
    imm := i.imm
    has_insn := true }

/-- The value fields of a latch (operand values, result buffers, memory
address) are all 0, as `calloc` leaves them. -/
def CPU_Stage.blank (l : CPU_Stage) : Prop :=
  l.rs1_value = 0 ∧ l.rs2_value = 0 ∧ l.result_buffer = 0 ∧ l.result_buffer1 = 0 ∧
    l.memory_address = 0

instance (l : CPU_Stage) : Decidable l.blank := by
  unfold CPU_Stage.blank; infer_instance

/-! ## Sequential execution

The reference the pipeline is compared with: the instructions executed one at
a time in program order on the architectural state (register bank, data
memory, the two flags), each with the effect the opcode table gives it. -/

/-- The architectural state: register bank, data memory and the two flags. -/
structure Arch where
  regs : Int → Int
  data_memory : Int → Int
  zero_flag : Bool
  positive_flag : Bool

/-- The architectural state `APEX_cpu_init` sets up: everything zero. -/
def Arch.init : Arch :=
  { regs := fun _ => 0, data_memory := fun _ => 0, zero_flag := false, positive_flag := false }

/-- The architectural part of a CPU state. -/
def APEX_CPU.arch (s : APEX_CPU) : Arch :=
  { regs := s.regs, data_memory := s.data_memory, zero_flag := s.zero_flag,
    positive_flag := s.positive_flag }

/-- Effect of an arithmetic instruction with result `r`: write `rd`, set the
flags from the result. -/
def seq_arith (i : APEX_Instruction) (a : Arch) (r : Int) : Arch :=
  { a with regs := arr_set a.regs i.rd r, zero_flag := decide (r = 0),
           positive_flag := decide (r > 0) }

/-- One instruction executed on the architectural state, after the opcode
table: arithmetic writes `rd` and sets the flags from the result (computed as
32-bit `int`), MOVC writes the immediate, CMP sets the flags by direct
comparison, LOAD/LDI read `data_memory[rs1 + imm]` into `rd`, STORE/STI write
the value of `rs1` to `data_memory[rs2 + imm]`, LDI then adds one word (4) to
`rs1` and STI to `rs2`.  HALT, NOP, the control transfers and unrecognised
opcodes change nothing. -/
def seq_step (i : APEX_Instruction) (a : Arch) : Arch :=
  match i.opcode with
  | Opcode.ADD => seq_arith i a (wrap32 (a.regs i.rs1 + a.regs i.rs2))
  | Opcode.SUB => seq_arith i a (wrap32 (a.regs i.rs1 - a.regs i.rs2))
  | Opcode.MUL => seq_arith i a (wrap32 (a.regs i.rs1 * a.regs i.rs2))
  | Opcode.DIV => seq_arith i a (wrap32 (Int.tdiv (a.regs i.rs1) (a.regs i.rs2)))
  | Opcode.AND => seq_arith i a (Int.land (a.regs i.rs1) (a.regs i.rs2))
  | Opcode.OR => seq_arith i a (Int.lor (a.regs i.rs1) (a.regs i.rs2))
  | Opcode.XOR => seq_arith i a (Int.xor (a.regs i.rs1) (a.regs i.rs2))
  | Opcode.ADDL => seq_arith i a (wrap32 (a.regs i.rs1 + i.imm))
  | Opcode.SUBL => seq_arith i a (wrap32 (a.regs i.rs1 - i.imm))
  | Opcode.MOVC => { a with regs := arr_set a.regs i.rd (wrap32 i.imm) }
  | Opcode.CMP =>
      { a with
        zero_flag := decide (a.regs i.rs1 = a.regs i.rs2)
        positive_flag := decide (a.regs i.rs1 > a.regs i.rs2) }
  | Opcode.LOAD =>
      { a with regs := arr_set a.regs i.rd (a.data_memory (wrap32 (a.regs i.rs1 + i.imm))) }
  | Opcode.LDI =>
      { a with
        regs := arr_set
          (arr_set a.regs i.rd (a.data_memory (wrap32 (a.regs i.rs1 + i.imm))))
          i.rs1 (wrap32 (a.regs i.rs1 + 4)) }
  | Opcode.STORE =>
      { a with
        data_memory := arr_set a.data_memory (wrap32 (a.regs i.rs2 + i.imm)) (a.regs i.rs1) }
  | Opcode.STI =>
      { a with
        data_memory := arr_set a.data_memory (wrap32 (a.regs i.rs2 + i.imm)) (a.regs i.rs1)
        regs := arr_set a.regs i.rs2 (wrap32 (a.regs i.rs2 + 4)) }
  | _ => a

/-- Sequential execution of a program from architectural state `a`: the
instructions one at a time in program order, up to the first HALT. -/
def seq_run : List APEX_Instruction → Arch → Arch
  | [], a => a
  | i :: rest, a => if i.opcode = Opcode.HALT then a else seq_run rest (seq_step i a)

/-- The architectural state after the first `k` instructions of `code` have
been executed one at a time from the initial state. -/
def seq_upto (code : List APEX_Instruction) (k : Nat) : Arch :=
  (code.take k).foldl (fun a i => seq_step i a) Arch.init

/-- Instruction number `k` of the program (counted from 0). -/
def insn_at (code : List APEX_Instruction) (k : Nat) : APEX_Instruction :=
  code.getD k APEX_Instruction.none

/-- The address of instruction number `k`. -/
def pc_of (k : Nat) : Int := 4000 + 4 * (k : Int)

/-- The latch of instruction `k` as Decode hands it to Execute in a run that
agrees with sequential execution: its sources read from the register bank
after the first `k` instructions. -/
def decoded (code : List APEX_Instruction) (k : Nat) : CPU_Stage :=
  dec_latch (fetched_latch (insn_at code k) (pc_of k)) (seq_upto code k).regs

/-- The latch of instruction `k` as Execute hands it to Memory. -/
def executed (code : List APEX_Instruction) (k : Nat) : CPU_Stage :=
  ex_latch (decoded code k)

/-- The latch of instruction `k` as Memory hands it to Writeback. -/
def accessed (code : List APEX_Instruction) (k : Nat) : CPU_Stage :=
  mem_latch (executed code k) (seq_upto code k).data_memory

/-! ### Counting the instructions in flight -/

/-- 1 for an occupied latch, 0 for an empty one. -/
def occ (l : CPU_Stage) : Nat := if l.has_insn then 1 else 0

/-- Number of instructions that have left Writeback (retired). -/
def n_wb (s : APEX_CPU) : Nat := s.insn_completed.toNat

/-- Number of instructions that have left Memory. -/
def n_mem (s : APEX_CPU) : Nat := n_wb s + occ s.writeback

/-- Number of instructions that have left Execute. -/
def n_ex (s : APEX_CPU) : Nat := n_mem s + occ s.memory

/-- Number of instructions that have left Decode. -/
def n_dec (s : APEX_CPU) : Nat := n_ex s + occ s.execute

/-- Number of instructions fetched. -/
def n_fetch (s : APEX_CPU) : Nat := n_dec s + occ s.decode

/-- A straight-line program whose first HALT is instruction number `H`: no
instruction up to `H` is a control transfer, the instructions before `H` are
not HALT, their source register indices are non-negative, and the addresses
up to that of the instruction after the HALT are values of a 32-bit `int`. -/
structure StraightLine (code : List APEX_Instruction) (H : Nat) : Prop where
  in_code : H < code.length
  halt : (insn_at code H).opcode = Opcode.HALT
  first : ∀ k < H, (insn_at code k).opcode ≠ Opcode.HALT
  no_transfer : ∀ k ≤ H, (insn_at code k).opcode ≠ Opcode.BZ ∧
    (insn_at code k).opcode ≠ Opcode.BNZ ∧ (insn_at code k).opcode ≠ Opcode.BP ∧
    (insn_at code k).opcode ≠ Opcode.BNP ∧ (insn_at code k).opcode ≠ Opcode.JUMP
  srcs : ∀ k ≤ H, ∀ r ∈ (insn_at code k).srcs, 0 ≤ r
  fits : pc_of (H + 1) ≤ 2147483647

/-- The pipeline state `s` agrees with sequential execution of the
straight-line program `code` (first HALT at `H`): counting the instructions
that have left each stage, every occupied latch holds exactly what its stage
produces for the instruction of that number in a sequential run; the register
bank is that after the retired instructions, the data memory that after the
instructions that have left Memory, the flags those after the instructions
that have left Execute; `pc` is the address of the next instruction to fetch,
and Fetch is enabled until the HALT has been fetched. -/
structure Agrees (code : List APEX_Instruction) (H : Nat) (s : APEX_CPU) : Prop where
  code_eq : s.code_memory = code
  completed : 0 ≤ s.insn_completed
  d : s.decode.has_insn = true →
    s.decode = fetched_latch (insn_at code (n_dec s)) (pc_of (n_dec s))
  e : s.execute.has_insn = true → s.execute = decoded code (n_ex s)
  m : s.memory.has_insn = true → s.memory = executed code (n_mem s)
  w : s.writeback.has_insn = true → s.writeback = accessed code (n_wb s)
  regs : s.regs = (seq_upto code (n_wb s)).regs
  data_memory : s.data_memory = (seq_upto code (n_mem s)).data_memory
  zero_flag : s.zero_flag = (seq_upto code (n_ex s)).zero_flag
  positive_flag : s.positive_flag = (seq_upto code (n_ex s)).positive_flag
  pc : s.pc = pc_of (n_fetch s)
  bound : n_fetch s ≤ H + 1
  fetch_on : s.fetch.has_insn = decide (n_fetch s ≤ H)
  fetch_blank : s.fetch.blank
  no_skip : s.fetch_from_next_cycle = false

/-- Facts about the stall counter and the pending Memory destinations at the
start of a tick that every run maintains. -/
structure StallInv (s : APEX_CPU) : Prop where
  /-- The stall counter is 0, 1 or 2. -/
  range : s.stall_count = 0 ∨ s.stall_count = 1 ∨ s.stall_count = 2
  /-- A stall is pending only for an instruction held in Decode that reads a
  register. -/
  reader : s.stall_count ≠ 0 → s.decode.has_insn = true ∧ s.decode.srcs ≠ []
  /-- While Execute is occupied the pending Memory destinations are "none". -/
  mem_none : s.execute.has_insn = true → s.mem_dest = -1 ∧ s.mem_dest1 = -1

/-! ## Notions for the hazard bookkeeping, the flags and the fetch address -/

/-- The state on which the two dependency checks run in the tick that starts
in `cpu`: the display markers reset, then Writeback, Memory, `get_mem_dest`,
Execute and `get_ex_dest` done.  `hazard_check` is `check_mem_dependency`
followed by `check_ex_dependency` on this state. -/
def before_checks (cpu : APEX_CPU) : APEX_CPU :=
  get_ex_dest (APEX_execute (get_mem_dest (APEX_memory (APEX_writeback
    { cpu with wp := true, mp := true, ep := true, dp := true, fp := true,
               regf := fun _ => 0 }).1)))

/-- `MOVC R1,#5 ; BNZ #8 ; NOP ; ADD R2,R1,R1 ; HALT`: the BNZ is taken (the
zero flag is clear) and jumps over the NOP to the ADD, which reads the register
the MOVC wrote. -/
def stale_program : List APEX_Instruction :=
  [ { opcode_str := "MOVC", opcode := Opcode.MOVC, rd := 1, rs1 := -1, rs2 := -1, imm := 5 },
    { opcode_str := "BNZ", opcode := Opcode.BNZ, rd := -1, rs1 := -1, rs2 := -1, imm := 8 },
    { opcode_str := "NOP", opcode := Opcode.NOP, rd := -1, rs1 := -1, rs2 := -1, imm := 0 },
    { opcode_str := "ADD", opcode := Opcode.ADD, rd := 2, rs1 := 1, rs2 := 1, imm := 0 },
    { opcode_str := "HALT", opcode := Opcode.HALT, rd := -1, rs1 := -1, rs2 := -1, imm := 0 } ]

/-- `MOVC R1,#1 ; MOVC R2,#2 ; ADD R3,R1,R2 ; HALT`: when the ADD is in Decode
one of its sources is written by the instruction in Memory and the other by the
instruction in Execute. -/
def both_match_program : List APEX_Instruction :=
  [ { opcode_str := "MOVC", opcode := Opcode.MOVC, rd := 1, rs1 := -1, rs2 := -1, imm := 1 },
    { opcode_str := "MOVC", opcode := Opcode.MOVC, rd := 2, rs1 := -1, rs2 := -1, imm := 2 },
    { opcode_str := "ADD", opcode := Opcode.ADD, rd := 3, rs1 := 1, rs2 := 2, imm := 0 },
    { opcode_str := "HALT", opcode := Opcode.HALT, rd := -1, rs1 := -1, rs2 := -1, imm := 0 } ]

/-- The opcodes that are neither arithmetic nor compare: MOVC, the loads and
stores, the control transfers, HALT and NOP. -/
def flag_neutral (o : Opcode) : Bool :=
  match o with
  | Opcode.MOVC | Opcode.LOAD | Opcode.LDI | Opcode.STORE | Opcode.STI | Opcode.BZ
  | Opcode.BNZ | Opcode.BP | Opcode.BNP | Opcode.JUMP | Opcode.HALT | Opcode.NOP => true
  | _ => false

/-- A straight-line code memory whose first HALT is instruction number `H`:
no instruction up to `H` is a control transfer, the instructions before `H`
are not HALT, and the addresses up to that of the instruction after the HALT
are values of a 32-bit `int`. -/
structure StraightCode (code : List APEX_Instruction) (H : Nat) : Prop where
  in_code : H < code.length
  halt : (insn_at code H).opcode = Opcode.HALT
  first : ∀ k < H, (insn_at code k).opcode ≠ Opcode.HALT
  no_transfer : ∀ k ≤ H, (insn_at code k).opcode ≠ Opcode.BZ ∧
    (insn_at code k).opcode ≠ Opcode.BNZ ∧ (insn_at code k).opcode ≠ Opcode.BP ∧
    (insn_at code k).opcode ≠ Opcode.BNP ∧ (insn_at code k).opcode ≠ Opcode.JUMP
  fits : pc_of (H + 1) ≤ 2147483647

/-- In the tick that starts in `cpu` the code memory is read: `APEX_fetch` is
called with Fetch enabled and the skip flag clear, or `stall_fetch` is called
with Fetch enabled. -/
def reads_code_memory (cpu : APEX_CPU) : Prop :=
  (hazard_check cpu).1.fetch.has_insn = true ∧
    (advances cpu → (hazard_check cpu).1.fetch_from_next_cycle = false)

instance (cpu : APEX_CPU) : Decidable (reads_code_memory cpu) := by
  unfold reads_code_memory; infer_instance

/-- The index at which `APEX_fetch` or `stall_fetch` reads the code memory in
the tick that starts in `cpu`: `get_code_memory_index_from_pc` of the `pc` the
call finds. -/
def code_index_read (cpu : APEX_CPU) : Int :=
  get_code_memory_index_from_pc (hazard_check cpu).1.pc

/-- Number of successful fetches in the first `n` ticks of the run on
`code`. -/
def fetch_count (code : List APEX_Instruction) : Nat → Nat
  | 0 => 0
  | n + 1 => fetch_count code n + if fetches (ticks n (APEX_cpu_start code)) then 1 else 0

/-- `MOVC R2,#77 ; MOVC R1,#8 ; NOP ; NOP ; STORE R2,R1,#0 ; LDI R1,R1,#0 ;
HALT`: the STORE puts 77 at address 8, and the LDI, whose destination is its
own base register `R1`, loads from address 8. -/
def ldi_lost_program : List APEX_Instruction :=
  [ { opcode_str := "MOVC", opcode := Opcode.MOVC, rd := 2, rs1 := -1, rs2 := -1, imm := 77 },
    { opcode_str := "MOVC", opcode := Opcode.MOVC, rd := 1, rs1 := -1, rs2 := -1, imm := 8 },
    { opcode_str := "NOP", opcode := Opcode.NOP, rd := -1, rs1 := -1, rs2 := -1, imm := 0 },
    { opcode_str := "NOP", opcode := Opcode.NOP, rd := -1, rs1 := -1, rs2 := -1, imm := 0 },
    { opcode_str := "STORE", opcode := Opcode.STORE, rd := -1, rs1 := 2, rs2 := 1, imm := 0 },
    { opcode_str := "LDI", opcode := Opcode.LDI, rd := 1, rs1 := 1, rs2 := -1, imm := 0 },
    { opcode_str := "HALT", opcode := Opcode.HALT, rd := -1, rs1 := -1, rs2 := -1, imm := 0 } ]

/-- The program `ldi_lost_program` at the start of tick 8: the LDI is in
Execute with `rs1_value = 8`. -/
def ldi_lost_at_execute : APEX_CPU := ticks 7 (APEX_cpu_start ldi_lost_program)

/-! ## Where the C operations are defined

`struct APEX_CPU` holds `int regs[REG_FILE_SIZE]`, `int regf[REG_FILE_SIZE]` and
`int data_memory[DATA_MEMORY_SIZE]`, and the code memory has as many elements
as the program has instructions.  A subscript outside its array is undefined
behaviour in C: the access lands on whatever lies next to the array.  The
native division `rs1_value / rs2_value` of the DIV case is undefined when the
divisor is 0 and when the quotient is no `int` value (`INT_MIN / -1`); the
process is killed there.  The embedding stores and divides all the same, so it
says what the C code does only where these cases do not occur.  The predicates
below describe that domain, stage by stage.

`apex_macros.h`, which fixes `REG_FILE_SIZE` and `DATA_MEMORY_SIZE`, is not
part of the sources: the two sizes are parameters, which stand for the values
the header gives them.  The examples take 16 registers and 4096 words of data
memory. -/

/-- Index `i` is a subscript inside an array of `size` elements. -/
def in_bounds (size i : Int) : Prop := 0 ≤ i ∧ i < size

instance (size i : Int) : Decidable (in_bounds size i) := by
  unfold in_bounds; infer_instance

/-- The subscripts `APEX_writeback` applies to `regs` for the instruction in
latch `w` are inside the array: `rd` for the arithmetic opcodes, MOVC and LOAD,
`rd` and `rs1` for LDI, `rs2` for STI (the `switch` of `APEX_writeback`). -/
def writeback_in_range (REG_FILE_SIZE : Int) (w : CPU_Stage) : Prop :=
  w.has_insn = true →
    match w.opcode with
    | Opcode.ADD | Opcode.SUB | Opcode.MUL | Opcode.DIV | Opcode.AND | Opcode.OR
    | Opcode.XOR | Opcode.MOVC | Opcode.LOAD | Opcode.ADDL | Opcode.SUBL =>
        in_bounds REG_FILE_SIZE w.rd
    | Opcode.LDI => in_bounds REG_FILE_SIZE w.rd ∧ in_bounds REG_FILE_SIZE w.rs1
    | Opcode.STI => in_bounds REG_FILE_SIZE w.rs2
    | _ => True

instance (REG_FILE_SIZE : Int) (w : CPU_Stage) :
    Decidable (writeback_in_range REG_FILE_SIZE w) := by
  unfold writeback_in_range; cases w.opcode <;> dsimp only <;> infer_instance

/-- The subscript `memory_address` that `APEX_memory` applies to `data_memory`
for the instruction in latch `m` (LOAD, LDI, STORE, STI) is inside the
array. -/
def memory_in_range (DATA_MEMORY_SIZE : Int) (m : CPU_Stage) : Prop :=
  m.has_insn = true →
    match m.opcode with
    | Opcode.LOAD | Opcode.LDI | Opcode.STORE | Opcode.STI =>
        in_bounds DATA_MEMORY_SIZE m.memory_address
    | _ => True

instance (DATA_MEMORY_SIZE : Int) (m : CPU_Stage) :
    Decidable (memory_in_range DATA_MEMORY_SIZE m) := by
  unfold memory_in_range; cases m.opcode <;> dsimp only <;> infer_instance

/-- The `int` division `a / b` is defined in C: the divisor is not 0 and the
quotient is a value of `int` (it is not for `INT_MIN / -1`). -/
def div_defined (a b : Int) : Prop := b ≠ 0 ∧ ¬ (a = -2147483648 ∧ b = -1)

instance (a b : Int) : Decidable (div_defined a b) := by
  unfold div_defined; infer_instance

/-- The division `APEX_execute` performs for the instruction in latch `e` (the
DIV case, `rs1_value / rs2_value`) is defined. -/
def execute_defined (e : CPU_Stage) : Prop :=
  e.has_insn = true → e.opcode = Opcode.DIV → div_defined e.rs1_value e.rs2_value

instance (e : CPU_Stage) : Decidable (execute_defined e) := by
  unfold execute_defined; infer_instance

/-- The source register indices of the instruction in latch `d` are inside the
register arrays: they are the subscripts `regs[rs1]`, `regs[rs2]` of
`APEX_decode` (by the operand shape of the opcode), and the subscript of
`regf` in `check_mem_dependency` and `check_ex_dependency` is a pending
destination that equals one of them. -/
def decode_in_range (REG_FILE_SIZE : Int) (d : CPU_Stage) : Prop :=
  d.has_insn = true →
    match d.opcode with
    | Opcode.ADD | Opcode.SUB | Opcode.MUL | Opcode.DIV | Opcode.AND | Opcode.OR
    | Opcode.XOR | Opcode.STORE | Opcode.STI | Opcode.CMP =>
        in_bounds REG_FILE_SIZE d.rs1 ∧ in_bounds REG_FILE_SIZE d.rs2
    | Opcode.LOAD | Opcode.ADDL | Opcode.SUBL | Opcode.LDI | Opcode.JUMP =>
        in_bounds REG_FILE_SIZE d.rs1
    | _ => True

instance (REG_FILE_SIZE : Int) (d : CPU_Stage) :
    Decidable (decode_in_range REG_FILE_SIZE d) := by
  unfold decode_in_range; cases d.opcode <;> dsimp only <;> infer_instance

/-- The tick that starts in `cpu` stays inside the arrays and divides only
where C defines the quotient: the register subscripts of Writeback, the data
memory subscript of Memory, the division of Execute, the source indices of the
instruction the hazard check finds in Decode, and the index of a read of the
code memory. -/
def tick_defined (REG_FILE_SIZE DATA_MEMORY_SIZE : Int) (cpu : APEX_CPU) : Prop :=
  writeback_in_range REG_FILE_SIZE cpu.writeback ∧
  memory_in_range DATA_MEMORY_SIZE cpu.memory ∧
  execute_defined cpu.execute ∧
  (decode_checked cpu → decode_in_range REG_FILE_SIZE cpu.decode) ∧
  (reads_code_memory cpu → in_bounds cpu.code_memory.length (code_index_read cpu))

instance (REG_FILE_SIZE DATA_MEMORY_SIZE : Int) (cpu : APEX_CPU) :
    Decidable (tick_defined REG_FILE_SIZE DATA_MEMORY_SIZE cpu) := by
  unfold tick_defined; infer_instance

/-- The loop of `APEX_cpu_run` as the C program performs it: the iterations of
`run_loop`, as long as each tick is defined.  A tick that is not defined ends
the run without a state (`none`), and so does the bound `fuel`. -/
def run_loop_defined (REG_FILE_SIZE DATA_MEMORY_SIZE : Int) (limit : Option Int) :
    Nat → APEX_CPU → Option APEX_CPU
  | 0, _ => none
  | fuel + 1, cpu =>
      if tick_defined REG_FILE_SIZE DATA_MEMORY_SIZE cpu then
        let t := APEX_cpu_tick cpu
        if t.2 = true ∨ limit = some t.1.clock then some t.1
        else run_loop_defined REG_FILE_SIZE DATA_MEMORY_SIZE limit fuel
          { t.1 with clock := t.1.clock + 1 }
      else none

/-- The simulation loop (`APEX_cpu_run`) restricted to defined ticks:
`cpu->clock = 1`, then the loop. -/
def APEX_cpu_run_defined (REG_FILE_SIZE DATA_MEMORY_SIZE : Int) (fuel : Nat) (cpu : APEX_CPU)
    (limit : Option Int) : Option APEX_CPU :=
  run_loop_defined REG_FILE_SIZE DATA_MEMORY_SIZE limit fuel { cpu with clock := 1 }

/-! ### The same conditions on a program -/

/-- Every register index an instruction of the program reads or writes is
inside the register arrays. -/
def regs_in_range (REG_FILE_SIZE : Int) (code : List APEX_Instruction) : Prop :=
  ∀ i ∈ code, (∀ r ∈ i.srcs, in_bounds REG_FILE_SIZE r) ∧
    ∀ r ∈ i.dests, in_bounds REG_FILE_SIZE r

instance (REG_FILE_SIZE : Int) (code : List APEX_Instruction) :
    Decidable (regs_in_range REG_FILE_SIZE code) := by
  unfold regs_in_range; infer_instance

/-- The effective address of instruction `i` executed on architectural state
`a` (`rs1 + imm` for LOAD and LDI, `rs2 + imm` for STORE and STI) is inside the
data memory. -/
def seq_address_in_range (DATA_MEMORY_SIZE : Int) (i : APEX_Instruction) (a : Arch) : Prop :=
  match i.opcode with
  | Opcode.LOAD | Opcode.LDI => in_bounds DATA_MEMORY_SIZE (wrap32 (a.regs i.rs1 + i.imm))
  | Opcode.STORE | Opcode.STI => in_bounds DATA_MEMORY_SIZE (wrap32 (a.regs i.rs2 + i.imm))
  | _ => True

instance (DATA_MEMORY_SIZE : Int) (i : APEX_Instruction) (a : Arch) :
    Decidable (seq_address_in_range DATA_MEMORY_SIZE i a) := by
  unfold seq_address_in_range; cases i.opcode <;> dsimp only <;> infer_instance

/-- Instruction number `k` is executed in the sequential run of `code`: no
instruction before it is a HALT. -/
def seq_reaches (code : List APEX_Instruction) (k : Nat) : Prop :=
  ∀ j < k, (insn_at code j).opcode ≠ Opcode.HALT

instance (code : List APEX_Instruction) (k : Nat) : Decidable (seq_reaches code k) := by
  unfold seq_reaches; infer_instance

/-- All effective addresses of the sequential run of `code` are inside the
data memory. -/
def addresses_in_range (DATA_MEMORY_SIZE : Int) (code : List APEX_Instruction) : Prop :=
  ∀ k < code.length, seq_reaches code k →
    seq_address_in_range DATA_MEMORY_SIZE (insn_at code k) (seq_upto code k)

instance (DATA_MEMORY_SIZE : Int) (code : List APEX_Instruction) :
    Decidable (addresses_in_range DATA_MEMORY_SIZE code) := by
  unfold addresses_in_range; infer_instance

/-- No DIV of the sequential run of `code` divides by zero. -/
def no_div_by_zero (code : List APEX_Instruction) : Prop :=
  ∀ k < code.length, seq_reaches code k → (insn_at code k).opcode = Opcode.DIV →
    (seq_upto code k).regs (insn_at code k).rs2 ≠ 0

instance (code : List APEX_Instruction) : Decidable (no_div_by_zero code) := by
  unfold no_div_by_zero; infer_instance

/-- No DIV of the sequential run of `code` divides `INT_MIN` by -1. -/
def no_div_overflow (code : List APEX_Instruction) : Prop :=
  ∀ k < code.length, seq_reaches code k → (insn_at code k).opcode = Opcode.DIV →
    ¬ ((seq_upto code k).regs (insn_at code k).rs1 = -2147483648 ∧
      (seq_upto code k).regs (insn_at code k).rs2 = -1)

instance (code : List APEX_Instruction) : Decidable (no_div_overflow code) := by
  unfold no_div_overflow; infer_instance

/-- `MOVC R1,#-2147483648 ; MOVC R2,#-1 ; DIV R3,R1,R2 ; HALT`: straight-line,
every register index and (there being no memory access) every address in
range, the divisor is -1 and not 0; the DIV divides `INT_MIN` by -1. -/
def div_overflow_program : List APEX_Instruction :=
  [ { opcode_str := "MOVC", opcode := Opcode.MOVC, rd := 1, rs1 := -1, rs2 := -1,
      imm := -2147483648 },
    { opcode_str := "MOVC", opcode := Opcode.MOVC, rd := 2, rs1 := -1, rs2 := -1, imm := -1 },
    { opcode_str := "DIV", opcode := Opcode.DIV, rd := 3, rs1 := 1, rs2 := 2, imm := 0 },
    { opcode_str := "HALT", opcode := Opcode.HALT, rd := -1, rs1 := -1, rs2 := -1, imm := 0 } ]

/-- The straight-line program `code` (first HALT at `H`) keeps its sequential
run inside the arrays and divides only where the quotient is defined: the
register indices of the instructions up to `H` are inside the register arrays,
their effective addresses inside the data memory, and every DIV has a divisor
other than 0 and does not divide `INT_MIN` by -1. -/
structure SafeCode (REG_FILE_SIZE DATA_MEMORY_SIZE : Int) (code : List APEX_Instruction)
    (H : Nat) : Prop where
  srcs : ∀ k ≤ H, ∀ r ∈ (insn_at code k).srcs, in_bounds REG_FILE_SIZE r
  dests : ∀ k ≤ H, ∀ r ∈ (insn_at code k).dests, in_bounds REG_FILE_SIZE r
  addr : ∀ k ≤ H, seq_address_in_range DATA_MEMORY_SIZE (insn_at code k) (seq_upto code k)
  div : ∀ k ≤ H, (insn_at code k).opcode = Opcode.DIV →
    div_defined ((seq_upto code k).regs (insn_at code k).rs1)
      ((seq_upto code k).regs (insn_at code k).rs2)

/-- The index at which `APEX_fetch` or `stall_fetch`, called in state `cpu`,
reads the code memory is inside it. -/
def fetch_in_range (cpu : APEX_CPU) : Prop :=
  cpu.fetch.has_insn = true →
    in_bounds cpu.code_memory.length (get_code_memory_index_from_pc cpu.pc)

instance (cpu : APEX_CPU) : Decidable (fetch_in_range cpu) := by
  unfold fetch_in_range; infer_instance

/-- Scenario 1 at the start of tick 5: the `MOVC R1,#10` is in Writeback. -/
def movc_at_writeback : APEX_CPU := ticks 4 (APEX_cpu_start scenario1)

/-! ### Fields `APEX_writeback` leaves unchanged -/

@[simp] theorem APEX_writeback_pc (s : APEX_CPU) :
    (APEX_writeback s).1.pc = s.pc := by
  unfold APEX_writeback; dsimp only; (repeat' split) <;> rfl

@[simp] theorem APEX_writeback_clock (s : APEX_CPU) :
    (APEX_writeback s).1.clock = s.clock := by
  unfold APEX_writeback; dsimp only; (repeat' split) <;> rfl

@[simp] theorem APEX_writeback_code_memory (s : APEX_CPU) :
    (APEX_writeback s).1.code_memory = s.code_memory := by
  unfold APEX_writeback; dsimp only; (repeat' split) <;> rfl

@[simp] theorem APEX_writeback_data_memory (s : APEX_CPU) :
    (APEX_writeback s).1.data_memory = s.data_memory := by
  unfold APEX_writeback; dsimp only; (repeat' split) <;> rfl

@[simp] theorem APEX_writeback_zero_flag (s : APEX_CPU) :
    (APEX_writeback s).1.zero_flag = s.zero_flag := by
  unfold APEX_writeback; dsimp only; (repeat' split) <;> rfl

@[simp] theorem APEX_writeback_fetch_from_next_cycle (s : APEX_CPU) :
    (APEX_writeback s).1.fetch_from_next_cycle = s.fetch_from_next_cycle := by
  unfold APEX_writeback; dsimp only; (repeat' split) <;> rfl

@[simp] theorem APEX_writeback_positive_flag (s : APEX_CPU) :
    (APEX_writeback s).1.positive_flag = s.positive_flag := by
  unfold APEX_writeback; dsimp only; (repeat' split) <;> rfl

@[simp] theorem APEX_writeback_mem_dest (s : APEX_CPU) :
    (APEX_writeback s).1.mem_dest = s.mem_dest := by
  unfold APEX_writeback; dsimp only; (repeat' split) <;> rfl

@[simp] theorem APEX_writeback_mem_dest1 (s : APEX_CPU) :
    (APEX_writeback s).1.mem_dest1 = s.mem_dest1 := by
  unfold APEX_writeback; dsimp only; (repeat' split) <;> rfl

@[simp] theorem APEX_writeback_ex_dest (s : APEX_CPU) :
    (APEX_writeback s).1.ex_dest = s.ex_dest := by
  unfold APEX_writeback; dsimp only; (repeat' split) <;> rfl

@[simp] theorem APEX_writeback_ex_dest1 (s : APEX_CPU) :
    (APEX_writeback s).1.ex_dest1 = s.ex_dest1 := by
  unfold APEX_writeback; dsimp only; (repeat' split) <;> rfl

@[simp] theorem APEX_writeback_stall_count (s : APEX_CPU) :
    (APEX_writeback s).1.stall_count = s.stall_count := by
  unfold APEX_writeback; dsimp only; (repeat' split) <;> rfl

@[simp] theorem APEX_writeback_fetch (s : APEX_CPU) :
    (APEX_writeback s).1.fetch = s.fetch := by
  unfold APEX_writeback; dsimp only; (repeat' split) <;> rfl

@[simp] theorem APEX_writeback_decode (s : APEX_CPU) :
    (APEX_writeback s).1.decode = s.decode := by
  unfold APEX_writeback; dsimp only; (repeat' split) <;> rfl

@[simp] theorem APEX_writeback_execute (s : APEX_CPU) :
    (APEX_writeback s).1.execute = s.execute := by
  unfold APEX_writeback; dsimp only; (repeat' split) <;> rfl

@[simp] theorem APEX_writeback_memory (s : APEX_CPU) :
    (APEX_writeback s).1.memory = s.memory := by
  unfold APEX_writeback; dsimp only; (repeat' split) <;> rfl

/-! ### Fields `APEX_memory` leaves unchanged -/

@[simp] theorem APEX_memory_pc (s : APEX_CPU) :
    (APEX_memory s).pc = s.pc := by
  unfold APEX_memory; dsimp only; (repeat' split) <;> rfl

@[simp] theorem APEX_memory_clock (s : APEX_CPU) :
    (APEX_memory s).clock = s.clock := by
  unfold APEX_memory; dsimp only; (repeat' split) <;> rfl

@[simp] theorem APEX_memory_insn_completed (s : APEX_CPU) :
    (APEX_memory s).insn_completed = s.insn_completed := by
  unfold APEX_memory; dsimp only; (repeat' split) <;> rfl

@[simp] theorem APEX_memory_regs (s : APEX_CPU) :
    (APEX_memory s).regs = s.regs := by
  unfold APEX_memory; dsimp only; (repeat' split) <;> rfl

@[simp] theorem APEX_memory_code_memory (s : APEX_CPU) :
    (APEX_memory s).code_memory = s.code_memory := by
  unfold APEX_memory; dsimp only; (repeat' split) <;> rfl

@[simp] theorem APEX_memory_zero_flag (s : APEX_CPU) :
    (APEX_memory s).zero_flag = s.zero_flag := by
  unfold APEX_memory; dsimp only; (repeat' split) <;> rfl

@[simp] theorem APEX_memory_fetch_from_next_cycle (s : APEX_CPU) :
    (APEX_memory s).fetch_from_next_cycle = s.fetch_from_next_cycle := by
  unfold APEX_memory; dsimp only; (repeat' split) <;> rfl

@[simp] theorem APEX_memory_positive_flag (s : APEX_CPU) :
    (APEX_memory s).positive_flag = s.positive_flag := by
  unfold APEX_memory; dsimp only; (repeat' split) <;> rfl

@[simp] theorem APEX_memory_mem_dest (s : APEX_CPU) :
    (APEX_memory s).mem_dest = s.mem_dest := by
  unfold APEX_memory; dsimp only; (repeat' split) <;> rfl

@[simp] theorem APEX_memory_mem_dest1 (s : APEX_CPU) :
    (APEX_memory s).mem_dest1 = s.mem_dest1 := by
  unfold APEX_memory; dsimp only; (repeat' split) <;> rfl

@[simp] theorem APEX_memory_ex_dest (s : APEX_CPU) :
    (APEX_memory s).ex_dest = s.ex_dest := by
  unfold APEX_memory; dsimp only; (repeat' split) <;> rfl

@[simp] theorem APEX_memory_ex_dest1 (s : APEX_CPU) :
    (APEX_memory s).ex_dest1 = s.ex_dest1 := by
  unfold APEX_memory; dsimp only; (repeat' split) <;> rfl

@[simp] theorem APEX_memory_fetch (s : APEX_CPU) :
    (APEX_memory s).fetch = s.fetch := by
  unfold APEX_memory; dsimp only; (repeat' split) <;> rfl

@[simp] theorem APEX_memory_decode (s : APEX_CPU) :
    (APEX_memory s).decode = s.decode := by
  unfold APEX_memory; dsimp only; (repeat' split) <;> rfl

@[simp] theorem APEX_memory_execute (s : APEX_CPU) :
    (APEX_memory s).execute = s.execute := by
  unfold APEX_memory; dsimp only; (repeat' split) <;> rfl

/-! ### Fields `get_mem_dest` leaves unchanged -/

@[simp] theorem get_mem_dest_pc (s : APEX_CPU) :
    (get_mem_dest s).pc = s.pc := by
  unfold get_mem_dest; dsimp only; (repeat' split) <;> rfl

@[simp] theorem get_mem_dest_clock (s : APEX_CPU) :
    (get_mem_dest s).clock = s.clock := by
  unfold get_mem_dest; dsimp only; (repeat' split) <;> rfl

@[simp] theorem get_mem_dest_insn_completed (s : APEX_CPU) :
    (get_mem_dest s).insn_completed = s.insn_completed := by
  unfold get_mem_dest; dsimp only; (repeat' split) <;> rfl

@[simp] theorem get_mem_dest_regs (s : APEX_CPU) :
    (get_mem_dest s).regs = s.regs := by
  unfold get_mem_dest; dsimp only; (repeat' split) <;> rfl

@[simp] theorem get_mem_dest_code_memory (s : APEX_CPU) :
    (get_mem_dest s).code_memory = s.code_memory := by
  unfold get_mem_dest; dsimp only; (repeat' split) <;> rfl

@[simp] theorem get_mem_dest_data_memory (s : APEX_CPU) :
    (get_mem_dest s).data_memory = s.data_memory := by
  unfold get_mem_dest; dsimp only; (repeat' split) <;> rfl

@[simp] theorem get_mem_dest_zero_flag (s : APEX_CPU) :
    (get_mem_dest s).zero_flag = s.zero_flag := by
  unfold get_mem_dest; dsimp only; (repeat' split) <;> rfl

@[simp] theorem get_mem_dest_fetch_from_next_cycle (s : APEX_CPU) :
    (get_mem_dest s).fetch_from_next_cycle = s.fetch_from_next_cycle := by
  unfold get_mem_dest; dsimp only; (repeat' split) <;> rfl

@[simp] theorem get_mem_dest_positive_flag (s : APEX_CPU) :
    (get_mem_dest s).positive_flag = s.positive_flag := by
  unfold get_mem_dest; dsimp only; (repeat' split) <;> rfl

@[simp] theorem get_mem_dest_ex_dest (s : APEX_CPU) :
    (get_mem_dest s).ex_dest = s.ex_dest := by
  unfold get_mem_dest; dsimp only; (repeat' split) <;> rfl

@[simp] theorem get_mem_dest_ex_dest1 (s : APEX_CPU) :
    (get_mem_dest s).ex_dest1 = s.ex_dest1 := by
  unfold get_mem_dest; dsimp only; (repeat' split) <;> rfl

@[simp] theorem get_mem_dest_stall_count (s : APEX_CPU) :
    (get_mem_dest s).stall_count = s.stall_count := by
  unfold get_mem_dest; dsimp only; (repeat' split) <;> rfl

@[simp] theorem get_mem_dest_fetch (s : APEX_CPU) :
    (get_mem_dest s).fetch = s.fetch := by
  unfold get_mem_dest; dsimp only; (repeat' split) <;> rfl

@[simp] theorem get_mem_dest_decode (s : APEX_CPU) :
    (get_mem_dest s).decode = s.decode := by
  unfold get_mem_dest; dsimp only; (repeat' split) <;> rfl

@[simp] theorem get_mem_dest_execute (s : APEX_CPU) :
    (get_mem_dest s).execute = s.execute := by
  unfold get_mem_dest; dsimp only; (repeat' split) <;> rfl

@[simp] theorem get_mem_dest_writeback (s : APEX_CPU) :
    (get_mem_dest s).writeback = s.writeback := by
  unfold get_mem_dest; dsimp only; (repeat' split) <;> rfl

/-! ### Fields `APEX_execute` leaves unchanged -/

@[simp] theorem APEX_execute_clock (s : APEX_CPU) :
    (APEX_execute s).clock = s.clock := by
  unfold APEX_execute execute_switch execute_arith execute_transfer; dsimp only; (repeat' split) <;> rfl

@[simp] theorem APEX_execute_insn_completed (s : APEX_CPU) :
    (APEX_execute s).insn_completed = s.insn_completed := by
  unfold APEX_execute execute_switch execute_arith execute_transfer; dsimp only; (repeat' split) <;> rfl

@[simp] theorem APEX_execute_regs (s : APEX_CPU) :
    (APEX_execute s).regs = s.regs := by
  unfold APEX_execute execute_switch execute_arith execute_transfer; dsimp only; (repeat' split) <;> rfl

@[simp] theorem APEX_execute_code_memory (s : APEX_CPU) :
    (APEX_execute s).code_memory = s.code_memory := by
  unfold APEX_execute execute_switch execute_arith execute_transfer; dsimp only; (repeat' split) <;> rfl

@[simp] theorem APEX_execute_data_memory (s : APEX_CPU) :
    (APEX_execute s).data_memory = s.data_memory := by
  unfold APEX_execute execute_switch execute_arith execute_transfer; dsimp only; (repeat' split) <;> rfl

@[simp] theorem APEX_execute_mem_dest (s : APEX_CPU) :
    (APEX_execute s).mem_dest = s.mem_dest := by
  unfold APEX_execute execute_switch execute_arith execute_transfer; dsimp only; (repeat' split) <;> rfl

@[simp] theorem APEX_execute_mem_dest1 (s : APEX_CPU) :
    (APEX_execute s).mem_dest1 = s.mem_dest1 := by
  unfold APEX_execute execute_switch execute_arith execute_transfer; dsimp only; (repeat' split) <;> rfl

@[simp] theorem APEX_execute_ex_dest (s : APEX_CPU) :
    (APEX_execute s).ex_dest = s.ex_dest := by
  unfold APEX_execute execute_switch execute_arith execute_transfer; dsimp only; (repeat' split) <;> rfl

@[simp] theorem APEX_execute_ex_dest1 (s : APEX_CPU) :
    (APEX_execute s).ex_dest1 = s.ex_dest1 := by
  unfold APEX_execute execute_switch execute_arith execute_transfer; dsimp only; (repeat' split) <;> rfl

@[simp] theorem APEX_execute_stall_count (s : APEX_CPU) :
    (APEX_execute s).stall_count = s.stall_count := by
  unfold APEX_execute execute_switch execute_arith execute_transfer; dsimp only; (repeat' split) <;> rfl

@[simp] theorem APEX_execute_writeback (s : APEX_CPU) :
    (APEX_execute s).writeback = s.writeback := by
  unfold APEX_execute execute_switch execute_arith execute_transfer; dsimp only; (repeat' split) <;> rfl

/-! ### Fields `get_ex_dest` leaves unchanged -/

@[simp] theorem get_ex_dest_pc (s : APEX_CPU) :
    (get_ex_dest s).pc = s.pc := by
  unfold get_ex_dest; dsimp only; (repeat' split) <;> rfl

@[simp] theorem get_ex_dest_clock (s : APEX_CPU) :
    (get_ex_dest s).clock = s.clock := by
  unfold get_ex_dest; dsimp only; (repeat' split) <;> rfl

@[simp] theorem get_ex_dest_insn_completed (s : APEX_CPU) :
    (get_ex_dest s).insn_completed = s.insn_completed := by
  unfold get_ex_dest; dsimp only; (repeat' split) <;> rfl

@[simp] theorem get_ex_dest_regs (s : APEX_CPU) :
    (get_ex_dest s).regs = s.regs := by
  unfold get_ex_dest; dsimp only; (repeat' split) <;> rfl

@[simp] theorem get_ex_dest_code_memory (s : APEX_CPU) :
    (get_ex_dest s).code_memory = s.code_memory := by
  unfold get_ex_dest; dsimp only; (repeat' split) <;> rfl

@[simp] theorem get_ex_dest_data_memory (s : APEX_CPU) :
    (get_ex_dest s).data_memory = s.data_memory := by
  unfold get_ex_dest; dsimp only; (repeat' split) <;> rfl

@[simp] theorem get_ex_dest_zero_flag (s : APEX_CPU) :
    (get_ex_dest s).zero_flag = s.zero_flag := by
  unfold get_ex_dest; dsimp only; (repeat' split) <;> rfl

@[simp] theorem get_ex_dest_fetch_from_next_cycle (s : APEX_CPU) :
    (get_ex_dest s).fetch_from_next_cycle = s.fetch_from_next_cycle := by
  unfold get_ex_dest; dsimp only; (repeat' split) <;> rfl

@[simp] theorem get_ex_dest_positive_flag (s : APEX_CPU) :
    (get_ex_dest s).positive_flag = s.positive_flag := by
  unfold get_ex_dest; dsimp only; (repeat' split) <;> rfl

@[simp] theorem get_ex_dest_mem_dest (s : APEX_CPU) :
    (get_ex_dest s).mem_dest = s.mem_dest := by
  unfold get_ex_dest; dsimp only; (repeat' split) <;> rfl

@[simp] theorem get_ex_dest_mem_dest1 (s : APEX_CPU) :
    (get_ex_dest s).mem_dest1 = s.mem_dest1 := by
  unfold get_ex_dest; dsimp only; (repeat' split) <;> rfl

@[simp] theorem get_ex_dest_stall_count (s : APEX_CPU) :
    (get_ex_dest s).stall_count = s.stall_count := by
  unfold get_ex_dest; dsimp only; (repeat' split) <;> rfl

@[simp] theorem get_ex_dest_fetch (s : APEX_CPU) :
    (get_ex_dest s).fetch = s.fetch := by
  unfold get_ex_dest; dsimp only; (repeat' split) <;> rfl

@[simp] theorem get_ex_dest_decode (s : APEX_CPU) :
    (get_ex_dest s).decode = s.decode := by
  unfold get_ex_dest; dsimp only; (repeat' split) <;> rfl

@[simp] theorem get_ex_dest_memory (s : APEX_CPU) :
    (get_ex_dest s).memory = s.memory := by
  unfold get_ex_dest; dsimp only; (repeat' split) <;> rfl

@[simp] theorem get_ex_dest_writeback (s : APEX_CPU) :
    (get_ex_dest s).writeback = s.writeback := by
  unfold get_ex_dest; dsimp only; (repeat' split) <;> rfl

/-! ### Fields `check_mem_dependency` leaves unchanged -/

@[simp] theorem check_mem_dependency_pc (s : APEX_CPU) :
    (check_mem_dependency s).pc = s.pc := by
  unfold check_mem_dependency; dsimp only; (repeat' split) <;> rfl

@[simp] theorem check_mem_dependency_clock (s : APEX_CPU) :
    (check_mem_dependency s).clock = s.clock := by
  unfold check_mem_dependency; dsimp only; (repeat' split) <;> rfl

@[simp] theorem check_mem_dependency_insn_completed (s : APEX_CPU) :
    (check_mem_dependency s).insn_completed = s.insn_completed := by
  unfold check_mem_dependency; dsimp only; (repeat' split) <;> rfl

@[simp] theorem check_mem_dependency_regs (s : APEX_CPU) :
    (check_mem_dependency s).regs = s.regs := by
  unfold check_mem_dependency; dsimp only; (repeat' split) <;> rfl

@[simp] theorem check_mem_dependency_code_memory (s : APEX_CPU) :
    (check_mem_dependency s).code_memory = s.code_memory := by
  unfold check_mem_dependency; dsimp only; (repeat' split) <;> rfl

@[simp] theorem check_mem_dependency_data_memory (s : APEX_CPU) :
    (check_mem_dependency s).data_memory = s.data_memory := by
  unfold check_mem_dependency; dsimp only; (repeat' split) <;> rfl

@[simp] theorem check_mem_dependency_zero_flag (s : APEX_CPU) :
    (check_mem_dependency s).zero_flag = s.zero_flag := by
  unfold check_mem_dependency; dsimp only; (repeat' split) <;> rfl

@[simp] theorem check_mem_dependency_fetch_from_next_cycle (s : APEX_CPU) :
    (check_mem_dependency s).fetch_from_next_cycle = s.fetch_from_next_cycle := by
  unfold check_mem_dependency; dsimp only; (repeat' split) <;> rfl

@[simp] theorem check_mem_dependency_positive_flag (s : APEX_CPU) :
    (check_mem_dependency s).positive_flag = s.positive_flag := by
  unfold check_mem_dependency; dsimp only; (repeat' split) <;> rfl

@[simp] theorem check_mem_dependency_ex_dest (s : APEX_CPU) :
    (check_mem_dependency s).ex_dest = s.ex_dest := by
  unfold check_mem_dependency; dsimp only; (repeat' split) <;> rfl

@[simp] theorem check_mem_dependency_ex_dest1 (s : APEX_CPU) :
    (check_mem_dependency s).ex_dest1 = s.ex_dest1 := by
  unfold check_mem_dependency; dsimp only; (repeat' split) <;> rfl

@[simp] theorem check_mem_dependency_fetch (s : APEX_CPU) :
    (check_mem_dependency s).fetch = s.fetch := by
  unfold check_mem_dependency; dsimp only; (repeat' split) <;> rfl

@[simp] theorem check_mem_dependency_decode (s : APEX_CPU) :
    (check_mem_dependency s).decode = s.decode := by
  unfold check_mem_dependency; dsimp only; (repeat' split) <;> rfl

@[simp] theorem check_mem_dependency_execute (s : APEX_CPU) :
    (check_mem_dependency s).execute = s.execute := by
  unfold check_mem_dependency; dsimp only; (repeat' split) <;> rfl

@[simp] theorem check_mem_dependency_memory (s : APEX_CPU) :
    (check_mem_dependency s).memory = s.memory := by
  unfold check_mem_dependency; dsimp only; (repeat' split) <;> rfl

@[simp] theorem check_mem_dependency_writeback (s : APEX_CPU) :
    (check_mem_dependency s).writeback = s.writeback := by
  unfold check_mem_dependency; dsimp only; (repeat' split) <;> rfl

/-! ### Fields `check_ex_dependency` leaves unchanged -/

@[simp] theorem check_ex_dependency_pc (s : APEX_CPU) :
    (check_ex_dependency s).pc = s.pc := by
  unfold check_ex_dependency; dsimp only; (repeat' split) <;> rfl

@[simp] theorem check_ex_dependency_clock (s : APEX_CPU) :
    (check_ex_dependency s).clock = s.clock := by
  unfold check_ex_dependency; dsimp only; (repeat' split) <;> rfl

@[simp] theorem check_ex_dependency_insn_completed (s : APEX_CPU) :
    (check_ex_dependency s).insn_completed = s.insn_completed := by
  unfold check_ex_dependency; dsimp only; (repeat' split) <;> rfl

@[simp] theorem check_ex_dependency_regs (s : APEX_CPU) :
    (check_ex_dependency s).regs = s.regs := by
  unfold check_ex_dependency; dsimp only; (repeat' split) <;> rfl

@[simp] theorem check_ex_dependency_code_memory (s : APEX_CPU) :
    (check_ex_dependency s).code_memory = s.code_memory := by
  unfold check_ex_dependency; dsimp only; (repeat' split) <;> rfl

@[simp] theorem check_ex_dependency_data_memory (s : APEX_CPU) :
    (check_ex_dependency s).data_memory = s.data_memory := by
  unfold check_ex_dependency; dsimp only; (repeat' split) <;> rfl

@[simp] theorem check_ex_dependency_zero_flag (s : APEX_CPU) :
    (check_ex_dependency s).zero_flag = s.zero_flag := by
  unfold check_ex_dependency; dsimp only; (repeat' split) <;> rfl

@[simp] theorem check_ex_dependency_fetch_from_next_cycle (s : APEX_CPU) :
    (check_ex_dependency s).fetch_from_next_cycle = s.fetch_from_next_cycle := by
  unfold check_ex_dependency; dsimp only; (repeat' split) <;> rfl

@[simp] theorem check_ex_dependency_positive_flag (s : APEX_CPU) :
    (check_ex_dependency s).positive_flag = s.positive_flag := by
  unfold check_ex_dependency; dsimp only; (repeat' split) <;> rfl

@[simp] theorem check_ex_dependency_mem_dest (s : APEX_CPU) :
    (check_ex_dependency s).mem_dest = s.mem_dest := by
  unfold check_ex_dependency; dsimp only; (repeat' split) <;> rfl

@[simp] theorem check_ex_dependency_mem_dest1 (s : APEX_CPU) :
    (check_ex_dependency s).mem_dest1 = s.mem_dest1 := by
  unfold check_ex_dependency; dsimp only; (repeat' split) <;> rfl

@[simp] theorem check_ex_dependency_fetch (s : APEX_CPU) :
    (check_ex_dependency s).fetch = s.fetch := by
  unfold check_ex_dependency; dsimp only; (repeat' split) <;> rfl

@[simp] theorem check_ex_dependency_decode (s : APEX_CPU) :
    (check_ex_dependency s).decode = s.decode := by
  unfold check_ex_dependency; dsimp only; (repeat' split) <;> rfl

@[simp] theorem check_ex_dependency_execute (s : APEX_CPU) :
    (check_ex_dependency s).execute = s.execute := by
  unfold check_ex_dependency; dsimp only; (repeat' split) <;> rfl

@[simp] theorem check_ex_dependency_memory (s : APEX_CPU) :
    (check_ex_dependency s).memory = s.memory := by
  unfold check_ex_dependency; dsimp only; (repeat' split) <;> rfl

@[simp] theorem check_ex_dependency_writeback (s : APEX_CPU) :
    (check_ex_dependency s).writeback = s.writeback := by
  unfold check_ex_dependency; dsimp only; (repeat' split) <;> rfl

/-! ### Fields `APEX_decode` leaves unchanged -/

@[simp] theorem APEX_decode_pc (s : APEX_CPU) :
    (APEX_decode s).pc = s.pc := by
  unfold APEX_decode; dsimp only; (repeat' split) <;> rfl

@[simp] theorem APEX_decode_clock (s : APEX_CPU) :
    (APEX_decode s).clock = s.clock := by
  unfold APEX_decode; dsimp only; (repeat' split) <;> rfl

@[simp] theorem APEX_decode_insn_completed (s : APEX_CPU) :
    (APEX_decode s).insn_completed = s.insn_completed := by
  unfold APEX_decode; dsimp only; (repeat' split) <;> rfl

@[simp] theorem APEX_decode_regs (s : APEX_CPU) :
    (APEX_decode s).regs = s.regs := by
  unfold APEX_decode; dsimp only; (repeat' split) <;> rfl

@[simp] theorem APEX_decode_code_memory (s : APEX_CPU) :
    (APEX_decode s).code_memory = s.code_memory := by
  unfold APEX_decode; dsimp only; (repeat' split) <;> rfl

@[simp] theorem APEX_decode_data_memory (s : APEX_CPU) :
    (APEX_decode s).data_memory = s.data_memory := by
  unfold APEX_decode; dsimp only; (repeat' split) <;> rfl

@[simp] theorem APEX_decode_zero_flag (s : APEX_CPU) :
    (APEX_decode s).zero_flag = s.zero_flag := by
  unfold APEX_decode; dsimp only; (repeat' split) <;> rfl

@[simp] theorem APEX_decode_fetch_from_next_cycle (s : APEX_CPU) :
    (APEX_decode s).fetch_from_next_cycle = s.fetch_from_next_cycle := by
  unfold APEX_decode; dsimp only; (repeat' split) <;> rfl

@[simp] theorem APEX_decode_positive_flag (s : APEX_CPU) :
    (APEX_decode s).positive_flag = s.positive_flag := by
  unfold APEX_decode; dsimp only; (repeat' split) <;> rfl

@[simp] theorem APEX_decode_mem_dest (s : APEX_CPU) :
    (APEX_decode s).mem_dest = s.mem_dest := by
  unfold APEX_decode; dsimp only; (repeat' split) <;> rfl

@[simp] theorem APEX_decode_mem_dest1 (s : APEX_CPU) :
    (APEX_decode s).mem_dest1 = s.mem_dest1 := by
  unfold APEX_decode; dsimp only; (repeat' split) <;> rfl

@[simp] theorem APEX_decode_ex_dest (s : APEX_CPU) :
    (APEX_decode s).ex_dest = s.ex_dest := by
  unfold APEX_decode; dsimp only; (repeat' split) <;> rfl

@[simp] theorem APEX_decode_ex_dest1 (s : APEX_CPU) :
    (APEX_decode s).ex_dest1 = s.ex_dest1 := by
  unfold APEX_decode; dsimp only; (repeat' split) <;> rfl

@[simp] theorem APEX_decode_stall_count (s : APEX_CPU) :
    (APEX_decode s).stall_count = s.stall_count := by
  unfold APEX_decode; dsimp only; (repeat' split) <;> rfl

@[simp] theorem APEX_decode_fetch (s : APEX_CPU) :
    (APEX_decode s).fetch = s.fetch := by
  unfold APEX_decode; dsimp only; (repeat' split) <;> rfl

@[simp] theorem APEX_decode_memory (s : APEX_CPU) :
    (APEX_decode s).memory = s.memory := by
  unfold APEX_decode; dsimp only; (repeat' split) <;> rfl

@[simp] theorem APEX_decode_writeback (s : APEX_CPU) :
    (APEX_decode s).writeback = s.writeback := by
  unfold APEX_decode; dsimp only; (repeat' split) <;> rfl

/-! ### Fields `APEX_fetch` leaves unchanged -/

@[simp] theorem APEX_fetch_clock (s : APEX_CPU) :
    (APEX_fetch s).clock = s.clock := by
  unfold APEX_fetch; dsimp only; (repeat' split) <;> rfl

@[simp] theorem APEX_fetch_insn_completed (s : APEX_CPU) :
    (APEX_fetch s).insn_completed = s.insn_completed := by
  unfold APEX_fetch; dsimp only; (repeat' split) <;> rfl

@[simp] theorem APEX_fetch_regs (s : APEX_CPU) :
    (APEX_fetch s).regs = s.regs := by
  unfold APEX_fetch; dsimp only; (repeat' split) <;> rfl

@[simp] theorem APEX_fetch_code_memory (s : APEX_CPU) :
    (APEX_fetch s).code_memory = s.code_memory := by
  unfold APEX_fetch; dsimp only; (repeat' split) <;> rfl

@[simp] theorem APEX_fetch_data_memory (s : APEX_CPU) :
    (APEX_fetch s).data_memory = s.data_memory := by
  unfold APEX_fetch; dsimp only; (repeat' split) <;> rfl

@[simp] theorem APEX_fetch_zero_flag (s : APEX_CPU) :
    (APEX_fetch s).zero_flag = s.zero_flag := by
  unfold APEX_fetch; dsimp only; (repeat' split) <;> rfl

@[simp] theorem APEX_fetch_positive_flag (s : APEX_CPU) :
    (APEX_fetch s).positive_flag = s.positive_flag := by
  unfold APEX_fetch; dsimp only; (repeat' split) <;> rfl

@[simp] theorem APEX_fetch_mem_dest (s : APEX_CPU) :
    (APEX_fetch s).mem_dest = s.mem_dest := by
  unfold APEX_fetch; dsimp only; (repeat' split) <;> rfl

@[simp] theorem APEX_fetch_mem_dest1 (s : APEX_CPU) :
    (APEX_fetch s).mem_dest1 = s.mem_dest1 := by
  unfold APEX_fetch; dsimp only; (repeat' split) <;> rfl

@[simp] theorem APEX_fetch_ex_dest (s : APEX_CPU) :
    (APEX_fetch s).ex_dest = s.ex_dest := by
  unfold APEX_fetch; dsimp only; (repeat' split) <;> rfl

@[simp] theorem APEX_fetch_ex_dest1 (s : APEX_CPU) :
    (APEX_fetch s).ex_dest1 = s.ex_dest1 := by
  unfold APEX_fetch; dsimp only; (repeat' split) <;> rfl

@[simp] theorem APEX_fetch_stall_count (s : APEX_CPU) :
    (APEX_fetch s).stall_count = s.stall_count := by
  unfold APEX_fetch; dsimp only; (repeat' split) <;> rfl

@[simp] theorem APEX_fetch_execute (s : APEX_CPU) :
    (APEX_fetch s).execute = s.execute := by
  unfold APEX_fetch; dsimp only; (repeat' split) <;> rfl

@[simp] theorem APEX_fetch_memory (s : APEX_CPU) :
    (APEX_fetch s).memory = s.memory := by
  unfold APEX_fetch; dsimp only; (repeat' split) <;> rfl

@[simp] theorem APEX_fetch_writeback (s : APEX_CPU) :
    (APEX_fetch s).writeback = s.writeback := by
  unfold APEX_fetch; dsimp only; (repeat' split) <;> rfl

/-! ### Fields `stall_fetch` leaves unchanged -/

@[simp] theorem stall_fetch_pc (s : APEX_CPU) :
    (stall_fetch s).pc = s.pc := by
  unfold stall_fetch; dsimp only; (repeat' split) <;> rfl

@[simp] theorem stall_fetch_clock (s : APEX_CPU) :
    (stall_fetch s).clock = s.clock := by
  unfold stall_fetch; dsimp only; (repeat' split) <;> rfl

@[simp] theorem stall_fetch_insn_completed (s : APEX_CPU) :
    (stall_fetch s).insn_completed = s.insn_completed := by
  unfold stall_fetch; dsimp only; (repeat' split) <;> rfl

@[simp] theorem stall_fetch_regs (s : APEX_CPU) :
    (stall_fetch s).regs = s.regs := by
  unfold stall_fetch; dsimp only; (repeat' split) <;> rfl

@[simp] theorem stall_fetch_code_memory (s : APEX_CPU) :
    (stall_fetch s).code_memory = s.code_memory := by
  unfold stall_fetch; dsimp only; (repeat' split) <;> rfl

@[simp] theorem stall_fetch_data_memory (s : APEX_CPU) :
    (stall_fetch s).data_memory = s.data_memory := by
  unfold stall_fetch; dsimp only; (repeat' split) <;> rfl

@[simp] theorem stall_fetch_zero_flag (s : APEX_CPU) :
    (stall_fetch s).zero_flag = s.zero_flag := by
  unfold stall_fetch; dsimp only; (repeat' split) <;> rfl

@[simp] theorem stall_fetch_fetch_from_next_cycle (s : APEX_CPU) :
    (stall_fetch s).fetch_from_next_cycle = s.fetch_from_next_cycle := by
  unfold stall_fetch; dsimp only; (repeat' split) <;> rfl

@[simp] theorem stall_fetch_positive_flag (s : APEX_CPU) :
    (stall_fetch s).positive_flag = s.positive_flag := by
  unfold stall_fetch; dsimp only; (repeat' split) <;> rfl

@[simp] theorem stall_fetch_mem_dest (s : APEX_CPU) :
    (stall_fetch s).mem_dest = s.mem_dest := by
  unfold stall_fetch; dsimp only; (repeat' split) <;> rfl

@[simp] theorem stall_fetch_mem_dest1 (s : APEX_CPU) :
    (stall_fetch s).mem_dest1 = s.mem_dest1 := by
  unfold stall_fetch; dsimp only; (repeat' split) <;> rfl

@[simp] theorem stall_fetch_ex_dest (s : APEX_CPU) :
    (stall_fetch s).ex_dest = s.ex_dest := by
  unfold stall_fetch; dsimp only; (repeat' split) <;> rfl

@[simp] theorem stall_fetch_ex_dest1 (s : APEX_CPU) :
    (stall_fetch s).ex_dest1 = s.ex_dest1 := by
  unfold stall_fetch; dsimp only; (repeat' split) <;> rfl

@[simp] theorem stall_fetch_stall_count (s : APEX_CPU) :
    (stall_fetch s).stall_count = s.stall_count := by
  unfold stall_fetch; dsimp only; (repeat' split) <;> rfl

@[simp] theorem stall_fetch_decode (s : APEX_CPU) :
    (stall_fetch s).decode = s.decode := by
  unfold stall_fetch; dsimp only; (repeat' split) <;> rfl

@[simp] theorem stall_fetch_execute (s : APEX_CPU) :
    (stall_fetch s).execute = s.execute := by
  unfold stall_fetch; dsimp only; (repeat' split) <;> rfl

@[simp] theorem stall_fetch_memory (s : APEX_CPU) :
    (stall_fetch s).memory = s.memory := by
  unfold stall_fetch; dsimp only; (repeat' split) <;> rfl

@[simp] theorem stall_fetch_writeback (s : APEX_CPU) :
    (stall_fetch s).writeback = s.writeback := by
  unfold stall_fetch; dsimp only; (repeat' split) <;> rfl

/-! ### What each stage function does to the fields it writes -/

@[simp] theorem APEX_writeback_writeback_has_insn (s : APEX_CPU) :
    (APEX_writeback s).1.writeback.has_insn = false := by
  unfold APEX_writeback; dsimp only; split
  · rfl
  · simp_all

@[simp] theorem APEX_memory_stall_count (s : APEX_CPU) :
    (APEX_memory s).stall_count = decay_stall s.stall_count := by
  unfold APEX_memory; dsimp only; (repeat' split) <;> rfl

@[simp] theorem APEX_memory_memory_has_insn (s : APEX_CPU) :
    (APEX_memory s).memory.has_insn = s.memory.has_insn := by
  unfold APEX_memory; dsimp only; (repeat' split) <;> rfl

@[simp] theorem APEX_memory_memory_opcode (s : APEX_CPU) :
    (APEX_memory s).memory.opcode = s.memory.opcode := by
  unfold APEX_memory; dsimp only; (repeat' split) <;> rfl

@[simp] theorem APEX_memory_memory_rd (s : APEX_CPU) :
    (APEX_memory s).memory.rd = s.memory.rd := by
  unfold APEX_memory; dsimp only; (repeat' split) <;> rfl

@[simp] theorem APEX_memory_memory_rs1 (s : APEX_CPU) :
    (APEX_memory s).memory.rs1 = s.memory.rs1 := by
  unfold APEX_memory; dsimp only; (repeat' split) <;> rfl

@[simp] theorem APEX_memory_memory_rs2 (s : APEX_CPU) :
    (APEX_memory s).memory.rs2 = s.memory.rs2 := by
  unfold APEX_memory; dsimp only; (repeat' split) <;> rfl

@[simp] theorem APEX_memory_memory_pc (s : APEX_CPU) :
    (APEX_memory s).memory.pc = s.memory.pc := by
  unfold APEX_memory; dsimp only; (repeat' split) <;> rfl

@[simp] theorem APEX_memory_memory_imm (s : APEX_CPU) :
    (APEX_memory s).memory.imm = s.memory.imm := by
  unfold APEX_memory; dsimp only; (repeat' split) <;> rfl

theorem APEX_memory_writeback (s : APEX_CPU) :
    (APEX_memory s).writeback =
      if s.memory.has_insn then (APEX_memory s).memory else s.writeback := by
  unfold APEX_memory; dsimp only; (repeat' split) <;> simp_all

@[simp] theorem get_mem_dest_memory (s : APEX_CPU) :
    (get_mem_dest s).memory = { s.memory with has_insn := false } := by
  unfold get_mem_dest; dsimp only; (repeat' split) <;> rfl

theorem get_mem_dest_captured (s : APEX_CPU) :
    ((get_mem_dest s).mem_dest, (get_mem_dest s).mem_dest1) =
      captured s.memory s.mem_dest s.mem_dest1 := by
  unfold get_mem_dest captured; dsimp only; (repeat' split) <;> simp_all

@[simp] theorem get_ex_dest_execute (s : APEX_CPU) :
    (get_ex_dest s).execute = { s.execute with has_insn := false } := by
  unfold get_ex_dest; dsimp only; (repeat' split) <;> rfl

theorem get_ex_dest_captured (s : APEX_CPU) :
    ((get_ex_dest s).ex_dest, (get_ex_dest s).ex_dest1) =
      captured s.execute s.ex_dest s.ex_dest1 := by
  unfold get_ex_dest captured; dsimp only; (repeat' split) <;> simp_all
@[simp] theorem APEX_execute_execute_has_insn (s : APEX_CPU) :
    (APEX_execute s).execute.has_insn = s.execute.has_insn := by
  unfold APEX_execute execute_switch execute_arith execute_transfer
  dsimp only; (repeat' split) <;> rfl

@[simp] theorem APEX_execute_execute_opcode (s : APEX_CPU) :
    (APEX_execute s).execute.opcode = s.execute.opcode := by
  unfold APEX_execute execute_switch execute_arith execute_transfer
  dsimp only; (repeat' split) <;> rfl

@[simp] theorem APEX_execute_execute_rd (s : APEX_CPU) :
    (APEX_execute s).execute.rd = s.execute.rd := by
  unfold APEX_execute execute_switch execute_arith execute_transfer
  dsimp only; (repeat' split) <;> rfl

@[simp] theorem APEX_execute_execute_rs1 (s : APEX_CPU) :
    (APEX_execute s).execute.rs1 = s.execute.rs1 := by
  unfold APEX_execute execute_switch execute_arith execute_transfer
  dsimp only; (repeat' split) <;> rfl

@[simp] theorem APEX_execute_execute_rs2 (s : APEX_CPU) :
    (APEX_execute s).execute.rs2 = s.execute.rs2 := by
  unfold APEX_execute execute_switch execute_arith execute_transfer
  dsimp only; (repeat' split) <;> rfl

@[simp] theorem APEX_execute_execute_pc (s : APEX_CPU) :
    (APEX_execute s).execute.pc = s.execute.pc := by
  unfold APEX_execute execute_switch execute_arith execute_transfer
  dsimp only; (repeat' split) <;> rfl

@[simp] theorem APEX_execute_execute_imm (s : APEX_CPU) :
    (APEX_execute s).execute.imm = s.execute.imm := by
  unfold APEX_execute execute_switch execute_arith execute_transfer
  dsimp only; (repeat' split) <;> rfl

theorem APEX_execute_memory (s : APEX_CPU) :
    (APEX_execute s).memory =
      if s.execute.has_insn then (APEX_execute s).execute else s.memory := by
  unfold APEX_execute execute_switch execute_arith execute_transfer
  dsimp only; (repeat' split) <;> simp_all

theorem APEX_execute_decode (s : APEX_CPU) :
    (APEX_execute s).decode =
      if taken s then { s.decode with has_insn := false } else s.decode := by
  unfold APEX_execute execute_switch execute_arith execute_transfer taken
  dsimp only; (repeat' split) <;> simp_all

theorem APEX_execute_fetch (s : APEX_CPU) :
    (APEX_execute s).fetch =
      if taken s then { s.fetch with has_insn := true } else s.fetch := by
  unfold APEX_execute execute_switch execute_arith execute_transfer taken
  dsimp only; (repeat' split) <;> simp_all

theorem APEX_execute_pc (s : APEX_CPU) :
    (APEX_execute s).pc = if taken s then transfer_target s else s.pc := by
  unfold APEX_execute execute_switch execute_arith execute_transfer taken transfer_target
  dsimp only; (repeat' split) <;> simp_all

theorem APEX_execute_fetch_from_next_cycle (s : APEX_CPU) :
    (APEX_execute s).fetch_from_next_cycle = (taken s || s.fetch_from_next_cycle) := by
  unfold APEX_execute execute_switch execute_arith execute_transfer taken
  dsimp only; (repeat' split) <;> simp_all

theorem check_mem_dependency_stall_count (s : APEX_CPU) :
    (check_mem_dependency s).stall_count =
      if s.decode.has_insn = true ∧ dep_match s.decode s.mem_dest s.mem_dest1 then 1
      else s.stall_count := by
  unfold check_mem_dependency dep_match CPU_Stage.srcs srcs_of
  dsimp only; (repeat' split) <;> simp_all

theorem check_mem_dependency_mem_dest (s : APEX_CPU) :
    (check_mem_dependency s).mem_dest = if s.decode.has_insn then -1 else s.mem_dest := by
  unfold check_mem_dependency; dsimp only; (repeat' split) <;> simp_all

theorem check_mem_dependency_mem_dest1 (s : APEX_CPU) :
    (check_mem_dependency s).mem_dest1 = if s.decode.has_insn then -1 else s.mem_dest1 := by
  unfold check_mem_dependency; dsimp only; (repeat' split) <;> simp_all

theorem check_ex_dependency_stall_count (s : APEX_CPU) :
    (check_ex_dependency s).stall_count =
      if s.decode.has_insn = true ∧ dep_match s.decode s.ex_dest s.ex_dest1 then 2
      else s.stall_count := by
  unfold check_ex_dependency dep_match CPU_Stage.srcs srcs_of
  dsimp only; (repeat' split) <;> simp_all

theorem check_ex_dependency_ex_dest (s : APEX_CPU) :
    (check_ex_dependency s).ex_dest = if s.decode.has_insn then -1 else s.ex_dest := by
  unfold check_ex_dependency; dsimp only; (repeat' split) <;> simp_all

theorem check_ex_dependency_ex_dest1 (s : APEX_CPU) :
    (check_ex_dependency s).ex_dest1 = if s.decode.has_insn then -1 else s.ex_dest1 := by
  unfold check_ex_dependency; dsimp only; (repeat' split) <;> simp_all
@[simp] theorem APEX_decode_decode_has_insn (s : APEX_CPU) :
    (APEX_decode s).decode.has_insn = false := by
  unfold APEX_decode; dsimp only; (repeat' split) <;> simp_all

theorem APEX_decode_execute_has_insn (s : APEX_CPU) :
    (APEX_decode s).execute.has_insn = (s.decode.has_insn || s.execute.has_insn) := by
  unfold APEX_decode; dsimp only; (repeat' split) <;> simp_all

theorem APEX_decode_execute_opcode (s : APEX_CPU) :
    (APEX_decode s).execute.opcode =
      if s.decode.has_insn then s.decode.opcode else s.execute.opcode := by
  unfold APEX_decode; dsimp only; (repeat' split) <;> simp_all

theorem APEX_decode_execute_pc (s : APEX_CPU) :
    (APEX_decode s).execute.pc = if s.decode.has_insn then s.decode.pc else s.execute.pc := by
  unfold APEX_decode; dsimp only; (repeat' split) <;> simp_all

@[simp] theorem load_fetch_latch_has_insn (s : APEX_CPU) :
    (load_fetch_latch s).has_insn = s.fetch.has_insn := rfl

@[simp] theorem load_fetch_latch_pc (s : APEX_CPU) : (load_fetch_latch s).pc = s.pc := rfl

@[simp] theorem load_fetch_latch_opcode (s : APEX_CPU) :
    (load_fetch_latch s).opcode =
      (code_memory_at s.code_memory (get_code_memory_index_from_pc s.pc)).opcode := rfl

theorem APEX_fetch_decode (s : APEX_CPU) :
    (APEX_fetch s).decode =
      if s.fetch.has_insn = true ∧ s.fetch_from_next_cycle = false then load_fetch_latch s
      else s.decode := by
  unfold APEX_fetch; dsimp only; (repeat' split) <;> simp_all

theorem APEX_fetch_pc (s : APEX_CPU) :
    (APEX_fetch s).pc =
      if s.fetch.has_insn = true ∧ s.fetch_from_next_cycle = false then wrap32 (s.pc + 4)
      else s.pc := by
  unfold APEX_fetch; dsimp only; (repeat' split) <;> simp_all

theorem APEX_fetch_fetch_from_next_cycle (s : APEX_CPU) :
    (APEX_fetch s).fetch_from_next_cycle =
      if s.fetch.has_insn then false else s.fetch_from_next_cycle := by
  unfold APEX_fetch; dsimp only; (repeat' split) <;> simp_all

theorem APEX_fetch_fetch_has_insn (s : APEX_CPU) :
    (APEX_fetch s).fetch.has_insn =
      if s.fetch.has_insn = true ∧ s.fetch_from_next_cycle = false then
        decide ((load_fetch_latch s).opcode ≠ Opcode.HALT)
      else s.fetch.has_insn := by
  unfold APEX_fetch; dsimp only; (repeat' split) <;> simp_all

@[simp] theorem stall_fetch_fetch_has_insn (s : APEX_CPU) :
    (stall_fetch s).fetch.has_insn = s.fetch.has_insn := by
  unfold stall_fetch; dsimp only; (repeat' split) <;> rfl

@[simp] theorem APEX_decode_decode_opcode (s : APEX_CPU) :
    (APEX_decode s).decode.opcode = s.decode.opcode := by
  unfold APEX_decode; dsimp only; (repeat' split) <;> simp_all

@[simp] theorem APEX_decode_decode_rs1 (s : APEX_CPU) :
    (APEX_decode s).decode.rs1 = s.decode.rs1 := by
  unfold APEX_decode; dsimp only; (repeat' split) <;> simp_all

@[simp] theorem APEX_decode_decode_rs2 (s : APEX_CPU) :
    (APEX_decode s).decode.rs2 = s.decode.rs2 := by
  unfold APEX_decode; dsimp only; (repeat' split) <;> simp_all

@[simp] theorem load_fetch_latch_rd (s : APEX_CPU) :
    (load_fetch_latch s).rd =
      (code_memory_at s.code_memory (get_code_memory_index_from_pc s.pc)).rd := rfl

@[simp] theorem load_fetch_latch_rs1 (s : APEX_CPU) :
    (load_fetch_latch s).rs1 =
      (code_memory_at s.code_memory (get_code_memory_index_from_pc s.pc)).rs1 := rfl

@[simp] theorem load_fetch_latch_rs2 (s : APEX_CPU) :
    (load_fetch_latch s).rs2 =
      (code_memory_at s.code_memory (get_code_memory_index_from_pc s.pc)).rs2 := rfl

@[simp] theorem load_fetch_latch_imm (s : APEX_CPU) :
    (load_fetch_latch s).imm =
      (code_memory_at s.code_memory (get_code_memory_index_from_pc s.pc)).imm := rfl

theorem code_memory_at_mem (code : List APEX_Instruction) (i : Int) :
    code_memory_at code i ∈ code ∨ code_memory_at code i = APEX_Instruction.none := by
  unfold code_memory_at
  split
  · by_cases h : i.toNat < code.length
    · left; rw [List.getD_eq_getElem _ _ h]; exact List.getElem_mem _
    · right; rw [List.getD_eq_default _ _ (by omega)]
  · right; rfl

theorem load_fetch_latch_insn (s : APEX_CPU) :
    (load_fetch_latch s).insn =
      code_memory_at s.code_memory (get_code_memory_index_from_pc s.pc) := rfl

@[simp] theorem APEX_memory_memory_insn (s : APEX_CPU) :
    (APEX_memory s).memory.insn = s.memory.insn := by
  unfold APEX_memory; dsimp only; (repeat' split) <;> rfl

@[simp] theorem APEX_execute_execute_insn (s : APEX_CPU) :
    (APEX_execute s).execute.insn = s.execute.insn := by
  unfold APEX_execute execute_switch execute_arith execute_transfer
  dsimp only; (repeat' split) <;> rfl

theorem APEX_decode_execute_insn (s : APEX_CPU) (h : s.decode.has_insn = true) :
    (APEX_decode s).execute.insn = s.decode.insn := by
  unfold APEX_decode; dsimp only; (repeat' split) <;> rfl

/-! ### The hazard check as a whole -/

theorem taken_congr {a b : APEX_CPU} (he : a.execute = b.execute)
    (hz : a.zero_flag = b.zero_flag) (hp : a.positive_flag = b.positive_flag) :
    taken a = taken b := by
  unfold taken; rw [he, hz, hp]

theorem transfer_target_congr {a b : APEX_CPU} (he : a.execute = b.execute) :
    transfer_target a = transfer_target b := by
  unfold transfer_target; rw [he]

/-- The state on which `APEX_execute` runs within a tick. -/
theorem taken_before_execute (s : APEX_CPU) (w m e d f : Bool) (g : Int → Int) :
    taken (get_mem_dest (APEX_memory (APEX_writeback
      { s with wp := w, mp := m, ep := e, dp := d, fp := f, regf := g }).1)) = taken s :=
  taken_congr (by simp) (by simp) (by simp)

theorem transfer_target_before_execute (s : APEX_CPU) (w m e d f : Bool) (g : Int → Int) :
    transfer_target (get_mem_dest (APEX_memory (APEX_writeback
      { s with wp := w, mp := m, ep := e, dp := d, fp := f, regf := g }).1)) =
      transfer_target s :=
  transfer_target_congr (by simp)

theorem hazard_check_decode (s : APEX_CPU) :
    (hazard_check s).1.decode =
      if taken s then { s.decode with has_insn := false } else s.decode := by
  simp [hazard_check, APEX_execute_decode, taken_before_execute]

theorem hazard_check_fetch (s : APEX_CPU) :
    (hazard_check s).1.fetch =
      if taken s then { s.fetch with has_insn := true } else s.fetch := by
  simp [hazard_check, APEX_execute_fetch, taken_before_execute]

theorem hazard_check_pc (s : APEX_CPU) :
    (hazard_check s).1.pc = if taken s then transfer_target s else s.pc := by
  simp [hazard_check, APEX_execute_pc, taken_before_execute, transfer_target_before_execute]

theorem hazard_check_fetch_from_next_cycle (s : APEX_CPU) :
    (hazard_check s).1.fetch_from_next_cycle = (taken s || s.fetch_from_next_cycle) := by
  simp [hazard_check, APEX_execute_fetch_from_next_cycle, taken_before_execute]

@[simp] theorem hazard_check_code_memory (s : APEX_CPU) :
    (hazard_check s).1.code_memory = s.code_memory := by
  simp [hazard_check]

@[simp] theorem hazard_check_execute_has_insn (s : APEX_CPU) :
    (hazard_check s).1.execute.has_insn = false := by
  simp [hazard_check]

@[simp] theorem hazard_check_memory_has_insn (s : APEX_CPU) :
    (hazard_check s).1.memory.has_insn = s.execute.has_insn := by
  by_cases h : s.execute.has_insn = true <;> simp [hazard_check, APEX_execute_memory, h]

theorem hazard_check_memory_of_execute (s : APEX_CPU) (h : s.execute.has_insn = true) :
    (hazard_check s).1.memory.opcode = s.execute.opcode ∧
    (hazard_check s).1.memory.rd = s.execute.rd ∧
    (hazard_check s).1.memory.rs1 = s.execute.rs1 ∧
    (hazard_check s).1.memory.rs2 = s.execute.rs2 ∧
    (hazard_check s).1.memory.pc = s.execute.pc ∧
    (hazard_check s).1.memory.imm = s.execute.imm := by
  simp [hazard_check, APEX_execute_memory, h]

@[simp] theorem hazard_check_writeback_has_insn (s : APEX_CPU) :
    (hazard_check s).1.writeback.has_insn = s.memory.has_insn := by
  by_cases h : s.memory.has_insn = true <;> simp [hazard_check, APEX_memory_writeback, h]

theorem hazard_check_writeback_of_memory (s : APEX_CPU) (h : s.memory.has_insn = true) :
    (hazard_check s).1.writeback.opcode = s.memory.opcode ∧
    (hazard_check s).1.writeback.rd = s.memory.rd ∧
    (hazard_check s).1.writeback.rs1 = s.memory.rs1 ∧
    (hazard_check s).1.writeback.rs2 = s.memory.rs2 ∧
    (hazard_check s).1.writeback.pc = s.memory.pc ∧
    (hazard_check s).1.writeback.imm = s.memory.imm := by
  simp [hazard_check, APEX_memory_writeback, h]

@[simp] theorem hazard_check_stop (s : APEX_CPU) :
    (hazard_check s).2 = (s.writeback.has_insn && decide (s.writeback.opcode = Opcode.HALT)) := by
  unfold hazard_check APEX_writeback; dsimp only; split <;> simp_all

theorem captured_congr {a b : CPU_Stage} (x x1 : Int) (h : a.has_insn = b.has_insn)
    (ho : a.opcode = b.opcode) (hd : a.rd = b.rd) (h1 : a.rs1 = b.rs1) (h2 : a.rs2 = b.rs2) :
    captured a x x1 = captured b x x1 := by
  unfold captured; rw [h, ho, hd, h1, h2]

theorem dep_match_congr {a b : CPU_Stage} (x x1 : Int) (ho : a.opcode = b.opcode)
    (h1 : a.rs1 = b.rs1) (h2 : a.rs2 = b.rs2) : dep_match a x x1 = dep_match b x x1 := by
  unfold dep_match CPU_Stage.srcs; rw [ho, h1, h2]

theorem get_mem_dest_mem_dest (s : APEX_CPU) :
    (get_mem_dest s).mem_dest = (pending_mem s).1 :=
  congrArg Prod.fst (get_mem_dest_captured s)

theorem get_mem_dest_mem_dest1 (s : APEX_CPU) :
    (get_mem_dest s).mem_dest1 = (pending_mem s).2 :=
  congrArg Prod.snd (get_mem_dest_captured s)

theorem get_ex_dest_ex_dest (s : APEX_CPU) :
    (get_ex_dest s).ex_dest = (pending_ex s).1 :=
  congrArg Prod.fst (get_ex_dest_captured s)

theorem get_ex_dest_ex_dest1 (s : APEX_CPU) :
    (get_ex_dest s).ex_dest1 = (pending_ex s).2 :=
  congrArg Prod.snd (get_ex_dest_captured s)

theorem pending_mem_before (s : APEX_CPU) (w m e d f : Bool) (g : Int → Int) :
    pending_mem (APEX_memory (APEX_writeback
      { s with wp := w, mp := m, ep := e, dp := d, fp := f, regf := g }).1) = pending_mem s := by
  unfold pending_mem
  simp only [APEX_memory_mem_dest, APEX_memory_mem_dest1, APEX_writeback_mem_dest,
    APEX_writeback_mem_dest1]
  exact captured_congr _ _ (by simp) (by simp) (by simp) (by simp) (by simp)

theorem pending_ex_before (s : APEX_CPU) (w m e d f : Bool) (g : Int → Int) :
    pending_ex (APEX_execute (get_mem_dest (APEX_memory (APEX_writeback
      { s with wp := w, mp := m, ep := e, dp := d, fp := f, regf := g }).1))) =
      pending_ex s := by
  unfold pending_ex
  simp only [APEX_execute_ex_dest, APEX_execute_ex_dest1, get_mem_dest_ex_dest,
    get_mem_dest_ex_dest1, APEX_memory_ex_dest, APEX_memory_ex_dest1, APEX_writeback_ex_dest,
    APEX_writeback_ex_dest1]
  exact captured_congr _ _ (by simp) (by simp) (by simp) (by simp) (by simp)

theorem hazard_check_decode_has_insn (s : APEX_CPU) :
    ((hazard_check s).1.decode.has_insn = true) = decode_checked s := by
  rw [hazard_check_decode]; unfold decode_checked
  cases taken s <;> simp

theorem hazard_check_decode_srcs (s : APEX_CPU) :
    (hazard_check s).1.decode.srcs = s.decode.srcs := by
  rw [hazard_check_decode]; split <;> rfl

theorem decode_after_execute (s : APEX_CPU) (w m e d f : Bool) (g : Int → Int) :
    (APEX_execute (get_mem_dest (APEX_memory (APEX_writeback
      { s with wp := w, mp := m, ep := e, dp := d, fp := f, regf := g }).1))).decode =
      if taken s then { s.decode with has_insn := false } else s.decode := by
  simp [APEX_execute_decode, taken_before_execute]

theorem hazard_check_stall_count (s : APEX_CPU) :
    (hazard_check s).1.stall_count =
      if decode_checked s then
        if dep_match s.decode (pending_ex s).1 (pending_ex s).2 then 2
        else if dep_match s.decode (pending_mem s).1 (pending_mem s).2 then 1
        else decay_stall s.stall_count
      else decay_stall s.stall_count := by
  unfold hazard_check
  simp only [check_ex_dependency_stall_count, check_mem_dependency_stall_count,
    check_mem_dependency_decode, check_mem_dependency_ex_dest, check_mem_dependency_ex_dest1,
    get_ex_dest_ex_dest, get_ex_dest_ex_dest1, get_ex_dest_decode, get_ex_dest_mem_dest,
    get_ex_dest_mem_dest1, get_ex_dest_stall_count, APEX_execute_mem_dest,
    APEX_execute_mem_dest1, APEX_execute_stall_count, get_mem_dest_mem_dest,
    get_mem_dest_mem_dest1, get_mem_dest_stall_count, APEX_memory_stall_count,
    APEX_writeback_stall_count, pending_mem_before, pending_ex_before, decode_after_execute]
  unfold decode_checked
  by_cases ht : taken s = true
  · simp [ht]
  · have ht' : taken s = false := by simpa using ht
    simp only [ht', Bool.false_eq_true, if_false, and_true]
    by_cases hd : s.decode.has_insn = true <;> simp [hd]

theorem hazard_check_ex_dest (s : APEX_CPU) :
    (hazard_check s).1.ex_dest = if decode_checked s then -1 else (pending_ex s).1 := by
  unfold hazard_check
  simp only [check_ex_dependency_ex_dest, check_mem_dependency_decode,
    check_mem_dependency_ex_dest, get_ex_dest_ex_dest, get_ex_dest_decode, pending_ex_before,
    decode_after_execute]
  unfold decode_checked
  by_cases ht : taken s = true
  · simp [ht]
  · have ht' : taken s = false := by simpa using ht
    simp only [ht', Bool.false_eq_true, if_false, and_true]

theorem hazard_check_ex_dest1 (s : APEX_CPU) :
    (hazard_check s).1.ex_dest1 = if decode_checked s then -1 else (pending_ex s).2 := by
  unfold hazard_check
  simp only [check_ex_dependency_ex_dest1, check_mem_dependency_decode,
    check_mem_dependency_ex_dest1, get_ex_dest_ex_dest1, get_ex_dest_decode, pending_ex_before,
    decode_after_execute]
  unfold decode_checked
  by_cases ht : taken s = true
  · simp [ht]
  · have ht' : taken s = false := by simpa using ht
    simp only [ht', Bool.false_eq_true, if_false, and_true]

theorem hazard_check_mem_dest (s : APEX_CPU) :
    (hazard_check s).1.mem_dest = if decode_checked s then -1 else (pending_mem s).1 := by
  unfold hazard_check
  simp only [check_ex_dependency_mem_dest, check_mem_dependency_mem_dest, get_ex_dest_decode,
    get_ex_dest_mem_dest, APEX_execute_mem_dest, get_mem_dest_mem_dest, pending_mem_before,
    decode_after_execute]
  unfold decode_checked
  by_cases ht : taken s = true
  · simp [ht]
  · have ht' : taken s = false := by simpa using ht
    simp only [ht', Bool.false_eq_true, if_false, and_true]

theorem hazard_check_mem_dest1 (s : APEX_CPU) :
    (hazard_check s).1.mem_dest1 = if decode_checked s then -1 else (pending_mem s).2 := by
  unfold hazard_check
  simp only [check_ex_dependency_mem_dest1, check_mem_dependency_mem_dest1, get_ex_dest_decode,
    get_ex_dest_mem_dest1, APEX_execute_mem_dest1, get_mem_dest_mem_dest1, pending_mem_before,
    decode_after_execute]
  unfold decode_checked
  by_cases ht : taken s = true
  · simp [ht]
  · have ht' : taken s = false := by simpa using ht
    simp only [ht', Bool.false_eq_true, if_false, and_true]

/-! ### One full cycle -/

theorem load_fetch_latch_congr {a b : APEX_CPU} (hf : a.fetch = b.fetch) (hp : a.pc = b.pc)
    (hc : a.code_memory = b.code_memory) : load_fetch_latch a = load_fetch_latch b := by
  unfold load_fetch_latch; rw [hf, hp, hc]

theorem cycle_stall_count (s : APEX_CPU) :
    (APEX_cpu_cycle s).stall_count = (hazard_check s).1.stall_count := by
  unfold APEX_cpu_cycle APEX_cpu_tick; dsimp only; split <;> simp

theorem cycle_memory (s : APEX_CPU) :
    (APEX_cpu_cycle s).memory = (hazard_check s).1.memory := by
  unfold APEX_cpu_cycle APEX_cpu_tick; dsimp only; split <;> simp

theorem cycle_writeback (s : APEX_CPU) :
    (APEX_cpu_cycle s).writeback = (hazard_check s).1.writeback := by
  unfold APEX_cpu_cycle APEX_cpu_tick; dsimp only; split <;> simp

theorem cycle_mem_dest (s : APEX_CPU) :
    (APEX_cpu_cycle s).mem_dest = (hazard_check s).1.mem_dest := by
  unfold APEX_cpu_cycle APEX_cpu_tick; dsimp only; split <;> simp

theorem cycle_mem_dest1 (s : APEX_CPU) :
    (APEX_cpu_cycle s).mem_dest1 = (hazard_check s).1.mem_dest1 := by
  unfold APEX_cpu_cycle APEX_cpu_tick; dsimp only; split <;> simp

theorem cycle_ex_dest (s : APEX_CPU) :
    (APEX_cpu_cycle s).ex_dest = (hazard_check s).1.ex_dest := by
  unfold APEX_cpu_cycle APEX_cpu_tick; dsimp only; split <;> simp

theorem cycle_ex_dest1 (s : APEX_CPU) :
    (APEX_cpu_cycle s).ex_dest1 = (hazard_check s).1.ex_dest1 := by
  unfold APEX_cpu_cycle APEX_cpu_tick; dsimp only; split <;> simp

@[simp] theorem cycle_code_memory (s : APEX_CPU) :
    (APEX_cpu_cycle s).code_memory = s.code_memory := by
  unfold APEX_cpu_cycle APEX_cpu_tick; dsimp only; split <;> simp

theorem cycle_execute_has_insn (s : APEX_CPU) :
    ((APEX_cpu_cycle s).execute.has_insn = true) = (advances s ∧ decode_checked s) := by
  rw [← hazard_check_decode_has_insn]
  unfold advances APEX_cpu_cycle APEX_cpu_tick; dsimp only
  split <;> simp [APEX_decode_execute_has_insn, *]

theorem cycle_execute_of_advance (s : APEX_CPU) (ha : advances s) (hd : decode_checked s) :
    (APEX_cpu_cycle s).execute.opcode = s.decode.opcode ∧
    (APEX_cpu_cycle s).execute.pc = s.decode.pc := by
  have hd' := hd
  rw [← hazard_check_decode_has_insn] at hd'
  have h1 : (hazard_check s).1.decode.opcode = s.decode.opcode := by
    rw [hazard_check_decode]; split <;> rfl
  have h2 : (hazard_check s).1.decode.pc = s.decode.pc := by
    rw [hazard_check_decode]; split <;> rfl
  unfold advances at ha
  unfold APEX_cpu_cycle APEX_cpu_tick; dsimp only
  simp [ha, APEX_decode_execute_opcode, APEX_decode_execute_pc, hd', h1, h2]

theorem cycle_decode (s : APEX_CPU) :
    (APEX_cpu_cycle s).decode =
      if advances s then
        if (hazard_check s).1.fetch.has_insn = true ∧
            (hazard_check s).1.fetch_from_next_cycle = false then
          load_fetch_latch (hazard_check s).1
        else (APEX_decode (hazard_check s).1).decode
      else (hazard_check s).1.decode := by
  unfold advances APEX_cpu_cycle APEX_cpu_tick; dsimp only
  split
  · simp only [APEX_fetch_decode, APEX_decode_fetch, APEX_decode_fetch_from_next_cycle]
    rw [load_fetch_latch_congr (APEX_decode_fetch _) (APEX_decode_pc _)
      (APEX_decode_code_memory _)]
  · simp

theorem cycle_decode_has_insn (s : APEX_CPU) :
    ((APEX_cpu_cycle s).decode.has_insn = true) =
      (fetches s ∨ (¬ advances s ∧ decode_checked s)) := by
  rw [cycle_decode, ← hazard_check_decode_has_insn]; unfold fetches
  by_cases ha : advances s
  · by_cases hf : (hazard_check s).1.fetch.has_insn = true ∧
        (hazard_check s).1.fetch_from_next_cycle = false
    · simp [ha, hf]
    · simp only [ha, hf, if_true, if_false, APEX_decode_decode_has_insn]
      simp
  · simp [ha]

theorem cycle_pc (s : APEX_CPU) :
    (APEX_cpu_cycle s).pc =
      if fetches s then wrap32 ((hazard_check s).1.pc + 4) else (hazard_check s).1.pc := by
  unfold fetches advances APEX_cpu_cycle APEX_cpu_tick; dsimp only
  split
  · rename_i h
    simp only [APEX_fetch_pc, APEX_decode_fetch, APEX_decode_fetch_from_next_cycle,
      APEX_decode_pc, h, true_and]
  · rename_i h
    simp [h]

theorem cycle_fetch_from_next_cycle (s : APEX_CPU) :
    (APEX_cpu_cycle s).fetch_from_next_cycle =
      if advances s ∧ (hazard_check s).1.fetch.has_insn = true then false
      else (hazard_check s).1.fetch_from_next_cycle := by
  unfold advances APEX_cpu_cycle APEX_cpu_tick; dsimp only
  split
  · rename_i h
    simp only [APEX_fetch_fetch_from_next_cycle, APEX_decode_fetch,
      APEX_decode_fetch_from_next_cycle, h, true_and]
  · rename_i h
    simp [h]

theorem cycle_fetch_has_insn (s : APEX_CPU) :
    (APEX_cpu_cycle s).fetch.has_insn =
      if fetches s then decide ((load_fetch_latch (hazard_check s).1).opcode ≠ Opcode.HALT)
      else (hazard_check s).1.fetch.has_insn := by
  unfold fetches advances APEX_cpu_cycle APEX_cpu_tick; dsimp only
  split
  · rename_i h
    simp only [APEX_fetch_fetch_has_insn, APEX_decode_fetch, APEX_decode_fetch_from_next_cycle,
      h, true_and]
    rw [load_fetch_latch_congr (APEX_decode_fetch _) (APEX_decode_pc _)
      (APEX_decode_code_memory _)]
  · rename_i h
    simp [h]

/-! ### Latch contents move unchanged from stage to stage -/

theorem cycle_writeback_insn (s : APEX_CPU) (h : s.memory.has_insn = true) :
    (APEX_cpu_cycle s).writeback.insn = s.memory.insn ∧
    (APEX_cpu_cycle s).writeback.pc = s.memory.pc := by
  rw [cycle_writeback]
  simp [hazard_check, APEX_memory_writeback, h]

theorem cycle_memory_insn (s : APEX_CPU) (h : s.execute.has_insn = true) :
    (APEX_cpu_cycle s).memory.insn = s.execute.insn ∧
    (APEX_cpu_cycle s).memory.pc = s.execute.pc := by
  rw [cycle_memory]
  simp [hazard_check, APEX_execute_memory, h]

theorem cycle_execute_insn (s : APEX_CPU) (ha : advances s) (hd : decode_checked s) :
    (APEX_cpu_cycle s).execute.insn = s.decode.insn ∧
    (APEX_cpu_cycle s).execute.pc = s.decode.pc := by
  have hd' := hd
  rw [← hazard_check_decode_has_insn] at hd'
  have h1 : (hazard_check s).1.decode.insn = s.decode.insn := by
    rw [hazard_check_decode]; split <;> rfl
  refine ⟨?_, (cycle_execute_of_advance s ha hd).2⟩
  unfold advances at ha
  unfold APEX_cpu_cycle APEX_cpu_tick; dsimp only
  simp only [ha, if_true, APEX_fetch_execute, APEX_decode_execute_insn _ hd', h1]

/-! ### Invariants of a run -/

theorem taken_has_insn {s : APEX_CPU} (h : taken s = true) : s.execute.has_insn = true := by
  unfold taken at h; simp only [Bool.and_eq_true] at h; exact h.1

theorem captured_of_taken {s : APEX_CPU} (h : taken s = true) (x x1 : Int) :
    captured s.execute x x1 = (x, x1) := by
  unfold taken at h; unfold captured
  cases ho : s.execute.opcode <;> simp_all

theorem captured_of_halt {l : CPU_Stage} (h : l.opcode = Opcode.HALT) (x x1 : Int) :
    captured l x x1 = (x, x1) := by
  unfold captured; simp [h]

theorem captured_of_empty {l : CPU_Stage} (h : l.has_insn = false) (x x1 : Int) :
    captured l x x1 = (x, x1) := by
  unfold captured; simp [h]

theorem decay_stall_zero : decay_stall 0 = 0 := by decide

theorem inv_start (code : List APEX_Instruction) : Inv (APEX_cpu_start code) where
  stall_free := fun _ => rfl
  no_skip := rfl
  halt_fetched := fun h => by simp [APEX_cpu_start, APEX_cpu_init, CPU_Stage.zero] at h
  halt_last := fun h => by simp [APEX_cpu_start, APEX_cpu_init, CPU_Stage.zero] at h
  ex_fresh := Or.inr ⟨rfl, rfl⟩

theorem advances_of_taken {s : APEX_CPU} (hi : Inv s) (ht : taken s = true) : advances s := by
  unfold advances
  rw [hazard_check_stall_count]
  have : ¬ decode_checked s := by unfold decode_checked; simp [ht]
  simp only [this, if_false]
  rw [hi.stall_free (taken_has_insn ht)]; exact decay_stall_zero

theorem inv_cycle {s : APEX_CPU} (hi : Inv s) : Inv (APEX_cpu_cycle s) where
  stall_free := by
    intro h
    rw [cycle_execute_has_insn] at h
    rw [cycle_stall_count]; exact h.1
  no_skip := by
    rw [cycle_fetch_from_next_cycle, hazard_check_fetch_from_next_cycle, hi.no_skip]
    by_cases ht : taken s = true
    · have ha := advances_of_taken hi ht
      have hf : (hazard_check s).1.fetch.has_insn = true := by
        rw [hazard_check_fetch]; simp [ht]
      simp [ha, hf]
    · have ht' : taken s = false := by simpa using ht
      simp [ht']
  halt_fetched := by
    intro hd hf
    rw [cycle_decode_has_insn] at hd
    rw [cycle_fetch_has_insn] at hf
    rcases hd with hd | ⟨hna, hdc⟩
    · rw [if_pos hd] at hf
      rw [cycle_decode, if_pos hd.1, if_pos hd.2]
      simpa using hf
    · have hnf : ¬ fetches s := fun h => hna h.1
      rw [if_neg hnf, hazard_check_fetch] at hf
      rw [cycle_decode, if_neg hna, hazard_check_decode]
      simp only [hdc.2, Bool.false_eq_true, if_false] at hf ⊢
      exact hi.halt_fetched hdc.1 hf
  halt_last := by
    intro he hd
    rw [cycle_execute_has_insn] at he
    have hnf : ¬ fetches s := by
      intro hf
      have : (APEX_cpu_cycle s).decode.has_insn = true := by
        rw [cycle_decode_has_insn]; exact Or.inl hf
      rw [hd] at this; exact Bool.false_ne_true this
    rw [(cycle_execute_of_advance s he.1 he.2).1]
    apply hi.halt_fetched he.2.1
    have h1 : (hazard_check s).1.fetch_from_next_cycle = false := by
      rw [hazard_check_fetch_from_next_cycle, hi.no_skip, he.2.2]; rfl
    have h2 : (hazard_check s).1.fetch.has_insn = s.fetch.has_insn := by
      rw [hazard_check_fetch]; simp [he.2.2]
    unfold fetches at hnf
    rw [h2] at hnf
    by_contra hc
    exact hnf ⟨he.1, by simpa using hc, h1⟩
  ex_fresh := by
    rw [cycle_ex_dest, cycle_ex_dest1, hazard_check_ex_dest, hazard_check_ex_dest1]
    by_cases hdc : decode_checked s
    · left; simp [hdc]
    · simp only [hdc, if_false]
      have hex : (APEX_cpu_cycle s).execute.has_insn = false := by
        have := cycle_execute_has_insn s
        by_contra hc
        have hc' : (APEX_cpu_cycle s).execute.has_insn = true := by simpa using hc
        rw [this] at hc'; exact hdc hc'.2
      by_cases he : s.execute.has_insn = true
      · have hold : s.ex_dest = -1 ∧ s.ex_dest1 = -1 := by
          rcases hi.ex_fresh with h | h
          · exact h
          · rw [h.1] at he; exact absurd he Bool.false_ne_true
        have hcap : pending_ex s = (s.ex_dest, s.ex_dest1) := by
          unfold pending_ex
          by_cases ht : taken s = true
          · exact captured_of_taken ht _ _
          · have hd : s.decode.has_insn = false := by
              unfold decode_checked at hdc
              by_contra hc
              exact hdc ⟨by simpa using hc, by simpa using ht⟩
            exact captured_of_halt (hi.halt_last he hd) _ _
        left; rw [hcap]; exact hold
      · have he' : s.execute.has_insn = false := by simpa using he
        have hcap : pending_ex s = (s.ex_dest, s.ex_dest1) := captured_of_empty he' _ _
        rcases hi.ex_fresh with h | h
        · left; rw [hcap]; exact h
        · right
          refine ⟨hex, ?_⟩
          rw [cycle_memory, hazard_check_memory_has_insn]; exact he'

theorem inv_of_reachable {code : List APEX_Instruction} {s : APEX_CPU}
    (h : Reachable code s) : Inv s := by
  induction h with
  | start => exact inv_start code
  | cycle s _ ih => exact inv_cycle ih

theorem reachable_code_memory {code : List APEX_Instruction} {s : APEX_CPU}
    (h : Reachable code s) : s.code_memory = code := by
  induction h with
  | start => rfl
  | cycle s _ ih => rw [cycle_code_memory]; exact ih

theorem load_fetch_latch_srcs_nonneg {s : APEX_CPU} (hv : srcs_nonneg s.code_memory) :
    ∀ r ∈ (load_fetch_latch s).srcs, 0 ≤ r := by
  intro r hr
  rcases code_memory_at_mem s.code_memory (get_code_memory_index_from_pc s.pc) with h | h
  · exact hv _ h r hr
  · unfold CPU_Stage.srcs at hr
    simp only [load_fetch_latch_opcode, load_fetch_latch_rs1, load_fetch_latch_rs2, h] at hr
    simp [APEX_Instruction.none, srcs_of] at hr

/-- In a run of a program whose source register indices are non-negative, the
Decode latch never holds a negative source register index. -/
theorem decode_srcs_nonneg {code : List APEX_Instruction} (hv : srcs_nonneg code)
    {s : APEX_CPU} (h : Reachable code s) : ∀ r ∈ s.decode.srcs, 0 ≤ r := by
  induction h with
  | start =>
      intro r hr
      simp [APEX_cpu_start, APEX_cpu_init, CPU_Stage.zero, CPU_Stage.srcs, srcs_of] at hr
      omega
  | cycle s hs ih =>
      have hh : ∀ r ∈ (hazard_check s).1.decode.srcs, 0 ≤ r := by
        rw [hazard_check_decode_srcs]; exact ih
      rw [cycle_decode]
      split
      · split
        · apply load_fetch_latch_srcs_nonneg
          rw [hazard_check_code_memory, reachable_code_memory hs]; exact hv
        · unfold CPU_Stage.srcs at hh ⊢
          simpa using hh
      · exact hh

/-! ### Stalled ticks -/

theorem dep_match_of_dests {d l : CPU_Stage} (h : ∃ r ∈ d.srcs, r ∈ l.dests) (x x1 : Int) :
    dep_match d (captured l x x1).1 (captured l x x1).2 := by
  obtain ⟨r, hr, hl⟩ := h
  unfold CPU_Stage.dests dests_of at hl
  unfold dep_match captured
  refine ⟨r, hr, ?_⟩
  cases hi : l.has_insn <;> cases ho : l.opcode <;> simp_all

theorem not_dep_match_none {d : CPU_Stage} (hv : ∀ r ∈ d.srcs, 0 ≤ r) :
    ¬ dep_match d (-1) (-1) := by
  rintro ⟨r, hr, h⟩
  have := hv r hr
  omega

theorem not_dep_match_captured {d l : CPU_Stage} (hv : ∀ r ∈ d.srcs, 0 ≤ r)
    (h : ∀ r ∈ d.srcs, r ∉ l.dests) :
    ¬ dep_match d (captured l (-1) (-1)).1 (captured l (-1) (-1)).2 := by
  rintro ⟨r, hr, hm⟩
  have h0 := hv r hr
  have hn := h r hr
  unfold CPU_Stage.dests dests_of at hn
  unfold captured at hm
  cases hi : l.has_insn <;> cases ho : l.opcode <;> simp [hi, ho] at hm hn <;> omega

theorem taken_of_empty {s : APEX_CPU} (h : s.execute.has_insn = false) : taken s = false := by
  unfold taken; simp [h]

/-- A tick in which an instruction is in Decode at the hazard check and the
stall counter is not 0 afterwards: nothing advances, Execute is left empty and
all four pending destinations are reset. -/
theorem stalled_cycle {s : APEX_CPU} (hd : decode_checked s) (hna : ¬ advances s) :
    (APEX_cpu_cycle s).decode = s.decode ∧ (APEX_cpu_cycle s).pc = s.pc ∧
    (APEX_cpu_cycle s).execute.has_insn = false ∧
    decode_checked (APEX_cpu_cycle s) ∧
    (APEX_cpu_cycle s).memory.has_insn = s.execute.has_insn ∧
    pending_ex (APEX_cpu_cycle s) = (-1, -1) ∧
    (APEX_cpu_cycle s).mem_dest = -1 ∧ (APEX_cpu_cycle s).mem_dest1 = -1 ∧
    (APEX_cpu_cycle s).stall_count = (hazard_check s).1.stall_count := by
  have hnf : ¬ fetches s := fun h => hna h.1
  have hdec : (APEX_cpu_cycle s).decode = s.decode := by
    rw [cycle_decode, if_neg hna, hazard_check_decode]; simp [hd.2]
  have hex : (APEX_cpu_cycle s).execute.has_insn = false := by
    have := cycle_execute_has_insn s
    by_contra hc
    have hc' : (APEX_cpu_cycle s).execute.has_insn = true := by simpa using hc
    rw [this] at hc'; exact hna hc'.1
  refine ⟨hdec, ?_, hex, ?_, ?_, ?_, ?_, ?_, cycle_stall_count s⟩
  · rw [cycle_pc, if_neg hnf, hazard_check_pc]; simp [hd.2]
  · exact ⟨by rw [hdec]; exact hd.1, taken_of_empty hex⟩
  · rw [cycle_memory, hazard_check_memory_has_insn]
  · unfold pending_ex
    rw [captured_of_empty hex, cycle_ex_dest, cycle_ex_dest1, hazard_check_ex_dest,
      hazard_check_ex_dest1, if_pos hd, if_pos hd]
  · rw [cycle_mem_dest, hazard_check_mem_dest, if_pos hd]
  · rw [cycle_mem_dest1, hazard_check_mem_dest1, if_pos hd]

/-- A tick in which Decode advances: its instruction is in Execute afterwards. -/
theorem advancing_cycle {s : APEX_CPU} (hd : decode_checked s) (ha : advances s) :
    (APEX_cpu_cycle s).execute.has_insn = true ∧
    (APEX_cpu_cycle s).execute.insn = s.decode.insn ∧
    (APEX_cpu_cycle s).execute.pc = s.decode.pc := by
  refine ⟨?_, cycle_execute_insn s ha hd⟩
  rw [cycle_execute_has_insn]; exact ⟨ha, hd⟩

theorem cycle_memory_captured (s : APEX_CPU) (x x1 : Int) :
    captured (APEX_cpu_cycle s).memory x x1 = captured s.execute x x1 := by
  rw [cycle_memory]
  by_cases he : s.execute.has_insn = true
  · obtain ⟨ho, hd, h1, h2, _, _⟩ := hazard_check_memory_of_execute s he
    exact captured_congr _ _ (by rw [hazard_check_memory_has_insn]) ho hd h1 h2
  · have he' : s.execute.has_insn = false := by simpa using he
    rw [captured_of_empty he', captured_of_empty (by rw [hazard_check_memory_has_insn, he'])]

theorem has_insn_of_dests {l : CPU_Stage} {r : Int} (h : r ∈ l.dests) : l.has_insn = true := by
  unfold CPU_Stage.dests at h
  by_contra hc
  simp [hc] at h

theorem reachable_ticks (code : List APEX_Instruction) (n : Nat) :
    Reachable code (ticks n (APEX_cpu_start code)) := by
  induction n with
  | zero => exact Reachable.start
  | succ n ih =>
      unfold ticks; rw [Function.iterate_succ_apply']
      exact Reachable.cycle _ ih

/-- The three ticks of a distance-2 hazard, from any state in which the source
registers of the instruction in Decode are non-negative. -/
theorem stall_two_ticks (s : APEX_CPU) (hd : decode_checked s)
    (hv : ∀ r ∈ s.decode.srcs, 0 ≤ r) (hr : ∃ r ∈ s.decode.srcs, r ∈ s.execute.dests) :
    (hazard_check s).1.stall_count = 2 ∧ (hazard_check (ticks 1 s)).1.stall_count = 1 ∧
    (hazard_check (ticks 2 s)).1.stall_count = 0 ∧ stalls_for 2 s := by
  -- the tick of the hazard
  have hm : dep_match s.decode (pending_ex s).1 (pending_ex s).2 :=
    dep_match_of_dests hr _ _
  have h0 : (hazard_check s).1.stall_count = 2 := by
    rw [hazard_check_stall_count, if_pos hd, if_pos hm]
  have hna0 : ¬ advances s := by unfold advances; rw [h0]; decide
  obtain ⟨hdec1, hpc1, hex1, hd1, hmem1, hpe1, hm1, hm11, hst1⟩ := stalled_cycle hd hna0
  -- the next tick: the producer is now in Memory
  have hv1 : ∀ r ∈ (APEX_cpu_cycle s).decode.srcs, 0 ≤ r := by rw [hdec1]; exact hv
  have h1 : (hazard_check (APEX_cpu_cycle s)).1.stall_count = 1 := by
    rw [hazard_check_stall_count, if_pos hd1, hpe1, if_neg (not_dep_match_none hv1), hst1, h0]
    split <;> rfl
  have hna1 : ¬ advances (APEX_cpu_cycle s) := by unfold advances; rw [h1]; decide
  obtain ⟨hdec2, hpc2, hex2, hd2, hmem2, hpe2, hm2, hm21, hst2⟩ := stalled_cycle hd1 hna1
  -- the tick after: nothing is left in Execute or Memory
  have hv2 : ∀ r ∈ (APEX_cpu_cycle (APEX_cpu_cycle s)).decode.srcs, 0 ≤ r := by
    rw [hdec2]; exact hv1
  have hpm2 : pending_mem (APEX_cpu_cycle (APEX_cpu_cycle s)) = (-1, -1) := by
    unfold pending_mem
    rw [captured_of_empty (by rw [hmem2]; exact hex1), hm2, hm21]
  have h2 : (hazard_check (APEX_cpu_cycle (APEX_cpu_cycle s))).1.stall_count = 0 := by
    rw [hazard_check_stall_count, if_pos hd2, hpe2, hpm2, if_neg (not_dep_match_none hv2),
      if_neg (not_dep_match_none hv2), hst2, h1]
    rfl
  have ha2 : advances (APEX_cpu_cycle (APEX_cpu_cycle s)) := h2
  obtain ⟨he3, ho3, hp3⟩ := advancing_cycle hd2 ha2
  refine ⟨h0, h1, h2, ?_, ha2, he3, ?_, ?_⟩
  · intro i hi
    interval_cases i
    · exact ⟨hna0, hpc1, hdec1, hex1⟩
    · exact ⟨hna1, hpc2.trans hpc1, hdec2.trans hdec1, hex2⟩
  · exact ho3.trans (by rw [hdec2, hdec1])
  · exact hp3.trans (by rw [hdec2, hdec1])

/-! ### Taken control transfers -/

/-- The two ticks around a taken branch or jump, from a state that satisfies
the run invariants. -/
theorem transfer_cycles {s : APEX_CPU} (hi : Inv s) (ht : taken s = true) :
    (advances s ∧ ¬ fetches s ∧
      (APEX_cpu_cycle s).decode.has_insn = false ∧
      (APEX_cpu_cycle s).execute.has_insn = false ∧
      (APEX_cpu_cycle s).pc = transfer_target s ∧
      (APEX_cpu_cycle s).fetch_from_next_cycle = false ∧
      (APEX_cpu_cycle s).fetch.has_insn = true) ∧
    (advances (APEX_cpu_cycle s) ∧ fetches (APEX_cpu_cycle s) ∧
      (APEX_cpu_cycle (APEX_cpu_cycle s)).decode.has_insn = true ∧
      (APEX_cpu_cycle (APEX_cpu_cycle s)).decode.pc = transfer_target s ∧
      (APEX_cpu_cycle (APEX_cpu_cycle s)).decode.insn =
        code_memory_at s.code_memory (get_code_memory_index_from_pc (transfer_target s)) ∧
      (APEX_cpu_cycle (APEX_cpu_cycle s)).pc = wrap32 (transfer_target s + 4) ∧
      (APEX_cpu_cycle (APEX_cpu_cycle s)).execute.has_insn = false) := by
  have ha := advances_of_taken hi ht
  have hndc : ¬ decode_checked s := by unfold decode_checked; simp [ht]
  have hff : (hazard_check s).1.fetch_from_next_cycle = true := by
    rw [hazard_check_fetch_from_next_cycle, ht]; rfl
  have hnf : ¬ fetches s := by
    unfold fetches; rw [hff]; simp
  have hfh : (hazard_check s).1.fetch.has_insn = true := by
    rw [hazard_check_fetch]; simp [ht]
  have hdec : (APEX_cpu_cycle s).decode.has_insn = false := by
    have := cycle_decode_has_insn s
    by_contra hc
    have hc' : (APEX_cpu_cycle s).decode.has_insn = true := by simpa using hc
    rw [this] at hc'
    rcases hc' with h | h
    · exact hnf h
    · exact h.1 ha
  have hex : (APEX_cpu_cycle s).execute.has_insn = false := by
    have := cycle_execute_has_insn s
    by_contra hc
    have hc' : (APEX_cpu_cycle s).execute.has_insn = true := by simpa using hc
    rw [this] at hc'; exact hndc hc'.2
  have hpc : (APEX_cpu_cycle s).pc = transfer_target s := by
    rw [cycle_pc, if_neg hnf, hazard_check_pc, ht]; rfl
  have hic := inv_cycle hi
  have hfe : (APEX_cpu_cycle s).fetch.has_insn = true := by
    rw [cycle_fetch_has_insn, if_neg hnf]; exact hfh
  -- the following tick
  have hst : (APEX_cpu_cycle s).stall_count = 0 := by rw [cycle_stall_count]; exact ha
  have htc : taken (APEX_cpu_cycle s) = false := taken_of_empty hex
  have hndc1 : ¬ decode_checked (APEX_cpu_cycle s) := by
    unfold decode_checked; simp [hdec]
  have ha1 : advances (APEX_cpu_cycle s) := by
    unfold advances
    rw [hazard_check_stall_count, if_neg hndc1, hst]; exact decay_stall_zero
  have hfh1 : (hazard_check (APEX_cpu_cycle s)).1.fetch.has_insn = true := by
    rw [hazard_check_fetch, htc]; simpa using hfe
  have hff1 : (hazard_check (APEX_cpu_cycle s)).1.fetch_from_next_cycle = false := by
    rw [hazard_check_fetch_from_next_cycle, htc, hic.no_skip]; rfl
  have hf1 : fetches (APEX_cpu_cycle s) := ⟨ha1, hfh1, hff1⟩
  have hpc1 : (hazard_check (APEX_cpu_cycle s)).1.pc = transfer_target s := by
    rw [hazard_check_pc, htc]; simpa using hpc
  have hd2 : (APEX_cpu_cycle (APEX_cpu_cycle s)).decode =
      load_fetch_latch (hazard_check (APEX_cpu_cycle s)).1 := by
    rw [cycle_decode, if_pos ha1, if_pos ⟨hfh1, hff1⟩]
  refine ⟨⟨ha, hnf, hdec, hex, hpc, hic.no_skip, hfe⟩, ha1, hf1, ?_, ?_, ?_, ?_, ?_⟩
  · rw [hd2, load_fetch_latch_has_insn]; exact hfh1
  · rw [hd2, load_fetch_latch_pc]; exact hpc1
  · rw [hd2, load_fetch_latch_insn, hpc1, hazard_check_code_memory, cycle_code_memory]
  · rw [cycle_pc, if_pos hf1, hpc1]
  · have := cycle_execute_has_insn (APEX_cpu_cycle s)
    by_contra hc
    have hc' : (APEX_cpu_cycle (APEX_cpu_cycle s)).execute.has_insn = true := by simpa using hc
    rw [this] at hc'; exact hndc1 hc'.2

/-! ### The bookkeeping follows the latches -/

theorem ticks_succ (n : Nat) (s : APEX_CPU) : ticks (n + 1) s = APEX_cpu_cycle (ticks n s) := by
  unfold ticks; rw [Function.iterate_succ_apply']

theorem cycle_decode_of_fetch {s : APEX_CPU} (hf : fetches s) :
    (APEX_cpu_cycle s).decode = load_fetch_latch (hazard_check s).1 := by
  rw [cycle_decode, if_pos hf.1, if_pos hf.2]

theorem cycle_decode_of_stall {s : APEX_CPU} (hna : ¬ advances s) (hd : decode_checked s) :
    (APEX_cpu_cycle s).decode = s.decode := by
  rw [cycle_decode, if_neg hna, hazard_check_decode]; simp [hd.2]

theorem Fetched.congr {code : List APEX_Instruction} {f : Nat} {l l' : CPU_Stage}
    (h : Fetched code f l) (hi : l'.insn = l.insn) (hp : l'.pc = l.pc) : Fetched code f l' :=
  ⟨h.1, h.2.1, hi.trans h.2.2.1, hp.trans h.2.2.2⟩

theorem tracks_start (code : List APEX_Instruction) :
    Tracks code 0 (APEX_cpu_start code) History.start where
  tick := rfl
  d := fun h => by simp [APEX_cpu_start, APEX_cpu_init, CPU_Stage.zero] at h
  e := fun h => by simp [APEX_cpu_start, APEX_cpu_init, CPU_Stage.zero] at h
  m := fun h => by simp [APEX_cpu_start, APEX_cpu_init, CPU_Stage.zero] at h
  w := fun h => by simp [APEX_cpu_start, APEX_cpu_init, CPU_Stage.zero] at h
  wm := fun h => by simp [APEX_cpu_start, APEX_cpu_init, CPU_Stage.zero] at h
  we := fun h => by simp [APEX_cpu_start, APEX_cpu_init, CPU_Stage.zero] at h
  wd := fun h => by simp [APEX_cpu_start, APEX_cpu_init, CPU_Stage.zero] at h
  me := fun h => by simp [APEX_cpu_start, APEX_cpu_init, CPU_Stage.zero] at h
  md := fun h => by simp [APEX_cpu_start, APEX_cpu_init, CPU_Stage.zero] at h
  ed := fun h => by simp [APEX_cpu_start, APEX_cpu_init, CPU_Stage.zero] at h
  past := fun p hp => by simp [History.start] at hp
  below := fun p hp => by simp [History.start] at hp

/-- Occupancy of the four latches after a cycle, in terms of the state before. -/
theorem cycle_occupancy (s : APEX_CPU) :
    ((APEX_cpu_cycle s).writeback.has_insn = s.memory.has_insn) ∧
    ((APEX_cpu_cycle s).memory.has_insn = s.execute.has_insn) ∧
    ((APEX_cpu_cycle s).execute.has_insn = true ↔ advances s ∧ decode_checked s) ∧
    ((APEX_cpu_cycle s).decode.has_insn = true ↔
      fetches s ∨ (¬ advances s ∧ decode_checked s)) := by
  refine ⟨?_, ?_, ?_, ?_⟩
  · rw [cycle_writeback, hazard_check_writeback_has_insn]
  · rw [cycle_memory, hazard_check_memory_has_insn]
  · rw [cycle_execute_has_insn]
  · rw [cycle_decode_has_insn]

/-- An entry of the log after a cycle is the retirement of that tick or an
older entry. -/
theorem mem_retired_cycle {g : History} {s : APEX_CPU} {p : Nat × Nat}
    (hp : p ∈ (g.cycle s).retired) :
    (retires s = true ∧ p = (g.tick, g.writeback)) ∨ p ∈ g.retired := by
  unfold History.cycle at hp
  dsimp only at hp
  split at hp
  · rename_i hr
    rcases List.mem_cons.mp hp with h | h
    · exact Or.inl ⟨hr, h⟩
    · exact Or.inr h
  · exact Or.inr hp

theorem tracks_cycle {code : List APEX_Instruction} {n : Nat} {g : History}
    (hs : ticks n (APEX_cpu_start code) = s) (ht : Tracks code n s g) :
    Tracks code (n + 1) (APEX_cpu_cycle s) (g.cycle s) := by
  obtain ⟨ow, om, oe, od⟩ := cycle_occupancy s
  have htick := ht.tick
  -- the tag of each latch after the cycle, when it is occupied
  have tw : (APEX_cpu_cycle s).writeback.has_insn = true →
      s.memory.has_insn = true ∧ (g.cycle s).writeback = g.memory := by
    intro h; rw [ow] at h; exact ⟨h, by simp [History.cycle, h]⟩
  have tm : (APEX_cpu_cycle s).memory.has_insn = true →
      s.execute.has_insn = true ∧ (g.cycle s).memory = g.execute := by
    intro h; rw [om] at h; exact ⟨h, by simp [History.cycle, h]⟩
  have te : (APEX_cpu_cycle s).execute.has_insn = true →
      (advances s ∧ decode_checked s) ∧ (g.cycle s).execute = g.decode := by
    intro h; rw [oe] at h; exact ⟨h, by simp [History.cycle, h]⟩
  have td : (APEX_cpu_cycle s).decode.has_insn = true →
      (fetches s ∧ (g.cycle s).decode = n + 1) ∨
      ((¬ advances s ∧ decode_checked s) ∧ (g.cycle s).decode = g.decode) := by
    intro h; rw [od] at h
    by_cases hf : fetches s
    · left; exact ⟨hf, by simp [History.cycle, hf, htick]⟩
    · right
      rcases h with h | h
      · exact absurd h hf
      · exact ⟨h, by simp [History.cycle, hf]⟩
  have fnew : fetches s → Fetched code (n + 1) (APEX_cpu_cycle s).decode := by
    intro hf
    refine ⟨by omega, ?_, ?_, ?_⟩
    · simpa [hs] using hf
    · rw [ticks_succ, hs]
    · rw [ticks_succ, hs]
  refine
    { tick := by simp [History.cycle, htick]
      d := ?_, e := ?_, m := ?_, w := ?_, wm := ?_, we := ?_, wd := ?_, me := ?_, md := ?_,
      ed := ?_, past := ?_, below := ?_ }
  · intro h
    rcases td h with ⟨hf, hg⟩ | ⟨⟨hna, hdc⟩, hg⟩
    · rw [hg]; exact ⟨fnew hf, le_refl _⟩
    · rw [hg]
      obtain ⟨hF, hle⟩ := ht.d hdc.1
      exact ⟨hF.congr (by rw [cycle_decode_of_stall hna hdc])
        (by rw [cycle_decode_of_stall hna hdc]), by omega⟩
  · intro h
    obtain ⟨⟨ha, hdc⟩, hg⟩ := te h
    rw [hg]
    obtain ⟨hF, hle⟩ := ht.d hdc.1
    exact ⟨hF.congr (cycle_execute_insn s ha hdc).1 (cycle_execute_insn s ha hdc).2, by omega⟩
  · intro h
    obtain ⟨he, hg⟩ := tm h
    rw [hg]
    obtain ⟨hF, hle⟩ := ht.e he
    exact ⟨hF.congr (cycle_memory_insn s he).1 (cycle_memory_insn s he).2, by omega⟩
  · intro h
    obtain ⟨hm, hg⟩ := tw h
    rw [hg]
    obtain ⟨hF, hle⟩ := ht.m hm
    exact ⟨hF.congr (cycle_writeback_insn s hm).1 (cycle_writeback_insn s hm).2, by omega⟩
  · intro h1 h2
    obtain ⟨hm, hg1⟩ := tw h1
    obtain ⟨he, hg2⟩ := tm h2
    rw [hg1, hg2]; exact ht.me hm he
  · intro h1 h2
    obtain ⟨hm, hg1⟩ := tw h1
    obtain ⟨⟨_, hdc⟩, hg2⟩ := te h2
    rw [hg1, hg2]; exact ht.md hm hdc.1
  · intro h1 h2
    obtain ⟨hm, hg1⟩ := tw h1
    rw [hg1]
    rcases td h2 with ⟨_, hg⟩ | ⟨⟨_, hdc⟩, hg⟩
    · rw [hg]; have := (ht.m hm).2; omega
    · rw [hg]; exact ht.md hm hdc.1
  · intro h1 h2
    obtain ⟨he, hg1⟩ := tm h1
    obtain ⟨⟨_, hdc⟩, hg2⟩ := te h2
    rw [hg1, hg2]; exact ht.ed he hdc.1
  · intro h1 h2
    obtain ⟨he, hg1⟩ := tm h1
    rw [hg1]
    rcases td h2 with ⟨_, hg⟩ | ⟨⟨_, hdc⟩, hg⟩
    · rw [hg]; have := (ht.e he).2; omega
    · rw [hg]; exact ht.ed he hdc.1
  · intro h1 h2
    obtain ⟨⟨ha, hdc⟩, hg1⟩ := te h1
    rw [hg1]
    rcases td h2 with ⟨_, hg⟩ | ⟨⟨hna, _⟩, hg⟩
    · rw [hg]; have := (ht.d hdc.1).2; omega
    · exact absurd ha hna
  · intro p hp
    rcases mem_retired_cycle hp with ⟨hr, rfl⟩ | hold
    · have := (ht.w hr).2
      show g.tick ≤ n + 1 ∧ g.writeback < g.tick
      omega
    · have := ht.past p hold
      omega
  · intro p hp
    rcases mem_retired_cycle hp with ⟨hr, rfl⟩ | hold
    · have hr' : s.writeback.has_insn = true := hr
      refine ⟨?_, ?_, ?_, ?_⟩
      · intro h; obtain ⟨hm, hg⟩ := tw h; rw [hg]; exact ht.wm hr' hm
      · intro h; obtain ⟨he, hg⟩ := tm h; rw [hg]; exact ht.we hr' he
      · intro h; obtain ⟨⟨_, hdc⟩, hg⟩ := te h; rw [hg]; exact ht.wd hr' hdc.1
      · intro h
        rcases td h with ⟨_, hg⟩ | ⟨⟨_, hdc⟩, hg⟩
        · rw [hg]; have := (ht.w hr').2; show g.writeback < n + 1; omega
        · rw [hg]; exact ht.wd hr' hdc.1
    · obtain ⟨bw, bm, be, bd⟩ := ht.below p hold
      refine ⟨?_, ?_, ?_, ?_⟩
      · intro h; obtain ⟨hm, hg⟩ := tw h; rw [hg]; exact bm hm
      · intro h; obtain ⟨he, hg⟩ := tm h; rw [hg]; exact be he
      · intro h; obtain ⟨⟨_, hdc⟩, hg⟩ := te h; rw [hg]; exact bd hdc.1
      · intro h
        rcases td h with ⟨_, hg⟩ | ⟨⟨_, hdc⟩, hg⟩
        · rw [hg]; have := ht.past p hold; omega
        · rw [hg]; exact bd hdc.1

theorem tracks_history (code : List APEX_Instruction) (n : Nat) :
    Tracks code n (ticks n (APEX_cpu_start code)) (history code n) := by
  induction n with
  | zero => exact tracks_start code
  | succ n ih =>
      rw [ticks_succ]
      exact tracks_cycle rfl ih

theorem logok_history (code : List APEX_Instruction) (n : Nat) :
    LogOK code n (history code n).retired := by
  induction n with
  | zero =>
      exact
        { valid := fun p hp => by simp [history, History.start] at hp
          complete := fun r h1 h2 => by omega
          sorted := by simp [history, History.start] }
  | succ n ih =>
      have ht := tracks_history code n
      have hlog : (history code (n + 1)).retired =
          if retires (ticks n (APEX_cpu_start code)) then
            (n + 1, (history code n).writeback) :: (history code n).retired
          else (history code n).retired := by
        show ((history code n).cycle _).retired = _
        simp [History.cycle, ht.tick]
      by_cases hr : retires (ticks n (APEX_cpu_start code)) = true
      · rw [hlog, if_pos hr]
        have hw := ht.w hr
        refine { valid := ?_, complete := ?_, sorted := ?_ }
        · intro p hp
          rcases List.mem_cons.mp hp with rfl | hp
          · exact ⟨by omega, le_refl _, by show _ < n + 1; omega, hr, hw.1⟩
          · obtain ⟨h1, h2, h3⟩ := ih.valid p hp
            exact ⟨h1, by omega, h3⟩
        · intro r h1 h2 h3
          by_cases hrn : r = n + 1
          · exact ⟨_, by rw [hrn]; exact List.mem_cons_self _ _⟩
          · obtain ⟨f, hf⟩ := ih.complete r h1 (by omega) h3
            exact ⟨f, List.mem_cons_of_mem _ hf⟩
        · refine List.Pairwise.cons ?_ ih.sorted
          intro p hp
          exact ⟨by have := (ih.valid p hp).2.1; show p.1 < n + 1; omega,
            (ht.below p hp).1 hr⟩
      · rw [hlog, if_neg hr]
        refine { valid := ?_, complete := ?_, sorted := ih.sorted }
        · intro p hp
          obtain ⟨h1, h2, h3⟩ := ih.valid p hp
          exact ⟨h1, by omega, h3⟩
        · intro r h1 h2 h3
          by_cases hrn : r = n + 1
          · subst hrn; exact absurd h3 hr
          · exact ih.complete r h1 (by omega) h3

/-- Along a log in which ticks of retirement and of fetch decrease together,
an earlier retirement is of an earlier fetch, and a tick has one entry. -/
theorem order_of_sorted {log : List (Nat × Nat)}
    (h : log.Pairwise fun later earlier => earlier.1 < later.1 ∧ earlier.2 < later.2) :
    (∀ a ∈ log, ∀ b ∈ log, a.1 < b.1 → a.2 < b.2) ∧
    (∀ a ∈ log, ∀ b ∈ log, a.1 = b.1 → a = b) := by
  induction log with
  | nil => simp
  | cons x l ih =>
      obtain ⟨hx, hl⟩ := List.pairwise_cons.mp h
      obtain ⟨ih1, ih2⟩ := ih hl
      constructor
      · intro a ha b hb hab
        rcases List.mem_cons.mp ha with ha1 | ha1
        · rcases List.mem_cons.mp hb with hb1 | hb1
          · rw [ha1, hb1] at hab; omega
          · have := hx b hb1; rw [ha1] at hab; omega
        · rcases List.mem_cons.mp hb with hb1 | hb1
          · rw [hb1]; exact (hx a ha1).2
          · exact ih1 a ha1 b hb1 hab
      · intro a ha b hb hab
        rcases List.mem_cons.mp ha with ha1 | ha1
        · rcases List.mem_cons.mp hb with hb1 | hb1
          · rw [ha1, hb1]
          · have := hx b hb1; rw [ha1] at hab; omega
        · rcases List.mem_cons.mp hb with hb1 | hb1
          · have := hx a ha1; rw [hb1] at hab; omega
          · exact ih2 a ha1 b hb1 hab

/-! ## Scenarios -/

set_option maxRecDepth 100000

/-- C1 (scenario 1): run from the initial state with code memory
`MOVC R1,#10 ; ADD R2,R1,R1 ; HALT`, the loop of `APEX_cpu_run` stops because
Writeback signals HALT, in tick 9, and the final state has `regs[2] = 20`,
`zero_flag = FALSE`, `positive_flag = TRUE` and `insn_completed = 3`. -/
theorem scenario1_final :
    ∃ s, APEX_cpu_run 9 (APEX_cpu_init scenario1) none = some s ∧
      (APEX_cpu_tick (ticks 8 (APEX_cpu_start scenario1))).2 = true ∧
      s.clock = 9 ∧ s.regs 2 = 20 ∧ s.zero_flag = false ∧ s.positive_flag = true ∧
      s.insn_completed = 3 :=
  ⟨_, rfl, by decide, by decide, by decide, by decide, by decide, by decide⟩

/-- C2 (scenario 2): with code memory `LOAD R1,R2,#0 ; ADD R3,R1,R1 ; HALT` and
the data memory cell at address `regs[2]` holding 7, the ADD enters Decode in
tick 2, is held there in ticks 3 and 4 (the hazard check leaves `stall_count`
at 2, then 1; `pc` and the Decode latch do not change and nothing enters
Execute), advances in tick 5 reading `R1 = 7`, and when HALT retires (tick 9)
`regs[3] = 14`. -/
theorem scenario2_stall_and_result :
    ((ticks 2 scenario2_start).decode.has_insn = true ∧
      (ticks 2 scenario2_start).decode.opcode = Opcode.ADD) ∧
    ((hazard_check (ticks 2 scenario2_start)).1.stall_count = 2 ∧
      (ticks 3 scenario2_start).pc = (ticks 2 scenario2_start).pc ∧
      (ticks 3 scenario2_start).decode = (ticks 2 scenario2_start).decode ∧
      (ticks 3 scenario2_start).execute.has_insn = false) ∧
    ((hazard_check (ticks 3 scenario2_start)).1.stall_count = 1 ∧
      (ticks 4 scenario2_start).pc = (ticks 2 scenario2_start).pc ∧
      (ticks 4 scenario2_start).decode = (ticks 2 scenario2_start).decode ∧
      (ticks 4 scenario2_start).execute.has_insn = false) ∧
    ((hazard_check (ticks 4 scenario2_start)).1.stall_count = 0 ∧
      (ticks 5 scenario2_start).execute.has_insn = true ∧
      (ticks 5 scenario2_start).execute.opcode = Opcode.ADD ∧
      (ticks 5 scenario2_start).execute.rs1_value = 7 ∧
      (ticks 5 scenario2_start).execute.rs2_value = 7 ∧
      (ticks 5 scenario2_start).pc = (ticks 2 scenario2_start).pc + 4) ∧
    ∃ f, APEX_cpu_run 9 scenario2_init none = some f ∧ f.clock = 9 ∧ f.regs 3 = 14 :=
  ⟨by decide, by decide, by decide, by decide, ⟨_, rfl, by decide, by decide⟩⟩

/-- C3 (scenario 3): with code memory
`SUB R1,R1,R1 ; BZ #8 ; MOVC R2,#99 ; MOVC R3,#1 ; HALT`, tick 4 finds the BZ in
Execute with the zero flag set and `MOVC R2,#99` in Decode; the BZ is taken
(`pc` becomes 4012), the Decode latch is emptied and nothing enters Execute.
`regs[2]` is 0 at the start of every tick, and when HALT retires (tick 10)
`regs[2] = 0`, `regs[3] = 1` and four instructions have retired. -/
theorem scenario3_branch_taken :
    ((ticks 3 (APEX_cpu_start scenario3)).execute.has_insn = true ∧
      (ticks 3 (APEX_cpu_start scenario3)).execute.opcode = Opcode.BZ ∧
      (ticks 3 (APEX_cpu_start scenario3)).zero_flag = true ∧
      taken (ticks 3 (APEX_cpu_start scenario3)) = true ∧
      (ticks 3 (APEX_cpu_start scenario3)).decode.has_insn = true ∧
      (ticks 3 (APEX_cpu_start scenario3)).decode.opcode = Opcode.MOVC ∧
      (ticks 3 (APEX_cpu_start scenario3)).decode.rd = 2) ∧
    ((ticks 4 (APEX_cpu_start scenario3)).pc = 4012 ∧
      (ticks 4 (APEX_cpu_start scenario3)).decode.has_insn = false ∧
      (ticks 4 (APEX_cpu_start scenario3)).execute.has_insn = false) ∧
    (∀ n < 10, (ticks n (APEX_cpu_start scenario3)).regs 2 = 0) ∧
    ∃ f, APEX_cpu_run 10 (APEX_cpu_init scenario3) none = some f ∧ f.clock = 10 ∧
      f.regs 2 = 0 ∧ f.regs 3 = 1 ∧ f.insn_completed = 4 :=
  ⟨by decide, by decide, by decide, ⟨_, rfl, by decide, by decide, by decide, by decide⟩⟩

/-- C4 (throughput), evaluated on `ADD R1,R0,R0 ; HALT`: the program is
hazard-free and branch-free, but in tick 2 the hazard check finds the
zero-initialised `mem_dest` / `ex_dest` equal to the source register 0 and sets
`stall_count` to 2 although Execute and Memory are empty.  Nothing retires in
tick 5 or 6; the first instruction retires in tick 7 and HALT in tick 8, not in
ticks 5 and 6. -/
theorem throughput_reads_r0 :
    (hazard_free reads_r0 = true ∧ branch_free reads_r0 = true) ∧
    ((ticks 1 (APEX_cpu_start reads_r0)).execute.has_insn = false ∧
      (ticks 1 (APEX_cpu_start reads_r0)).memory.has_insn = false ∧
      (ticks 1 (APEX_cpu_start reads_r0)).ex_dest = 0 ∧
      (ticks 1 (APEX_cpu_start reads_r0)).mem_dest = 0 ∧
      (hazard_check (ticks 1 (APEX_cpu_start reads_r0))).1.stall_count = 2) ∧
    (retires (ticks 4 (APEX_cpu_start reads_r0)) = false ∧
      retires (ticks 5 (APEX_cpu_start reads_r0)) = false) ∧
    (retires (ticks 6 (APEX_cpu_start reads_r0)) = true ∧
      (ticks 6 (APEX_cpu_start reads_r0)).writeback.opcode = Opcode.ADD ∧
      (ticks 6 (APEX_cpu_start reads_r0)).writeback.pc = 4000) ∧
    ((APEX_cpu_tick (ticks 7 (APEX_cpu_start reads_r0))).2 = true ∧
      ∃ f, APEX_cpu_run 8 (APEX_cpu_init reads_r0) none = some f ∧ f.clock = 8) :=
  ⟨by decide, by decide, by decide, by decide, by decide, ⟨_, rfl, by decide⟩⟩

/-! ## Data hazards -/

/-- C5 (distance-2 hazard): for every program whose source register indices
are valid (non-negative) and every state reachable from the initial state, if
at the hazard check of the tick the Decode latch holds an instruction one of
whose source registers is a destination of the instruction departing Execute,
then the hazard check leaves `stall_count` at 2 in this tick and at 1 in the
next one, and in both ticks Decode and Fetch do not advance; in the tick after
that `stall_count` is 0 and Decode and Fetch advance.  The stall lasts exactly
2 ticks. -/
theorem distance2_stall (code : List APEX_Instruction) (hv : srcs_nonneg code)
    (s : APEX_CPU) (hs : Reachable code s) (hd : decode_checked s)
    (hr : ∃ r ∈ s.decode.srcs, r ∈ s.execute.dests) :
    (hazard_check s).1.stall_count = 2 ∧ (hazard_check (ticks 1 s)).1.stall_count = 1 ∧
    (hazard_check (ticks 2 s)).1.stall_count = 0 ∧ stalls_for 2 s :=
  stall_two_ticks s hd (decode_srcs_nonneg hv hs) hr

/-- C5, witness: scenario 1 at the start of tick 3, with `ADD R2,R1,R1` in
Decode and `MOVC R1,#10` in Execute. -/
theorem distance2_stall_witness :
    srcs_nonneg scenario1 ∧
    Reachable scenario1 (ticks 2 (APEX_cpu_start scenario1)) ∧
    decode_checked (ticks 2 (APEX_cpu_start scenario1)) ∧
    (∃ r ∈ (ticks 2 (APEX_cpu_start scenario1)).decode.srcs,
      r ∈ (ticks 2 (APEX_cpu_start scenario1)).execute.dests) ∧
    ((hazard_check (ticks 2 (APEX_cpu_start scenario1))).1.stall_count = 2 ∧
      (hazard_check (ticks 1 (ticks 2 (APEX_cpu_start scenario1)))).1.stall_count = 1 ∧
      (hazard_check (ticks 2 (ticks 2 (APEX_cpu_start scenario1)))).1.stall_count = 0 ∧
      stalls_for 2 (ticks 2 (APEX_cpu_start scenario1))) :=
  ⟨by decide, reachable_ticks scenario1 2, by decide, by decide,
    distance2_stall scenario1 (by decide) (ticks 2 (APEX_cpu_start scenario1))
      (reachable_ticks scenario1 2) (by decide) (by decide)⟩

/-- C6 (distance-1 hazard): for every program whose source register indices
are valid (non-negative) and every state reachable from the initial state, if
at the hazard check of the tick the Decode latch holds an instruction one of
whose source registers is a destination of the instruction departing Memory,
and none of whose source registers is a destination of the instruction
departing Execute (if any), then the hazard check leaves `stall_count` at 1 and
Decode and Fetch do not advance in this tick; in the next tick `stall_count`
is 0 and Decode and Fetch advance.  The stall lasts exactly 1 tick. -/
theorem distance1_stall (code : List APEX_Instruction) (hv : srcs_nonneg code)
    (s : APEX_CPU) (hs : Reachable code s) (hd : decode_checked s)
    (hm : ∃ r ∈ s.decode.srcs, r ∈ s.memory.dests)
    (he : ∀ r ∈ s.decode.srcs, r ∉ s.execute.dests) :
    (hazard_check s).1.stall_count = 1 ∧ (hazard_check (ticks 1 s)).1.stall_count = 0 ∧
    stalls_for 1 s := by
  have hi := inv_of_reachable hs
  have hv := decode_srcs_nonneg hv hs
  -- the pending Execute destinations are fresh or "none"
  have hmem : s.memory.has_insn = true := by
    obtain ⟨r, _, h⟩ := hm; exact has_insn_of_dests h
  have hold : s.ex_dest = -1 ∧ s.ex_dest1 = -1 := by
    rcases hi.ex_fresh with h | h
    · exact h
    · rw [h.2] at hmem; exact absurd hmem Bool.false_ne_true
  have hpe : ¬ dep_match s.decode (pending_ex s).1 (pending_ex s).2 := by
    unfold pending_ex; rw [hold.1, hold.2]; exact not_dep_match_captured hv he
  have hpm : dep_match s.decode (pending_mem s).1 (pending_mem s).2 :=
    dep_match_of_dests hm _ _
  have h0 : (hazard_check s).1.stall_count = 1 := by
    rw [hazard_check_stall_count, if_pos hd, if_neg hpe, if_pos hpm]
  have hna0 : ¬ advances s := by unfold advances; rw [h0]; decide
  obtain ⟨hdec1, hpc1, hex1, hd1, _, hpe1, hm1, hm11, hst1⟩ := stalled_cycle hd hna0
  -- the next tick: what was in Execute is in Memory
  have hv1 : ∀ r ∈ (APEX_cpu_cycle s).decode.srcs, 0 ≤ r := by rw [hdec1]; exact hv
  have hpm1 : ¬ dep_match (APEX_cpu_cycle s).decode (pending_mem (APEX_cpu_cycle s)).1
      (pending_mem (APEX_cpu_cycle s)).2 := by
    unfold pending_mem
    rw [hm1, hm11, cycle_memory_captured, hdec1]
    exact not_dep_match_captured hv he
  have h1 : (hazard_check (APEX_cpu_cycle s)).1.stall_count = 0 := by
    rw [hazard_check_stall_count, if_pos hd1, hpe1, if_neg (not_dep_match_none hv1),
      if_neg hpm1, hst1, h0]
    rfl
  have ha1 : advances (APEX_cpu_cycle s) := h1
  obtain ⟨he2, ho2, hp2⟩ := advancing_cycle hd1 ha1
  refine ⟨h0, h1, ?_, ha1, he2, ?_, ?_⟩
  · intro i hi
    interval_cases i
    exact ⟨hna0, hpc1, hdec1, hex1⟩
  · exact ho2.trans (by rw [hdec1])
  · exact hp2.trans (by rw [hdec1])

/-- C6, witness: `MOVC R1,#1 ; NOP ; ADD R2,R1,R1 ; HALT` at the start of
tick 4, with the ADD in Decode, the NOP in Execute and the MOVC in Memory. -/
theorem distance1_stall_witness :
    srcs_nonneg distance1_program ∧
    Reachable distance1_program (ticks 3 (APEX_cpu_start distance1_program)) ∧
    decode_checked (ticks 3 (APEX_cpu_start distance1_program)) ∧
    (∃ r ∈ (ticks 3 (APEX_cpu_start distance1_program)).decode.srcs,
      r ∈ (ticks 3 (APEX_cpu_start distance1_program)).memory.dests) ∧
    (∀ r ∈ (ticks 3 (APEX_cpu_start distance1_program)).decode.srcs,
      r ∉ (ticks 3 (APEX_cpu_start distance1_program)).execute.dests) ∧
    ((hazard_check (ticks 3 (APEX_cpu_start distance1_program))).1.stall_count = 1 ∧
      (hazard_check (ticks 1 (ticks 3 (APEX_cpu_start distance1_program)))).1.stall_count = 0 ∧
      stalls_for 1 (ticks 3 (APEX_cpu_start distance1_program))) :=
  ⟨by decide, reachable_ticks distance1_program 3, by decide, by decide, by decide,
    distance1_stall distance1_program (by decide) (ticks 3 (APEX_cpu_start distance1_program))
      (reachable_ticks distance1_program 3) (by decide) (by decide) (by decide)⟩

/-- C10 (no missed data hazard): in every state (in particular every
reachable one), if in the tick the Decode latch holds an instruction at the
hazard check and `stall_count` is 0 afterwards, so that `APEX_decode` reads its
source registers, then no source register of that instruction is among the
destinations of the instruction departing Execute or of the instruction
departing Memory in that tick (`rd` for arithmetic/MOVC/LOAD/ADDL/SUBL, `rd` and
`rs1` for LDI, `rs2` for STI). -/
theorem no_missed_hazard (s : APEX_CPU) (hd : decode_checked s) (ha : advances s) :
    ∀ r ∈ s.decode.srcs, r ∉ s.execute.dests ∧ r ∉ s.memory.dests := by
  intro r hr
  unfold advances at ha
  rw [hazard_check_stall_count, if_pos hd] at ha
  constructor
  · intro hx
    have : dep_match s.decode (pending_ex s).1 (pending_ex s).2 :=
      dep_match_of_dests ⟨r, hr, hx⟩ _ _
    rw [if_pos this] at ha
    exact absurd ha (by decide)
  · intro hx
    have : dep_match s.decode (pending_mem s).1 (pending_mem s).2 :=
      dep_match_of_dests ⟨r, hr, hx⟩ _ _
    rw [if_pos this] at ha
    split at ha <;> exact absurd ha (by decide)

/-- C10, witness: scenario 1 at the start of tick 5, when `ADD R2,R1,R1`
leaves Decode after its stall. -/
theorem no_missed_hazard_witness :
    decode_checked (ticks 4 (APEX_cpu_start scenario1)) ∧
    advances (ticks 4 (APEX_cpu_start scenario1)) ∧
    ((ticks 4 (APEX_cpu_start scenario1)).decode.srcs = [1, 1] ∧
      ∀ r ∈ (ticks 4 (APEX_cpu_start scenario1)).decode.srcs,
        r ∉ (ticks 4 (APEX_cpu_start scenario1)).execute.dests ∧
        r ∉ (ticks 4 (APEX_cpu_start scenario1)).memory.dests) :=
  ⟨by decide, by decide, by decide,
    no_missed_hazard (ticks 4 (APEX_cpu_start scenario1)) (by decide) (by decide)⟩

/-! ## Control transfers -/

/-- C7 (control transfer): in every reachable state in which the Execute latch
holds a JUMP, or a BZ/BNZ/BP/BNP whose flag condition holds, the tick that
executes it leaves the Decode latch empty and nothing in Execute (the
instruction that was in Decode is discarded: it is in no latch any more, so it
never executes and never writes registers, flags or memory), while the
transfer instruction itself moves on to Memory and the instruction that was in
Memory to Writeback; `pc` is the target and `APEX_fetch` fetches nothing in
that tick; in the next tick `APEX_fetch` fetches, and the instruction that
enters Decode is the one at the target address, `pc` advancing to target + 4. -/
theorem control_transfer (code : List APEX_Instruction) (s : APEX_CPU)
    (hs : Reachable code s) (ht : taken s = true) :
    ((ticks 1 s).decode.has_insn = false ∧ (ticks 1 s).execute.has_insn = false ∧
      ((ticks 1 s).memory.has_insn = true ∧ (ticks 1 s).memory.insn = s.execute.insn ∧
        (ticks 1 s).memory.pc = s.execute.pc) ∧
      (ticks 1 s).writeback.has_insn = s.memory.has_insn ∧
      (s.memory.has_insn = true → (ticks 1 s).writeback.insn = s.memory.insn ∧
        (ticks 1 s).writeback.pc = s.memory.pc)) ∧
    (¬ fetches s ∧ (ticks 1 s).pc = transfer_target s) ∧
    (fetches (ticks 1 s) ∧ (ticks 2 s).decode.has_insn = true ∧
      (ticks 2 s).decode.pc = transfer_target s ∧
      (ticks 2 s).decode.insn =
        code_memory_at code (get_code_memory_index_from_pc (transfer_target s)) ∧
      (ticks 2 s).pc = wrap32 (transfer_target s + 4) ∧
      (ticks 2 s).execute.has_insn = false) := by
  have hi := inv_of_reachable hs
  have hc := reachable_code_memory hs
  have he := taken_has_insn ht
  obtain ⟨⟨_, hnf, hd1, he1, hpc1, _, _⟩, _, hf1, hd2, hp2, hi2, hpc2, he2⟩ :=
    transfer_cycles hi ht
  rw [hc] at hi2
  refine ⟨⟨hd1, he1, ⟨?_, cycle_memory_insn s he⟩, ?_, cycle_writeback_insn s⟩,
    ⟨hnf, hpc1⟩, ⟨hf1, hd2, hp2, hi2, hpc2, he2⟩⟩
  · show (APEX_cpu_cycle s).memory.has_insn = true
    rw [cycle_memory, hazard_check_memory_has_insn]; exact he
  · show (APEX_cpu_cycle s).writeback.has_insn = s.memory.has_insn
    rw [cycle_writeback, hazard_check_writeback_has_insn]

/-- C7, witness: scenario 3 at the start of tick 4, with the taken BZ in
Execute and `MOVC R2,#99` in Decode. -/
theorem control_transfer_witness :
    Reachable scenario3 (ticks 3 (APEX_cpu_start scenario3)) ∧
    taken (ticks 3 (APEX_cpu_start scenario3)) = true ∧
    (((ticks 1 (ticks 3 (APEX_cpu_start scenario3))).decode.has_insn = false ∧
      (ticks 1 (ticks 3 (APEX_cpu_start scenario3))).execute.has_insn = false ∧
      ((ticks 1 (ticks 3 (APEX_cpu_start scenario3))).memory.has_insn = true ∧
        (ticks 1 (ticks 3 (APEX_cpu_start scenario3))).memory.insn =
          (ticks 3 (APEX_cpu_start scenario3)).execute.insn ∧
        (ticks 1 (ticks 3 (APEX_cpu_start scenario3))).memory.pc =
          (ticks 3 (APEX_cpu_start scenario3)).execute.pc) ∧
      (ticks 1 (ticks 3 (APEX_cpu_start scenario3))).writeback.has_insn =
        (ticks 3 (APEX_cpu_start scenario3)).memory.has_insn ∧
      ((ticks 3 (APEX_cpu_start scenario3)).memory.has_insn = true →
        (ticks 1 (ticks 3 (APEX_cpu_start scenario3))).writeback.insn =
          (ticks 3 (APEX_cpu_start scenario3)).memory.insn ∧
        (ticks 1 (ticks 3 (APEX_cpu_start scenario3))).writeback.pc =
          (ticks 3 (APEX_cpu_start scenario3)).memory.pc)) ∧
    (¬ fetches (ticks 3 (APEX_cpu_start scenario3)) ∧
      (ticks 1 (ticks 3 (APEX_cpu_start scenario3))).pc =
        transfer_target (ticks 3 (APEX_cpu_start scenario3))) ∧
    (fetches (ticks 1 (ticks 3 (APEX_cpu_start scenario3))) ∧
      (ticks 2 (ticks 3 (APEX_cpu_start scenario3))).decode.has_insn = true ∧
      (ticks 2 (ticks 3 (APEX_cpu_start scenario3))).decode.pc =
        transfer_target (ticks 3 (APEX_cpu_start scenario3)) ∧
      (ticks 2 (ticks 3 (APEX_cpu_start scenario3))).decode.insn =
        code_memory_at scenario3 (get_code_memory_index_from_pc
          (transfer_target (ticks 3 (APEX_cpu_start scenario3)))) ∧
      (ticks 2 (ticks 3 (APEX_cpu_start scenario3))).pc =
        wrap32 (transfer_target (ticks 3 (APEX_cpu_start scenario3)) + 4) ∧
      (ticks 2 (ticks 3 (APEX_cpu_start scenario3))).execute.has_insn = false)) :=
  ⟨reachable_ticks scenario3 3, by decide,
    control_transfer scenario3 (ticks 3 (APEX_cpu_start scenario3))
      (reachable_ticks scenario3 3) (by decide)⟩

/-- C8, the claim as stated, refuted on scenario 3: the BZ is taken in tick 4
(state `ticks 3`), and already in tick 5, the tick after, `APEX_fetch`
fetches: the instruction at the new program counter 4012 is in Decode at the
end of tick 5, and in tick 6 Fetch fetches the one at 4016, not the one at the
new program counter. -/
theorem transfer_timing_counterexample :
    taken (ticks 3 (APEX_cpu_start scenario3)) = true ∧
    transfer_target (ticks 3 (APEX_cpu_start scenario3)) = 4012 ∧
    ¬ fetches (ticks 3 (APEX_cpu_start scenario3)) ∧
    fetches (ticks 4 (APEX_cpu_start scenario3)) ∧
    (ticks 5 (APEX_cpu_start scenario3)).decode.pc = 4012 ∧
    fetches (ticks 5 (APEX_cpu_start scenario3)) ∧
    (ticks 6 (APEX_cpu_start scenario3)).decode.pc = 4016 := by
  refine ⟨by decide, by decide, by decide, by decide, by decide, by decide, by decide⟩

/-- C8 as amended: in every reachable state in which Execute resolves a taken
branch or jump in the tick (tick N), `APEX_fetch` fetches nothing in that same
tick N (the bubble; Decode is flushed, `pc` is the target), and in tick N+1
`APEX_fetch` fetches the instruction at the new program counter, which is in
the Decode latch at the end of tick N+1. -/
theorem transfer_timing (code : List APEX_Instruction) (s : APEX_CPU)
    (hs : Reachable code s) (ht : taken s = true) :
    (¬ fetches s ∧ (ticks 1 s).decode.has_insn = false ∧
      (ticks 1 s).pc = transfer_target s) ∧
    (fetches (ticks 1 s) ∧ (ticks 2 s).decode.has_insn = true ∧
      (ticks 2 s).decode.pc = transfer_target s ∧
      (ticks 2 s).decode.insn =
        code_memory_at code (get_code_memory_index_from_pc (transfer_target s))) := by
  have hc := reachable_code_memory hs
  obtain ⟨⟨_, hnf, hd1, _, hpc1, _, _⟩, _, hf1, hd2, hp2, hi2, _, _⟩ :=
    transfer_cycles (inv_of_reachable hs) ht
  rw [hc] at hi2
  exact ⟨⟨hnf, hd1, hpc1⟩, ⟨hf1, hd2, hp2, hi2⟩⟩

/-- C8 as amended, witness: scenario 3 at the start of tick 4. -/
theorem transfer_timing_witness :
    Reachable scenario3 (ticks 3 (APEX_cpu_start scenario3)) ∧
    taken (ticks 3 (APEX_cpu_start scenario3)) = true ∧
    ((¬ fetches (ticks 3 (APEX_cpu_start scenario3)) ∧
      (ticks 1 (ticks 3 (APEX_cpu_start scenario3))).decode.has_insn = false ∧
      (ticks 1 (ticks 3 (APEX_cpu_start scenario3))).pc =
        transfer_target (ticks 3 (APEX_cpu_start scenario3))) ∧
    (fetches (ticks 1 (ticks 3 (APEX_cpu_start scenario3))) ∧
      (ticks 2 (ticks 3 (APEX_cpu_start scenario3))).decode.has_insn = true ∧
      (ticks 2 (ticks 3 (APEX_cpu_start scenario3))).decode.pc =
        transfer_target (ticks 3 (APEX_cpu_start scenario3)) ∧
      (ticks 2 (ticks 3 (APEX_cpu_start scenario3))).decode.insn =
        code_memory_at scenario3 (get_code_memory_index_from_pc
          (transfer_target (ticks 3 (APEX_cpu_start scenario3)))))) :=
  ⟨reachable_ticks scenario3 3, by decide,
    transfer_timing scenario3 (ticks 3 (APEX_cpu_start scenario3))
      (reachable_ticks scenario3 3) (by decide)⟩

/-! ## Order of retirement -/

/-- The retirement log of scenario 3 after 10 ticks, most recent first: HALT
(fetched in tick 6, retired in tick 10), `MOVC R3,#1` (5, 9), BZ (2, 6) and SUB
(1, 5).  The flushed `MOVC R2,#99`, fetched in tick 3, has no entry. -/
theorem history_scenario3 :
    (history scenario3 10).retired = [(10, 6), (9, 5), (6, 2), (5, 1)] := by
  decide

/-- C9 (in-order commit): for every program and every number `n` of ticks run
from the initial state, let `log` be the retirement log of the bookkeeping.
Every entry `(r, f)` says that in tick `r` `APEX_writeback` retired the
instruction which `APEX_fetch` had fetched in tick `f < r`; every tick in which
an instruction retired has an entry; if `A` retires in an earlier tick than `B`
then `A` was fetched in an earlier tick than `B`; and no two entries share a
tick of retirement. -/
theorem in_order_commit (code : List APEX_Instruction) (n : Nat) :
    (∀ p ∈ (history code n).retired, 1 ≤ p.1 ∧ p.1 ≤ n ∧ p.2 < p.1 ∧
      retires (ticks (p.1 - 1) (APEX_cpu_start code)) = true ∧
      Fetched code p.2 (ticks (p.1 - 1) (APEX_cpu_start code)).writeback) ∧
    (∀ r, 1 ≤ r → r ≤ n → retires (ticks (r - 1) (APEX_cpu_start code)) = true →
      ∃ f, (r, f) ∈ (history code n).retired) ∧
    (∀ a ∈ (history code n).retired, ∀ b ∈ (history code n).retired, a.1 < b.1 → a.2 < b.2) ∧
    (∀ a ∈ (history code n).retired, ∀ b ∈ (history code n).retired, a.1 = b.1 → a = b) := by
  have h := logok_history code n
  exact ⟨h.valid, h.complete, (order_of_sorted h.sorted).1, (order_of_sorted h.sorted).2⟩

/-! ## Stores and reads with subscripts in range stay inside their arrays -/

theorem ne_of_outside {n i r : Int} (hi : in_bounds n i) (hr : ¬ in_bounds n r) : r ≠ i :=
  fun h => hr (h ▸ hi)

theorem writeback_stays_in_range (n : Int) (s : APEX_CPU)
    (h : writeback_in_range n s.writeback) (r : Int) (hr : ¬ in_bounds n r) :
    (APEX_writeback s).1.regs r = s.regs r := by
  by_cases hw : s.writeback.has_insn = true
  · have h' := h hw
    cases ho : s.writeback.opcode <;> simp only [ho] at h' <;>
      simp [APEX_writeback, hw, ho, arr_set]
    all_goals first
      | exact fun heq => absurd heq (ne_of_outside h' hr)
      | simp [ne_of_outside h'.1 hr, ne_of_outside h'.2 hr]
  · simp [APEX_writeback, hw]

theorem memory_stays_in_range (m : Int) (s : APEX_CPU)
    (h : memory_in_range m s.memory) (a : Int) (ha : ¬ in_bounds m a) :
    (APEX_memory s).data_memory a = s.data_memory a := by
  by_cases hm : s.memory.has_insn = true
  · have h' := h hm
    cases ho : s.memory.opcode <;> simp only [ho] at h' <;>
      simp [APEX_memory, hm, ho, arr_set]
    all_goals exact fun heq => absurd heq (ne_of_outside h' ha)
  · simp [APEX_memory, hm]

theorem check_mem_dependency_stays_in_range (n : Int) (s : APEX_CPU)
    (h : decode_in_range n s.decode) (r : Int) (hr : ¬ in_bounds n r) :
    (check_mem_dependency s).regf r = s.regf r := by
  by_cases hd : s.decode.has_insn = true
  · have h' := h hd
    unfold in_bounds at h' hr
    cases ho : s.decode.opcode <;> simp only [ho] at h' <;>
      simp only [check_mem_dependency, hd, ho, if_true] <;> (repeat' split) <;>
      simp_all [arr_set] <;> intros <;> omega
  · simp [check_mem_dependency, hd]

theorem check_ex_dependency_stays_in_range (n : Int) (s : APEX_CPU)
    (h : decode_in_range n s.decode) (r : Int) (hr : ¬ in_bounds n r) :
    (check_ex_dependency s).regf r = s.regf r := by
  by_cases hd : s.decode.has_insn = true
  · have h' := h hd
    unfold in_bounds at h' hr
    cases ho : s.decode.opcode <;> simp only [ho] at h' <;>
      simp only [check_ex_dependency, hd, ho, if_true] <;> (repeat' split) <;>
      simp_all [arr_set] <;> intros <;> omega
  · simp [check_ex_dependency, hd]

theorem fetch_reads_program (s : APEX_CPU) (h : fetch_in_range s)
    (hf : s.fetch.has_insn = true) :
    (load_fetch_latch s).insn ∈ s.code_memory := by
  have hb := h hf
  unfold in_bounds at hb
  rw [load_fetch_latch_insn]
  unfold code_memory_at
  rw [if_pos hb.1]
  have hlt : (get_code_memory_index_from_pc s.pc).toNat < s.code_memory.length := by omega
  rw [List.getD_eq_getElem _ _ hlt]
  exact List.getElem_mem _

/-! ## The stage functions, opcode by opcode -/

theorem wrap32_of_int32 {x : Int} (h : int32 x) : wrap32 x = x := by
  unfold int32 at h; unfold wrap32; omega

theorem int32_wrap32 (x : Int) : int32 (wrap32 x) := by
  unfold int32 wrap32; omega

/-- C12 (arithmetic semantics): for every occupied Execute latch, if the
opcode table gives the mathematical result `r` for the latch (`rs1_value op
rs2_value` for ADD, SUB, MUL, AND, OR, XOR and, with a non-zero divisor, the
truncating quotient for DIV; `rs1_value + imm` for ADDL, `rs1_value - imm` for
SUBL, `imm` for MOVC) and `r` is an `int` (no overflow), `APEX_execute` sets
`result_buffer` to `r`; and for all these opcodes except MOVC, overflow or
not, it sets `zero_flag = (result_buffer == 0)` and
`positive_flag = (result_buffer > 0)` from the new `result_buffer`. -/
theorem arithmetic_semantics (s : APEX_CPU) (h : s.execute.has_insn = true) :
    (∀ r, arith_spec s.execute.opcode s.execute.rs1_value s.execute.rs2_value
        s.execute.imm = some r → int32 r → (APEX_execute s).execute.result_buffer = r) ∧
    (sets_flags_from_result s.execute.opcode = true →
      (APEX_execute s).zero_flag = decide ((APEX_execute s).execute.result_buffer = 0) ∧
      (APEX_execute s).positive_flag =
        decide ((APEX_execute s).execute.result_buffer > 0)) := by
  constructor
  · intro r hr hi
    cases ho : s.execute.opcode <;> simp [arith_spec, ho] at hr <;>
      (first | subst hr | (rw [← hr.2] at hi ⊢)) <;>
      simp [APEX_execute, h, execute_switch, ho, execute_arith] <;>
      exact wrap32_of_int32 hi
  · intro hf
    cases ho : s.execute.opcode <;> simp [sets_flags_from_result, ho] at hf <;>
      simp [APEX_execute, h, execute_switch, ho, execute_arith]

/-- C12, witness: scenario 1 at the start of tick 6, with `ADD R2,R1,R1` in
Execute and both operand values 10. -/
theorem arithmetic_semantics_witness :
    (ticks 5 (APEX_cpu_start scenario1)).execute.has_insn = true ∧
    arith_spec (ticks 5 (APEX_cpu_start scenario1)).execute.opcode
      (ticks 5 (APEX_cpu_start scenario1)).execute.rs1_value
      (ticks 5 (APEX_cpu_start scenario1)).execute.rs2_value
      (ticks 5 (APEX_cpu_start scenario1)).execute.imm = some 20 ∧
    ((∀ r, arith_spec (ticks 5 (APEX_cpu_start scenario1)).execute.opcode
        (ticks 5 (APEX_cpu_start scenario1)).execute.rs1_value
        (ticks 5 (APEX_cpu_start scenario1)).execute.rs2_value
        (ticks 5 (APEX_cpu_start scenario1)).execute.imm = some r → int32 r →
        (APEX_execute (ticks 5 (APEX_cpu_start scenario1))).execute.result_buffer = r) ∧
    (sets_flags_from_result (ticks 5 (APEX_cpu_start scenario1)).execute.opcode = true →
      (APEX_execute (ticks 5 (APEX_cpu_start scenario1))).zero_flag =
        decide ((APEX_execute (ticks 5 (APEX_cpu_start scenario1))).execute.result_buffer
          = 0) ∧
      (APEX_execute (ticks 5 (APEX_cpu_start scenario1))).positive_flag =
        decide ((APEX_execute (ticks 5 (APEX_cpu_start scenario1))).execute.result_buffer
          > 0))) :=
  ⟨by decide, by decide,
    arithmetic_semantics (ticks 5 (APEX_cpu_start scenario1)) (by decide)⟩

/-- C13 (CMP): for every occupied Execute latch with opcode CMP, `APEX_execute`
sets `zero_flag = (rs1_value == rs2_value)` and
`positive_flag = (rs1_value > rs2_value)` by comparing the two operand values
themselves (no difference is formed, so nothing can overflow) and leaves
`result_buffer` unchanged; and `APEX_writeback` leaves the whole register bank
unchanged when the Writeback latch holds a CMP. -/
theorem cmp_semantics (s : APEX_CPU) (h : s.execute.has_insn = true)
    (ho : s.execute.opcode = Opcode.CMP) :
    (APEX_execute s).zero_flag = decide (s.execute.rs1_value = s.execute.rs2_value) ∧
    (APEX_execute s).positive_flag = decide (s.execute.rs1_value > s.execute.rs2_value) ∧
    (APEX_execute s).execute.result_buffer = s.execute.result_buffer ∧
    (APEX_execute s).memory.result_buffer = s.execute.result_buffer ∧
    ∀ w : APEX_CPU, w.writeback.opcode = Opcode.CMP → (APEX_writeback w).1.regs = w.regs := by
  refine ⟨?_, ?_, ?_, ?_, ?_⟩
  · simp [APEX_execute, h, execute_switch, ho]
  · simp [APEX_execute, h, execute_switch, ho]
  · simp [APEX_execute, h, execute_switch, ho]
  · simp [APEX_execute, h, execute_switch, ho]
  · intro w hw
    unfold APEX_writeback
    split
    · simp [hw]
    · rfl

/-- C13, witness: `cmp_program` at the start of tick 7, with `CMP R1,R2` in
Execute, `rs1_value = -2147483648` and `rs2_value = 1`; the difference is not
an `int`, and the flags say "not equal, not greater". -/
theorem cmp_semantics_witness :
    (ticks 6 (APEX_cpu_start cmp_program)).execute.has_insn = true ∧
    (ticks 6 (APEX_cpu_start cmp_program)).execute.opcode = Opcode.CMP ∧
    ((ticks 6 (APEX_cpu_start cmp_program)).execute.rs1_value = -2147483648 ∧
      (ticks 6 (APEX_cpu_start cmp_program)).execute.rs2_value = 1 ∧
      (APEX_execute (ticks 6 (APEX_cpu_start cmp_program))).zero_flag = false ∧
      (APEX_execute (ticks 6 (APEX_cpu_start cmp_program))).positive_flag = false) ∧
    ((APEX_execute (ticks 6 (APEX_cpu_start cmp_program))).zero_flag =
        decide ((ticks 6 (APEX_cpu_start cmp_program)).execute.rs1_value =
          (ticks 6 (APEX_cpu_start cmp_program)).execute.rs2_value) ∧
      (APEX_execute (ticks 6 (APEX_cpu_start cmp_program))).positive_flag =
        decide ((ticks 6 (APEX_cpu_start cmp_program)).execute.rs1_value >
          (ticks 6 (APEX_cpu_start cmp_program)).execute.rs2_value) ∧
      (APEX_execute (ticks 6 (APEX_cpu_start cmp_program))).execute.result_buffer =
        (ticks 6 (APEX_cpu_start cmp_program)).execute.result_buffer ∧
      (APEX_execute (ticks 6 (APEX_cpu_start cmp_program))).memory.result_buffer =
        (ticks 6 (APEX_cpu_start cmp_program)).execute.result_buffer ∧
      ∀ w : APEX_CPU, w.writeback.opcode = Opcode.CMP →
        (APEX_writeback w).1.regs = w.regs) :=
  ⟨by decide, by decide, by decide,
    cmp_semantics (ticks 6 (APEX_cpu_start cmp_program)) (by decide) (by decide)⟩

theorem execute_transfer_transferred (s : APEX_CPU) (target : Int) :
    transferred
      { execute_transfer s target with
        memory := (execute_transfer s target).execute
        pexecute := (execute_transfer s target).execute } target :=
  ⟨rfl, rfl, rfl, rfl⟩

/-- C14 (branch resolution): for every occupied Execute latch, `APEX_execute`
performs the control transfer for BZ exactly when `zero_flag` is TRUE, for BNZ
exactly when it is FALSE, for BP exactly when `positive_flag` is TRUE, for BNP
exactly when it is FALSE, and for JUMP always.  A taken branch sets `pc` to the
`int` sum of the branch's own `pc` and `imm`, a JUMP to the `int` sum of
`rs1_value` and `imm` (and arms the skip flag, empties Decode, enables Fetch);
a branch that is not taken leaves `pc`, the occupancy of Decode,
`fetch.has_insn` and `fetch_from_next_cycle` unchanged. -/
theorem branch_resolution (s : APEX_CPU) (h : s.execute.has_insn = true) :
    (s.execute.opcode = Opcode.BZ →
      (s.zero_flag = true →
        transferred (APEX_execute s) (wrap32 (s.execute.pc + s.execute.imm))) ∧
      (s.zero_flag = false → not_transferred s (APEX_execute s))) ∧
    (s.execute.opcode = Opcode.BNZ →
      (s.zero_flag = false →
        transferred (APEX_execute s) (wrap32 (s.execute.pc + s.execute.imm))) ∧
      (s.zero_flag = true → not_transferred s (APEX_execute s))) ∧
    (s.execute.opcode = Opcode.BP →
      (s.positive_flag = true →
        transferred (APEX_execute s) (wrap32 (s.execute.pc + s.execute.imm))) ∧
      (s.positive_flag = false → not_transferred s (APEX_execute s))) ∧
    (s.execute.opcode = Opcode.BNP →
      (s.positive_flag = false →
        transferred (APEX_execute s) (wrap32 (s.execute.pc + s.execute.imm))) ∧
      (s.positive_flag = true → not_transferred s (APEX_execute s))) ∧
    (s.execute.opcode = Opcode.JUMP →
      transferred (APEX_execute s) (wrap32 (s.execute.rs1_value + s.execute.imm))) ∧
    (∀ x, int32 x → wrap32 x = x) := by
  refine ⟨?_, ?_, ?_, ?_, ?_, fun x hx => wrap32_of_int32 hx⟩
  · intro ho
    constructor
    · intro hz
      simp only [APEX_execute, h, execute_switch, ho, hz, if_true]
      exact execute_transfer_transferred _ _
    · intro hz
      simp only [APEX_execute, h, execute_switch, ho, hz, if_true]
      exact ⟨rfl, rfl, rfl, rfl⟩
  · intro ho
    constructor
    · intro hz
      simp only [APEX_execute, h, execute_switch, ho, hz, if_true]
      exact execute_transfer_transferred _ _
    · intro hz
      simp only [APEX_execute, h, execute_switch, ho, hz, if_true]
      exact ⟨rfl, rfl, rfl, rfl⟩
  · intro ho
    constructor
    · intro hz
      simp only [APEX_execute, h, execute_switch, ho, hz, if_true]
      exact execute_transfer_transferred _ _
    · intro hz
      simp only [APEX_execute, h, execute_switch, ho, hz, if_true]
      exact ⟨rfl, rfl, rfl, rfl⟩
  · intro ho
    constructor
    · intro hz
      simp only [APEX_execute, h, execute_switch, ho, hz, if_true]
      exact execute_transfer_transferred _ _
    · intro hz
      simp only [APEX_execute, h, execute_switch, ho, hz, if_true]
      exact ⟨rfl, rfl, rfl, rfl⟩
  · intro ho
    simp only [APEX_execute, h, execute_switch, ho, if_true]
    exact execute_transfer_transferred _ _

/-- C14, witness: scenario 3 at the start of tick 4, with the BZ (own `pc`
4004, `imm` 8) in Execute and the zero flag set. -/
theorem branch_resolution_witness :
    scenario3_at_branch.execute.has_insn = true ∧
    (scenario3_at_branch.execute.opcode = Opcode.BZ ∧
      scenario3_at_branch.zero_flag = true ∧
      (APEX_execute scenario3_at_branch).pc = 4012) ∧
    ((scenario3_at_branch.execute.opcode = Opcode.BZ →
      (scenario3_at_branch.zero_flag = true →
        transferred (APEX_execute scenario3_at_branch)
          (wrap32 (scenario3_at_branch.execute.pc + scenario3_at_branch.execute.imm))) ∧
      (scenario3_at_branch.zero_flag = false →
        not_transferred scenario3_at_branch (APEX_execute scenario3_at_branch))) ∧
    (scenario3_at_branch.execute.opcode = Opcode.BNZ →
      (scenario3_at_branch.zero_flag = false →
        transferred (APEX_execute scenario3_at_branch)
          (wrap32 (scenario3_at_branch.execute.pc + scenario3_at_branch.execute.imm))) ∧
      (scenario3_at_branch.zero_flag = true →
        not_transferred scenario3_at_branch (APEX_execute scenario3_at_branch))) ∧
    (scenario3_at_branch.execute.opcode = Opcode.BP →
      (scenario3_at_branch.positive_flag = true →
        transferred (APEX_execute scenario3_at_branch)
          (wrap32 (scenario3_at_branch.execute.pc + scenario3_at_branch.execute.imm))) ∧
      (scenario3_at_branch.positive_flag = false →
        not_transferred scenario3_at_branch (APEX_execute scenario3_at_branch))) ∧
    (scenario3_at_branch.execute.opcode = Opcode.BNP →
      (scenario3_at_branch.positive_flag = false →
        transferred (APEX_execute scenario3_at_branch)
          (wrap32 (scenario3_at_branch.execute.pc + scenario3_at_branch.execute.imm))) ∧
      (scenario3_at_branch.positive_flag = true →
        not_transferred scenario3_at_branch (APEX_execute scenario3_at_branch))) ∧
    (scenario3_at_branch.execute.opcode = Opcode.JUMP →
      transferred (APEX_execute scenario3_at_branch)
        (wrap32 (scenario3_at_branch.execute.rs1_value + scenario3_at_branch.execute.imm))) ∧
    (∀ x, int32 x → wrap32 x = x)) :=
  ⟨by decide, by decide, branch_resolution scenario3_at_branch (by decide)⟩

theorem arr_set_same (a : Int → Int) (i v : Int) : arr_set a i v i = v := by
  simp [arr_set]

theorem arr_set_other (a : Int → Int) (i v j : Int) (h : j ≠ i) : arr_set a i v j = a j := by
  simp [arr_set, h]

/-- C15, the claim as stated, refuted on `LDI R1,R1,#0` (16 registers): when
the LDI is in the Writeback latch with `rd = rs1 = 1`, both in range,
`result_buffer = 0` and `result_buffer1 = 4`, `APEX_writeback` leaves
`regs[rd] = 4`, which is not `result_buffer`. -/
theorem writeback_ldi_counterexample :
    ldi_at_writeback.writeback.has_insn = true ∧
    ldi_at_writeback.writeback.opcode = Opcode.LDI ∧
    ldi_at_writeback.writeback.rd = 1 ∧ ldi_at_writeback.writeback.rs1 = 1 ∧
    writeback_in_range 16 ldi_at_writeback.writeback ∧
    ldi_at_writeback.writeback.result_buffer = 0 ∧
    ldi_at_writeback.writeback.result_buffer1 = 4 ∧
    (APEX_writeback ldi_at_writeback).1.regs ldi_at_writeback.writeback.rd = 4 ∧
    (APEX_writeback ldi_at_writeback).1.regs ldi_at_writeback.writeback.rd ≠
      ldi_at_writeback.writeback.result_buffer := by
  refine ⟨by decide, by decide, by decide, by decide, by decide, by decide, by decide,
    by decide, by decide⟩

/-- C15 as amended (writeback commit): for every occupied Writeback latch with
in-range register indices, `APEX_writeback` sets `regs[rd] = result_buffer` for
ADD/SUB/MUL/DIV/AND/OR/XOR/MOVC/LOAD/ADDL/SUBL; for LDI it sets
`regs[rs1] = result_buffer1` and, when `rd` and `rs1` are different registers,
`regs[rd] = result_buffer`; for STI it sets `regs[rs2] = result_buffer`; every
other register is unchanged.  For STORE, CMP, BZ, BNZ, BP, BNP, JUMP, HALT and
NOP, and when the latch is empty, the whole register bank is unchanged.  No
store of `APEX_writeback` goes outside `regs[0 .. REG_FILE_SIZE - 1]`.
`REG_FILE_SIZE` stands for the value the absent `apex_macros.h` gives it. -/
theorem writeback_commit (REG_FILE_SIZE : Int) (s : APEX_CPU)
    (hr : writeback_in_range REG_FILE_SIZE s.writeback) :
    (s.writeback.has_insn = true →
      (writes_rd s.writeback.opcode = true →
        (APEX_writeback s).1.regs s.writeback.rd = s.writeback.result_buffer ∧
        ∀ r, r ≠ s.writeback.rd → (APEX_writeback s).1.regs r = s.regs r) ∧
      (s.writeback.opcode = Opcode.LDI →
        (APEX_writeback s).1.regs s.writeback.rs1 = s.writeback.result_buffer1 ∧
        (s.writeback.rd ≠ s.writeback.rs1 →
          (APEX_writeback s).1.regs s.writeback.rd = s.writeback.result_buffer) ∧
        ∀ r, r ≠ s.writeback.rd → r ≠ s.writeback.rs1 →
          (APEX_writeback s).1.regs r = s.regs r) ∧
      (s.writeback.opcode = Opcode.STI →
        (APEX_writeback s).1.regs s.writeback.rs2 = s.writeback.result_buffer ∧
        ∀ r, r ≠ s.writeback.rs2 → (APEX_writeback s).1.regs r = s.regs r) ∧
      (writes_no_register s.writeback.opcode = true → (APEX_writeback s).1.regs = s.regs)) ∧
    (s.writeback.has_insn = false → (APEX_writeback s).1.regs = s.regs) ∧
    (∀ r, ¬ in_bounds REG_FILE_SIZE r → (APEX_writeback s).1.regs r = s.regs r) := by
  refine ⟨?_, ?_, writeback_stays_in_range REG_FILE_SIZE s hr⟩
  · intro h
    refine ⟨?_, ?_, ?_, ?_⟩
    · intro hd
      cases ho : s.writeback.opcode <;> simp [writes_rd, ho] at hd <;>
        simp [APEX_writeback, h, ho, arr_set]
      all_goals (intro r hr; simp [hr])
    · intro ho
      simp only [APEX_writeback, h, ho, if_true]
      refine ⟨arr_set_same _ _ _, ?_, ?_⟩
      · intro hne
        rw [arr_set_other _ _ _ _ hne, arr_set_same]
      · intro r h1 h2
        rw [arr_set_other _ _ _ _ h2, arr_set_other _ _ _ _ h1]
    · intro ho
      simp only [APEX_writeback, h, ho, if_true]
      exact ⟨arr_set_same _ _ _, fun r hr => arr_set_other _ _ _ _ hr⟩
    · intro hd
      cases ho : s.writeback.opcode <;> simp [writes_no_register, ho] at hd <;>
        simp [APEX_writeback, h, ho]
  · intro h
    simp [APEX_writeback, h]

/-- C15, witness: scenario 1 (`MOVC R1,#10 ; ADD R2,R1,R1 ; HALT`) at the start
of tick 5, with 16 registers: the MOVC is in Writeback with `rd = 1` and
`result_buffer = 10`; `APEX_writeback` sets `regs[1] = 10` and leaves every
other register as it is. -/
theorem writeback_commit_witness :
    writeback_in_range 16 movc_at_writeback.writeback ∧
    movc_at_writeback.writeback.has_insn = true ∧
    movc_at_writeback.writeback.opcode = Opcode.MOVC ∧
    movc_at_writeback.writeback.rd = 1 ∧
    movc_at_writeback.writeback.result_buffer = 10 ∧
    (APEX_writeback movc_at_writeback).1.regs 1 = 10 ∧
    ((APEX_writeback movc_at_writeback).1.regs movc_at_writeback.writeback.rd =
        movc_at_writeback.writeback.result_buffer ∧
      ∀ r, r ≠ movc_at_writeback.writeback.rd →
        (APEX_writeback movc_at_writeback).1.regs r = movc_at_writeback.regs r) :=
  ⟨by decide, by decide, by decide, by decide, by decide, by decide,
    ((writeback_commit 16 movc_at_writeback (by decide)).1 (by decide)).1 (by decide)⟩

/-- C16 (retirement and halt): when the Writeback latch is occupied, with the
register indices `APEX_writeback` uses as subscripts of `regs` inside the
array, `APEX_writeback` increments `insn_completed` by exactly 1 and empties
the latch; when it is empty, `insn_completed` is unchanged; and the function
returns TRUE if and only if the latch was occupied and its opcode is HALT.
Every store of `APEX_writeback` goes to an element of
`regs[0 .. REG_FILE_SIZE - 1]`.  (A subscript outside `regs` is undefined
behaviour in C; `insn_completed` is the field next to `regs[0]`.
`REG_FILE_SIZE` stands for the value the absent `apex_macros.h` gives it.) -/
theorem retirement_and_halt (REG_FILE_SIZE : Int) (s : APEX_CPU)
    (hr : writeback_in_range REG_FILE_SIZE s.writeback) :
    (s.writeback.has_insn = true →
      (APEX_writeback s).1.insn_completed = s.insn_completed + 1 ∧
      (APEX_writeback s).1.writeback.has_insn = false) ∧
    (s.writeback.has_insn = false →
      (APEX_writeback s).1.insn_completed = s.insn_completed ∧
      (APEX_writeback s).1.writeback.has_insn = false) ∧
    ((APEX_writeback s).2 = true ↔
      (s.writeback.has_insn = true ∧ s.writeback.opcode = Opcode.HALT)) ∧
    (∀ r, ¬ in_bounds REG_FILE_SIZE r → (APEX_writeback s).1.regs r = s.regs r) := by
  refine ⟨?_, ?_, ?_, writeback_stays_in_range REG_FILE_SIZE s hr⟩
  · intro h; simp [APEX_writeback, h]
  · intro h; simp [APEX_writeback, h]
  · by_cases h : s.writeback.has_insn = true <;> simp [APEX_writeback, h]

/-- C16, witness: `LDI R1,R1,#0 ; HALT` at the start of tick 5, with 16
registers: the LDI is in Writeback with `rd = rs1 = 1`, nothing has retired
yet; `APEX_writeback` counts the first retired instruction, empties the latch
and does not signal HALT. -/
theorem retirement_and_halt_witness :
    writeback_in_range 16 ldi_at_writeback.writeback ∧
    ldi_at_writeback.writeback.has_insn = true ∧
    ldi_at_writeback.insn_completed = 0 ∧
    (APEX_writeback ldi_at_writeback).1.insn_completed = 1 ∧
    (APEX_writeback ldi_at_writeback).2 = false ∧
    ((APEX_writeback ldi_at_writeback).1.insn_completed = ldi_at_writeback.insn_completed + 1 ∧
      (APEX_writeback ldi_at_writeback).1.writeback.has_insn = false) :=
  ⟨by decide, by decide, by decide, by decide, by decide,
    (retirement_and_halt 16 ldi_at_writeback (by decide)).1 (by decide)⟩

/-- C17 (memory stage): for every occupied Memory latch, `APEX_memory` sets
`result_buffer = data_memory[memory_address]` for LOAD and LDI and leaves data
memory unchanged; for STORE and STI it sets
`data_memory[memory_address] = rs1_value` and leaves every other cell (and the
latch) unchanged; for every other opcode the latch and data memory are
unchanged; and in all these cases the latch as `APEX_memory` leaves it is
copied to the Writeback latch.  When the latch is empty, data memory and the
Writeback latch are unchanged. -/
theorem memory_stage (s : APEX_CPU) :
    (s.memory.has_insn = true →
      ((s.memory.opcode = Opcode.LOAD ∨ s.memory.opcode = Opcode.LDI) →
        (APEX_memory s).memory =
          { s.memory with result_buffer := s.data_memory s.memory.memory_address } ∧
        (APEX_memory s).data_memory = s.data_memory) ∧
      ((s.memory.opcode = Opcode.STORE ∨ s.memory.opcode = Opcode.STI) →
        (APEX_memory s).data_memory s.memory.memory_address = s.memory.rs1_value ∧
        (∀ a, a ≠ s.memory.memory_address →
          (APEX_memory s).data_memory a = s.data_memory a) ∧
        (APEX_memory s).memory = s.memory) ∧
      ((s.memory.opcode ≠ Opcode.LOAD ∧ s.memory.opcode ≠ Opcode.LDI ∧
          s.memory.opcode ≠ Opcode.STORE ∧ s.memory.opcode ≠ Opcode.STI) →
        (APEX_memory s).data_memory = s.data_memory ∧
        (APEX_memory s).memory = s.memory) ∧
      (APEX_memory s).writeback = (APEX_memory s).memory) ∧
    (s.memory.has_insn = false →
      (APEX_memory s).data_memory = s.data_memory ∧
      (APEX_memory s).writeback = s.writeback ∧ (APEX_memory s).memory = s.memory) := by
  constructor
  · intro h
    refine ⟨?_, ?_, ?_, ?_⟩
    · rintro (ho | ho) <;> simp [APEX_memory, h, ho]
    · rintro (ho | ho) <;> simp only [APEX_memory, h, ho, if_true] <;>
        exact ⟨arr_set_same _ _ _, fun a ha => arr_set_other _ _ _ _ ha, trivial⟩
    · rintro ⟨h1, h2, h3, h4⟩
      cases ho : s.memory.opcode <;> simp_all [APEX_memory]
    · rw [APEX_memory_writeback, if_pos h]
  · intro h
    simp [APEX_memory, h]

/-! ## The stage functions on the latch they work on -/

theorem APEX_writeback_regs_eq (s : APEX_CPU) :
    (APEX_writeback s).1.regs =
      if s.writeback.has_insn then wb_regs s.writeback s.regs else s.regs := by
  unfold APEX_writeback wb_regs; dsimp only; (repeat' split) <;> simp_all

theorem APEX_writeback_insn_completed_eq (s : APEX_CPU) :
    (APEX_writeback s).1.insn_completed = s.insn_completed + occ s.writeback := by
  unfold APEX_writeback occ; dsimp only; split <;> simp

theorem APEX_memory_writeback_eq (s : APEX_CPU) :
    (APEX_memory s).writeback =
      if s.memory.has_insn then mem_latch s.memory s.data_memory else s.writeback := by
  unfold APEX_memory mem_latch; dsimp only; (repeat' split) <;> simp_all

theorem APEX_memory_data_memory_eq (s : APEX_CPU) :
    (APEX_memory s).data_memory =
      if s.memory.has_insn then mem_data s.memory s.data_memory else s.data_memory := by
  unfold APEX_memory mem_data; dsimp only; (repeat' split) <;> simp_all

theorem APEX_execute_memory_eq (s : APEX_CPU) :
    (APEX_execute s).memory =
      if s.execute.has_insn then ex_latch s.execute else s.memory := by
  by_cases h : s.execute.has_insn = true
  · cases ho : s.execute.opcode <;>
      simp [APEX_execute, execute_switch, execute_arith, execute_transfer, ex_latch, ex_result,
        h, ho] <;> split <;> rfl
  · simp [APEX_execute, h]

theorem APEX_execute_zero_flag_eq (s : APEX_CPU) :
    (APEX_execute s).zero_flag =
      if s.execute.has_insn then ex_zero s.execute s.zero_flag else s.zero_flag := by
  by_cases h : s.execute.has_insn = true
  · cases ho : s.execute.opcode <;>
      simp [APEX_execute, execute_switch, execute_arith, execute_transfer, ex_zero, ex_result,
        h, ho] <;> split <;> rfl
  · simp [APEX_execute, h]

theorem APEX_execute_positive_flag_eq (s : APEX_CPU) :
    (APEX_execute s).positive_flag =
      if s.execute.has_insn then ex_positive s.execute s.positive_flag
      else s.positive_flag := by
  by_cases h : s.execute.has_insn = true
  · cases ho : s.execute.opcode <;>
      simp [APEX_execute, execute_switch, execute_arith, execute_transfer, ex_positive,
        ex_result, h, ho] <;> split <;> rfl
  · simp [APEX_execute, h]

theorem APEX_decode_execute_eq (s : APEX_CPU) :
    (APEX_decode s).execute =
      if s.decode.has_insn then dec_latch s.decode s.regs else s.execute := by
  by_cases h : s.decode.has_insn = true
  · cases ho : s.decode.opcode <;> simp [APEX_decode, dec_latch, h, ho]
  · simp [APEX_decode, h]

/-! ### One tick, field by field -/

theorem hazard_check_regs (s : APEX_CPU) :
    (hazard_check s).1.regs =
      if s.writeback.has_insn then wb_regs s.writeback s.regs else s.regs := by
  simp [hazard_check, APEX_writeback_regs_eq]

theorem hazard_check_insn_completed (s : APEX_CPU) :
    (hazard_check s).1.insn_completed = s.insn_completed + occ s.writeback := by
  simp [hazard_check, APEX_writeback_insn_completed_eq]

theorem hazard_check_writeback_eq (s : APEX_CPU) (h : s.memory.has_insn = true) :
    (hazard_check s).1.writeback = mem_latch s.memory s.data_memory := by
  simp [hazard_check, APEX_memory_writeback_eq, h]

theorem hazard_check_data_memory (s : APEX_CPU) :
    (hazard_check s).1.data_memory =
      if s.memory.has_insn then mem_data s.memory s.data_memory else s.data_memory := by
  simp [hazard_check, APEX_memory_data_memory_eq]

theorem hazard_check_memory_eq (s : APEX_CPU) (h : s.execute.has_insn = true) :
    (hazard_check s).1.memory = ex_latch s.execute := by
  simp [hazard_check, APEX_execute_memory_eq, h]

theorem hazard_check_zero_flag (s : APEX_CPU) :
    (hazard_check s).1.zero_flag =
      if s.execute.has_insn then ex_zero s.execute s.zero_flag else s.zero_flag := by
  simp [hazard_check, APEX_execute_zero_flag_eq]

theorem hazard_check_positive_flag (s : APEX_CPU) :
    (hazard_check s).1.positive_flag =
      if s.execute.has_insn then ex_positive s.execute s.positive_flag
      else s.positive_flag := by
  simp [hazard_check, APEX_execute_positive_flag_eq]

theorem cycle_regs (s : APEX_CPU) :
    (APEX_cpu_cycle s).regs =
      if s.writeback.has_insn then wb_regs s.writeback s.regs else s.regs := by
  rw [← hazard_check_regs]
  unfold APEX_cpu_cycle APEX_cpu_tick; dsimp only; split <;> simp

theorem cycle_insn_completed (s : APEX_CPU) :
    (APEX_cpu_cycle s).insn_completed = s.insn_completed + occ s.writeback := by
  rw [← hazard_check_insn_completed]
  unfold APEX_cpu_cycle APEX_cpu_tick; dsimp only; split <;> simp

theorem cycle_data_memory (s : APEX_CPU) :
    (APEX_cpu_cycle s).data_memory =
      if s.memory.has_insn then mem_data s.memory s.data_memory else s.data_memory := by
  rw [← hazard_check_data_memory]
  unfold APEX_cpu_cycle APEX_cpu_tick; dsimp only; split <;> simp

theorem cycle_zero_flag (s : APEX_CPU) :
    (APEX_cpu_cycle s).zero_flag =
      if s.execute.has_insn then ex_zero s.execute s.zero_flag else s.zero_flag := by
  rw [← hazard_check_zero_flag]
  unfold APEX_cpu_cycle APEX_cpu_tick; dsimp only; split <;> simp

theorem cycle_positive_flag (s : APEX_CPU) :
    (APEX_cpu_cycle s).positive_flag =
      if s.execute.has_insn then ex_positive s.execute s.positive_flag
      else s.positive_flag := by
  rw [← hazard_check_positive_flag]
  unfold APEX_cpu_cycle APEX_cpu_tick; dsimp only; split <;> simp

theorem cycle_writeback_has_insn (s : APEX_CPU) :
    (APEX_cpu_cycle s).writeback.has_insn = s.memory.has_insn := by
  rw [cycle_writeback, hazard_check_writeback_has_insn]

theorem cycle_memory_has_insn (s : APEX_CPU) :
    (APEX_cpu_cycle s).memory.has_insn = s.execute.has_insn := by
  rw [cycle_memory, hazard_check_memory_has_insn]

theorem cycle_writeback_eq (s : APEX_CPU) (h : s.memory.has_insn = true) :
    (APEX_cpu_cycle s).writeback = mem_latch s.memory s.data_memory := by
  rw [cycle_writeback, hazard_check_writeback_eq s h]

theorem cycle_memory_eq (s : APEX_CPU) (h : s.execute.has_insn = true) :
    (APEX_cpu_cycle s).memory = ex_latch s.execute := by
  rw [cycle_memory, hazard_check_memory_eq s h]

theorem cycle_execute_eq (s : APEX_CPU) (ha : advances s) (hd : decode_checked s) :
    (APEX_cpu_cycle s).execute = dec_latch s.decode (APEX_cpu_cycle s).regs := by
  have hd' := hd
  rw [← hazard_check_decode_has_insn] at hd'
  have h1 : (hazard_check s).1.decode = s.decode := by
    rw [hazard_check_decode, hd.2]; rfl
  rw [cycle_regs, ← hazard_check_regs]
  unfold advances at ha
  unfold APEX_cpu_cycle APEX_cpu_tick; dsimp only
  simp only [ha, if_true, APEX_fetch_execute, APEX_decode_execute_eq, h1, hd.1]

theorem cycle_stop (s : APEX_CPU) :
    (APEX_cpu_tick s).2 = (s.writeback.has_insn && decide (s.writeback.opcode = Opcode.HALT)) := by
  unfold APEX_cpu_tick; dsimp only; rw [hazard_check_stop]

/-! ## The stall counter along a run -/

theorem decay_stall_range {x : Int} (h : x = 0 ∨ x = 1 ∨ x = 2) :
    decay_stall x = 0 ∨ decay_stall x = 1 := by
  rcases h with h | h | h <;> subst h <;> decide

theorem decay_stall_ne_zero {x : Int} (h : x = 0 ∨ x = 1 ∨ x = 2) (hn : decay_stall x ≠ 0) :
    x = 2 := by
  rcases h with h | h | h <;> subst h <;> first | rfl | exact absurd (by decide) hn

theorem srcs_ne_nil_of_dep_match {d : CPU_Stage} {x x1 : Int} (h : dep_match d x x1) :
    d.srcs ≠ [] := by
  obtain ⟨r, hr, _⟩ := h
  exact List.ne_nil_of_mem hr

theorem stall_inv_start (code : List APEX_Instruction) : StallInv (APEX_cpu_start code) where
  range := Or.inl rfl
  reader := fun h => absurd rfl h
  mem_none := fun h => by simp [APEX_cpu_start, APEX_cpu_init, CPU_Stage.zero] at h

theorem stall_inv_cycle {s : APEX_CPU} (hi : Inv s) (hs : StallInv s) :
    StallInv (APEX_cpu_cycle s) where
  range := by
    rw [cycle_stall_count, hazard_check_stall_count]
    rcases decay_stall_range hs.range with h | h <;> (repeat' split) <;> simp [h]
  reader := by
    intro hne
    rw [cycle_stall_count] at hne
    have hna : ¬ advances s := hne
    by_cases hd : decode_checked s
    · obtain ⟨hdec, -, -, hd1, -⟩ := stalled_cycle hd hna
      refine ⟨hd1.1, ?_⟩
      rw [hdec]
      rw [hazard_check_stall_count, if_pos hd] at hne
      by_cases h2 : dep_match s.decode (pending_ex s).1 (pending_ex s).2
      · exact srcs_ne_nil_of_dep_match h2
      · by_cases h1 : dep_match s.decode (pending_mem s).1 (pending_mem s).2
        · exact srcs_ne_nil_of_dep_match h1
        · rw [if_neg h2, if_neg h1] at hne
          have := decay_stall_ne_zero hs.range hne
          exact (hs.reader (by rw [this]; decide)).2
    · exfalso
      rw [hazard_check_stall_count, if_neg hd] at hne
      have h2 := decay_stall_ne_zero hs.range hne
      have hr := hs.reader (by rw [h2]; decide)
      have ht : ¬ taken s = false := fun ht => hd ⟨hr.1, ht⟩
      have ht' : taken s = true := by simpa using ht
      have := hi.stall_free (taken_has_insn ht')
      rw [h2] at this; exact absurd this (by decide)
  mem_none := by
    intro h
    rw [cycle_execute_has_insn] at h
    rw [cycle_mem_dest, cycle_mem_dest1, hazard_check_mem_dest, hazard_check_mem_dest1,
      if_pos h.2, if_pos h.2]
    exact ⟨rfl, rfl⟩

theorem stall_inv_of_reachable {code : List APEX_Instruction} {s : APEX_CPU}
    (h : Reachable code s) : StallInv s := by
  induction h with
  | start => exact stall_inv_start code
  | cycle s hr ih => exact stall_inv_cycle (inv_of_reachable hr) ih

theorem ticks_one (s : APEX_CPU) : ticks 1 s = APEX_cpu_cycle s := rfl

theorem ticks_add_one (n : Nat) (s : APEX_CPU) :
    ticks (n + 1) s = ticks n (APEX_cpu_cycle s) := by
  unfold ticks; rw [Function.iterate_succ_apply]

theorem reachable_ticks_of {code : List APEX_Instruction} {s : APEX_CPU}
    (h : Reachable code s) (n : Nat) : Reachable code (ticks n s) := by
  induction n with
  | zero => exact h
  | succ n ih => rw [ticks_succ]; exact Reachable.cycle _ ih

/-- An instruction in Decode that reads no register is never held: Decode and
Fetch advance in the tick. -/
theorem advances_of_no_srcs {code : List APEX_Instruction} {s : APEX_CPU}
    (hs : Reachable code s) (h0 : s.decode.srcs = []) : advances s := by
  have hsi := stall_inv_of_reachable hs
  have hz : s.stall_count = 0 := by
    by_contra hne
    exact (hsi.reader hne).2 h0
  have hnm : ∀ x x1, ¬ dep_match s.decode x x1 := by
    intro x x1 ⟨r, hr, _⟩
    rw [h0] at hr; exact absurd hr (List.not_mem_nil r)
  unfold advances
  rw [hazard_check_stall_count, hz]
  split
  · rw [if_neg (hnm _ _), if_neg (hnm _ _)]; rfl
  · rfl

/-! ## Unrecognised opcodes -/

theorem no_fetch_step {s : APEX_CPU} (hf : s.fetch.has_insn = false) (ht : taken s = false) :
    ¬ fetches s ∧ (APEX_cpu_cycle s).pc = s.pc ∧ (APEX_cpu_cycle s).fetch.has_insn = false := by
  have h1 : (hazard_check s).1.fetch.has_insn = false := by
    rw [hazard_check_fetch, ht]; exact hf
  have hnf : ¬ fetches s := fun h => by rw [h.2.1] at h1; exact absurd h1 (by decide)
  refine ⟨hnf, ?_, ?_⟩
  · rw [cycle_pc, if_neg hnf, hazard_check_pc, ht]; rfl
  · rw [cycle_fetch_has_insn, if_neg hnf, h1]

theorem taken_of_halt {s : APEX_CPU} (h : s.execute.has_insn = true → s.execute.opcode = Opcode.HALT) :
    taken s = false := by
  by_cases he : s.execute.has_insn = true
  · simp [taken, h he]
  · simp [taken, he]

/-- Once Fetch is disabled and Decode is empty, with nothing but possibly the
HALT in Execute, the same holds after the tick, and the tick fetches nothing. -/
theorem drained_step {s : APEX_CPU} (hf : s.fetch.has_insn = false)
    (hd : s.decode.has_insn = false)
    (he : s.execute.has_insn = true → s.execute.opcode = Opcode.HALT) :
    ¬ fetches s ∧ (APEX_cpu_cycle s).pc = s.pc ∧
    (APEX_cpu_cycle s).fetch.has_insn = false ∧ (APEX_cpu_cycle s).decode.has_insn = false ∧
    (APEX_cpu_cycle s).execute.has_insn = false := by
  have ht := taken_of_halt he
  obtain ⟨h1, h2, h3⟩ := no_fetch_step hf ht
  have hnd : ¬ decode_checked s := fun h => by
    have h1 := h.1
    rw [hd] at h1; exact absurd h1 (by decide)
  refine ⟨h1, h2, h3, ?_, ?_⟩
  · have : ¬ ((APEX_cpu_cycle s).decode.has_insn = true) := by
      rw [cycle_decode_has_insn]; rintro (h | h)
      · exact h1 h
      · exact hnd h.2
    simpa using this
  · have : ¬ ((APEX_cpu_cycle s).execute.has_insn = true) := by
      rw [cycle_execute_has_insn]; exact fun h => hnd h.2
    simpa using this

/-- C19 (no memory-address disambiguation): in a run of a program whose source
register indices are valid (non-negative), let a STORE be in Execute and the
LOAD that follows it immediately in Decode at the start of a tick, let the
LOAD's base register `rs1` be a destination of neither the instruction in
Execute nor the one in Memory, and let the two effective addresses be equal
(the STORE's `rs2_value + imm` and the LOAD's `regs[rs1] + imm`, read after
this tick's Writeback).  Then the hazard check of the tick leaves
`stall_count` at 0 and Decode and Fetch advance: in the next tick the STORE is
in Memory and the LOAD in Execute, and in the tick after that the LOAD is in
Memory with the very `memory_address` the STORE had there. -/
theorem no_address_disambiguation (code : List APEX_Instruction) (hv : srcs_nonneg code)
    (s : APEX_CPU) (hs : Reachable code s)
    (he : s.execute.has_insn = true) (hst : s.execute.opcode = Opcode.STORE)
    (hd : s.decode.has_insn = true) (hld : s.decode.opcode = Opcode.LOAD)
    (hr : s.decode.rs1 ∉ s.execute.dests ∧ s.decode.rs1 ∉ s.memory.dests)
    (haddr : wrap32 (s.execute.rs2_value + s.execute.imm) =
      wrap32 ((hazard_check s).1.regs s.decode.rs1 + s.decode.imm)) :
    (hazard_check s).1.stall_count = 0 ∧ advances s ∧
    ((ticks 1 s).memory.has_insn = true ∧ (ticks 1 s).memory.opcode = Opcode.STORE ∧
      (ticks 1 s).execute.has_insn = true ∧ (ticks 1 s).execute.opcode = Opcode.LOAD) ∧
    ((ticks 2 s).memory.has_insn = true ∧ (ticks 2 s).memory.opcode = Opcode.LOAD ∧
      (ticks 2 s).memory.memory_address = (ticks 1 s).memory.memory_address) := by
  have hi := inv_of_reachable hs
  have hsi := stall_inv_of_reachable hs
  have hv' := decode_srcs_nonneg hv hs
  have ht : taken s = false := by simp [taken, hst]
  have hdc : decode_checked s := ⟨hd, ht⟩
  have hsr : s.decode.srcs = [s.decode.rs1] := by simp [CPU_Stage.srcs, srcs_of, hld]
  have hex : s.ex_dest = -1 ∧ s.ex_dest1 = -1 := by
    rcases hi.ex_fresh with h | h
    · exact h
    · rw [h.1] at he; exact absurd he (by decide)
  have hmd := hsi.mem_none he
  have hpe : ¬ dep_match s.decode (pending_ex s).1 (pending_ex s).2 := by
    unfold pending_ex; rw [hex.1, hex.2]
    exact not_dep_match_captured hv' (by rw [hsr]; simpa using hr.1)
  have hpm : ¬ dep_match s.decode (pending_mem s).1 (pending_mem s).2 := by
    unfold pending_mem; rw [hmd.1, hmd.2]
    exact not_dep_match_captured hv' (by rw [hsr]; simpa using hr.2)
  have h0 : (hazard_check s).1.stall_count = 0 := by
    rw [hazard_check_stall_count, if_pos hdc, if_neg hpe, if_neg hpm, hi.stall_free he]; rfl
  have ha : advances s := h0
  have hm1 : (ticks 1 s).memory = ex_latch s.execute := by
    rw [ticks_one, cycle_memory_eq s he]
  have he1 : (ticks 1 s).execute = dec_latch s.decode (hazard_check s).1.regs := by
    rw [ticks_one, cycle_execute_eq s ha hdc, cycle_regs, hazard_check_regs]
  have he1i : (ticks 1 s).execute.has_insn = true := by rw [he1]; simp [dec_latch, hld, hd]
  have hm2 : (ticks 2 s).memory = ex_latch (ticks 1 s).execute := by
    rw [ticks_succ 1, cycle_memory_eq _ he1i]
  refine ⟨h0, ha, ⟨?_, ?_, he1i, ?_⟩, ?_, ?_, ?_⟩
  · rw [hm1]; simp [ex_latch, hst, he]
  · rw [hm1]; simp [ex_latch, hst]
  · rw [he1]; simp [dec_latch, hld]
  · rw [hm2, he1]; simp [ex_latch, dec_latch, hld, hd]
  · rw [hm2, he1]; simp [ex_latch, dec_latch, hld]
  · rw [hm2, he1, hm1]; simp [ex_latch, dec_latch, hld, hst, haddr]

/-- C19, witness: `MOVC R1,#42 ; MOVC R2,#8 ; NOP ; NOP ; STORE R1,R2,#0 ;
LOAD R3,R2,#0 ; HALT` at the start of tick 7: the STORE is in Execute, the
LOAD in Decode, both with effective address 8, and the tick does not stall. -/
theorem no_address_disambiguation_witness :
    srcs_nonneg store_load_program ∧
    Reachable store_load_program (ticks 6 (APEX_cpu_start store_load_program)) ∧
    ((ticks 6 (APEX_cpu_start store_load_program)).execute.has_insn = true ∧
      (ticks 6 (APEX_cpu_start store_load_program)).execute.opcode = Opcode.STORE ∧
      (ticks 6 (APEX_cpu_start store_load_program)).decode.has_insn = true ∧
      (ticks 6 (APEX_cpu_start store_load_program)).decode.opcode = Opcode.LOAD) ∧
    ((ticks 6 (APEX_cpu_start store_load_program)).decode.rs1 ∉
        (ticks 6 (APEX_cpu_start store_load_program)).execute.dests ∧
      (ticks 6 (APEX_cpu_start store_load_program)).decode.rs1 ∉
        (ticks 6 (APEX_cpu_start store_load_program)).memory.dests) ∧
    wrap32 ((ticks 6 (APEX_cpu_start store_load_program)).execute.rs2_value +
        (ticks 6 (APEX_cpu_start store_load_program)).execute.imm) = 8 ∧
    wrap32 ((hazard_check (ticks 6 (APEX_cpu_start store_load_program))).1.regs
        (ticks 6 (APEX_cpu_start store_load_program)).decode.rs1 +
        (ticks 6 (APEX_cpu_start store_load_program)).decode.imm) = 8 ∧
    (hazard_check (ticks 6 (APEX_cpu_start store_load_program))).1.stall_count = 0 :=
  ⟨by decide, reachable_ticks store_load_program 6, by decide, by decide, by decide, by decide,
    (no_address_disambiguation store_load_program (by decide)
      (ticks 6 (APEX_cpu_start store_load_program)) (reachable_ticks store_load_program 6)
      (by decide) (by decide) (by decide) (by decide) (by decide) (by decide)).1⟩

/-! ## Sequential execution and the stages -/

theorem insn_at_of_lt {code : List APEX_Instruction} {k : Nat} (h : k < code.length) :
    insn_at code k = code[k] := by
  unfold insn_at
  rw [List.getD_eq_getElem?_getD, List.getElem?_eq_getElem h]; rfl

theorem seq_upto_zero (code : List APEX_Instruction) : seq_upto code 0 = Arch.init := by
  simp [seq_upto]

theorem seq_upto_succ {code : List APEX_Instruction} {k : Nat} (h : k < code.length) :
    seq_upto code (k + 1) = seq_step (insn_at code k) (seq_upto code k) := by
  unfold seq_upto
  rw [List.take_succ, List.getElem?_eq_getElem h, List.foldl_append, insn_at_of_lt h]
  rfl

theorem seq_step_halt {i : APEX_Instruction} (h : i.opcode = Opcode.HALT) (a : Arch) :
    seq_step i a = a := by
  simp [seq_step, h]

theorem seq_run_eq_foldl (code : List APEX_Instruction) (H : Nat) (a : Arch)
    (hlt : H < code.length) (hh : (insn_at code H).opcode = Opcode.HALT)
    (hf : ∀ k < H, (insn_at code k).opcode ≠ Opcode.HALT) :
    seq_run code a = (code.take H).foldl (fun a i => seq_step i a) a := by
  induction code generalizing H a with
  | nil => simp at hlt
  | cons i rest ih =>
      cases H with
      | zero =>
          have : i.opcode = Opcode.HALT := by simpa [insn_at] using hh
          simp [seq_run, this]
      | succ H =>
          have h0 : i.opcode ≠ Opcode.HALT := by
            have := hf 0 (Nat.succ_pos H)
            simpa [insn_at] using this
          have hlt' : H < rest.length := by simpa using hlt
          have hh' : (insn_at rest H).opcode = Opcode.HALT := by
            simpa [insn_at] using hh
          have hf' : ∀ k < H, (insn_at rest k).opcode ≠ Opcode.HALT := by
            intro k hk
            have := hf (k + 1) (Nat.succ_lt_succ hk)
            simpa [insn_at] using this
          simp only [seq_run, h0, if_false, List.take_succ_cons, List.foldl_cons]
          exact ih H (seq_step i a) hlt' hh' hf'

theorem seq_run_eq_upto {code : List APEX_Instruction} {H : Nat} (h : StraightCode code H) :
    seq_run code Arch.init = seq_upto code H :=
  seq_run_eq_foldl code H Arch.init h.in_code h.halt h.first

/-- An instruction leaves every register that is not one of its destinations
as it is. -/
theorem seq_step_regs_of_not_dest (i : APEX_Instruction) (a : Arch) (r : Int)
    (h : r ∉ i.dests) : (seq_step i a).regs r = a.regs r := by
  cases ho : i.opcode <;>
    simp [APEX_Instruction.dests, dests_of, ho] at h <;>
    simp [seq_step, seq_arith, ho, arr_set, h]

/-- The four stages, applied one after the other to the latch of an
instruction, have the effect of the instruction on the architectural state. -/
theorem seq_step_eq_stages (i : APEX_Instruction) (pc : Int) (a : Arch) :
    (seq_step i a).regs =
      wb_regs (mem_latch (ex_latch (dec_latch (fetched_latch i pc) a.regs)) a.data_memory)
        a.regs ∧
    (seq_step i a).data_memory =
      mem_data (ex_latch (dec_latch (fetched_latch i pc) a.regs)) a.data_memory ∧
    (seq_step i a).zero_flag = ex_zero (dec_latch (fetched_latch i pc) a.regs) a.zero_flag ∧
    (seq_step i a).positive_flag =
      ex_positive (dec_latch (fetched_latch i pc) a.regs) a.positive_flag := by
  cases ho : i.opcode <;>
    simp [seq_step, seq_arith, wb_regs, mem_latch, mem_data, ex_latch, ex_zero, ex_positive,
      ex_result, dec_latch, fetched_latch, ho]

theorem dec_latch_congr (d : CPU_Stage) (regs regs' : Int → Int)
    (h : ∀ r ∈ d.srcs, regs r = regs' r) : dec_latch d regs = dec_latch d regs' := by
  cases ho : d.opcode <;> simp [CPU_Stage.srcs, srcs_of, ho] at h <;> simp [dec_latch, ho, h]

/-! ### The fields of an instruction along the stages -/

theorem dec_latch_insn (d : CPU_Stage) (regs : Int → Int) :
    (dec_latch d regs).opcode = d.opcode ∧ (dec_latch d regs).rd = d.rd ∧
    (dec_latch d regs).rs1 = d.rs1 ∧ (dec_latch d regs).rs2 = d.rs2 ∧
    (dec_latch d regs).has_insn = d.has_insn := by
  cases ho : d.opcode <;> simp [dec_latch, ho]

theorem ex_latch_insn (e : CPU_Stage) :
    (ex_latch e).opcode = e.opcode ∧ (ex_latch e).rd = e.rd ∧
    (ex_latch e).rs1 = e.rs1 ∧ (ex_latch e).rs2 = e.rs2 ∧
    (ex_latch e).has_insn = e.has_insn := by
  cases ho : e.opcode <;> simp [ex_latch, ho]

theorem mem_latch_insn (m : CPU_Stage) (dm : Int → Int) :
    (mem_latch m dm).opcode = m.opcode ∧ (mem_latch m dm).rd = m.rd ∧
    (mem_latch m dm).rs1 = m.rs1 ∧ (mem_latch m dm).rs2 = m.rs2 ∧
    (mem_latch m dm).has_insn = m.has_insn := by
  cases ho : m.opcode <;> simp [mem_latch, ho]

theorem decoded_opcode (code : List APEX_Instruction) (k : Nat) :
    (decoded code k).opcode = (insn_at code k).opcode := by
  unfold decoded; rw [(dec_latch_insn _ _).1]; rfl

theorem executed_opcode (code : List APEX_Instruction) (k : Nat) :
    (executed code k).opcode = (insn_at code k).opcode := by
  unfold executed; rw [(ex_latch_insn _).1, decoded_opcode]

theorem accessed_opcode (code : List APEX_Instruction) (k : Nat) :
    (accessed code k).opcode = (insn_at code k).opcode := by
  unfold accessed; rw [(mem_latch_insn _ _).1, executed_opcode]

theorem decoded_dests (code : List APEX_Instruction) (k : Nat) :
    (decoded code k).dests = (insn_at code k).dests := by
  unfold decoded CPU_Stage.dests APEX_Instruction.dests
  obtain ⟨h1, h2, h3, h4, h5⟩ := dec_latch_insn (fetched_latch (insn_at code k) (pc_of k))
    (seq_upto code k).regs
  rw [h1, h2, h3, h4, h5]; simp [fetched_latch]

theorem executed_dests (code : List APEX_Instruction) (k : Nat) :
    (executed code k).dests = (insn_at code k).dests := by
  rw [← decoded_dests]
  unfold executed CPU_Stage.dests
  obtain ⟨h1, h2, h3, h4, h5⟩ := ex_latch_insn (decoded code k)
  rw [h1, h2, h3, h4, h5]

theorem fetched_latch_srcs (i : APEX_Instruction) (pc : Int) :
    (fetched_latch i pc).srcs = i.srcs := rfl

/-! ### Fetching in a straight-line run -/

theorem load_fetch_latch_blank (s : APEX_CPU) (h : s.fetch.blank) :
    (load_fetch_latch s).blank := h

theorem APEX_fetch_fetch_blank (s : APEX_CPU) (h : s.fetch.blank) : (APEX_fetch s).fetch.blank := by
  unfold APEX_fetch; dsimp only
  (repeat' split) <;> exact h

theorem stall_fetch_fetch_blank (s : APEX_CPU) (h : s.fetch.blank) :
    (stall_fetch s).fetch.blank := by
  unfold stall_fetch; dsimp only
  split <;> exact h

theorem hazard_check_fetch_blank (s : APEX_CPU) (h : s.fetch.blank) :
    (hazard_check s).1.fetch.blank := by
  rw [hazard_check_fetch]; split <;> exact h

theorem cycle_fetch_blank (s : APEX_CPU) (h : s.fetch.blank) :
    (APEX_cpu_cycle s).fetch.blank := by
  have h1 := hazard_check_fetch_blank s h
  unfold APEX_cpu_cycle APEX_cpu_tick; dsimp only
  split
  · apply APEX_fetch_fetch_blank; rw [APEX_decode_fetch]; exact h1
  · exact stall_fetch_fetch_blank _ h1

theorem load_fetch_latch_eq (s : APEX_CPU) (hb : s.fetch.blank) (hf : s.fetch.has_insn = true) :
    load_fetch_latch s =
      fetched_latch (code_memory_at s.code_memory (get_code_memory_index_from_pc s.pc))
        s.pc := by
  obtain ⟨h1, h2, h3, h4, h5⟩ := hb
  unfold load_fetch_latch fetched_latch CPU_Stage.zero
  cases hfe : s.fetch
  rw [hfe] at h1 h2 h3 h4 h5 hf
  simp only at h1 h2 h3 h4 h5 hf
  simp [h1, h2, h3, h4, h5, hf]

theorem wrap32_of_range {x : Int} (h1 : -2147483648 ≤ x) (h2 : x ≤ 2147483647) :
    wrap32 x = x := by
  unfold wrap32; omega

theorem code_memory_at_pc_of (code : List APEX_Instruction) (k : Nat)
    (h : pc_of k ≤ 2147483647) :
    code_memory_at code (get_code_memory_index_from_pc (pc_of k)) = insn_at code k := by
  unfold pc_of at h
  have h1 : wrap32 (pc_of k - 4000) = 4 * (k : Int) := by
    unfold pc_of; rw [wrap32_of_range] <;> omega
  have h2 : get_code_memory_index_from_pc (pc_of k) = (k : Int) := by
    unfold get_code_memory_index_from_pc
    rw [h1, Int.mul_comm, Int.mul_tdiv_cancel _ (by decide)]
  rw [h2]
  unfold code_memory_at insn_at
  simp

theorem pc_of_succ (k : Nat) (h : pc_of (k + 1) ≤ 2147483647) :
    wrap32 (pc_of k + 4) = pc_of (k + 1) := by
  unfold pc_of at *
  rw [wrap32_of_range] <;> push_cast <;> omega

theorem pc_of_mono {j k : Nat} (h : j ≤ k) : pc_of j ≤ pc_of k := by
  unfold pc_of; omega

/-! ### The counters over one tick -/

theorem occ_eq_one {l : CPU_Stage} (h : l.has_insn = true) : occ l = 1 := by
  simp [occ, h]

theorem occ_eq_zero {l : CPU_Stage} (h : ¬ l.has_insn = true) : occ l = 0 := by
  simp [occ, h]

theorem occ_le_one (l : CPU_Stage) : occ l ≤ 1 := by
  unfold occ; split <;> omega

theorem occ_congr {a b : CPU_Stage} (h : a.has_insn = b.has_insn) : occ a = occ b := by
  unfold occ; rw [h]

theorem n_wb_cycle (s : APEX_CPU) (h : 0 ≤ s.insn_completed) :
    n_wb (APEX_cpu_cycle s) = n_mem s := by
  unfold n_mem n_wb
  rw [cycle_insn_completed]
  omega

theorem n_mem_cycle (s : APEX_CPU) (h : 0 ≤ s.insn_completed) :
    n_mem (APEX_cpu_cycle s) = n_ex s := by
  unfold n_mem
  rw [n_wb_cycle s h, occ_congr (cycle_writeback_has_insn s)]
  rfl

theorem n_ex_cycle (s : APEX_CPU) (h : 0 ≤ s.insn_completed) :
    n_ex (APEX_cpu_cycle s) = n_dec s := by
  unfold n_ex
  rw [n_mem_cycle s h, occ_congr (cycle_memory_has_insn s)]
  rfl

theorem cycle_completed (s : APEX_CPU) (h : 0 ≤ s.insn_completed) :
    0 ≤ (APEX_cpu_cycle s).insn_completed := by
  rw [cycle_insn_completed]; omega

/-! ### A straight-line run agrees with sequential execution -/

theorem agrees_start {code : List APEX_Instruction} {H : Nat} (_hp : StraightCode code H) :
    Agrees code H (APEX_cpu_start code) where
  code_eq := rfl
  completed := le_refl (0 : Int)
  d := fun h => by simp [APEX_cpu_start, APEX_cpu_init, CPU_Stage.zero] at h
  e := fun h => by simp [APEX_cpu_start, APEX_cpu_init, CPU_Stage.zero] at h
  m := fun h => by simp [APEX_cpu_start, APEX_cpu_init, CPU_Stage.zero] at h
  w := fun h => by simp [APEX_cpu_start, APEX_cpu_init, CPU_Stage.zero] at h
  regs := rfl
  data_memory := rfl
  zero_flag := rfl
  positive_flag := rfl
  pc := rfl
  bound := by
    simp [n_fetch, n_dec, n_ex, n_mem, n_wb, occ, APEX_cpu_start, APEX_cpu_init, CPU_Stage.zero]
  fetch_on := by
    simp [n_fetch, n_dec, n_ex, n_mem, n_wb, occ, APEX_cpu_start, APEX_cpu_init, CPU_Stage.zero]
  fetch_blank := by
    simp [CPU_Stage.blank, APEX_cpu_start, APEX_cpu_init, CPU_Stage.zero]
  no_skip := rfl

/-- In a state that agrees with a straight-line program no transfer is taken. -/
theorem agrees_not_taken {code : List APEX_Instruction} {H : Nat} {s : APEX_CPU}
    (hp : StraightCode code H) (ha : Agrees code H s) : taken s = false := by
  by_cases he : s.execute.has_insn = true
  · have hk : n_ex s ≤ H := by
      have := ha.bound
      have := occ_eq_one he
      unfold n_fetch n_dec at *
      omega
    have ho : s.execute.opcode = (insn_at code (n_ex s)).opcode := by
      rw [ha.e he, decoded_opcode]
    obtain ⟨h1, h2, h3, h4, h5⟩ := hp.no_transfer _ hk
    rw [← ho] at h1 h2 h3 h4 h5
    cases hop : s.execute.opcode <;> simp_all [taken]
  · exact taken_of_empty (by simpa using he)

/-- The architectural part of the agreement after one tick. -/
theorem agrees_cycle_arch {code : List APEX_Instruction} {H : Nat} {s : APEX_CPU}
    (hp : StraightCode code H) (ha : Agrees code H s) :
    (APEX_cpu_cycle s).regs = (seq_upto code (n_mem s)).regs ∧
    (APEX_cpu_cycle s).data_memory = (seq_upto code (n_ex s)).data_memory ∧
    (APEX_cpu_cycle s).zero_flag = (seq_upto code (n_dec s)).zero_flag ∧
    (APEX_cpu_cycle s).positive_flag = (seq_upto code (n_dec s)).positive_flag := by
  have hb := ha.bound
  have hlen := hp.in_code
  have hd1 := occ_le_one s.decode
  have he1 := occ_le_one s.execute
  have hm1 := occ_le_one s.memory
  refine ⟨?_, ?_, ?_, ?_⟩
  · rw [cycle_regs]
    by_cases hw : s.writeback.has_insn = true
    · have ho := occ_eq_one hw
      have hk : n_wb s < code.length := by unfold n_fetch n_dec n_ex n_mem at hb; omega
      have hn : n_mem s = n_wb s + 1 := by unfold n_mem; rw [ho]
      rw [if_pos hw, ha.w hw, ha.regs, hn, seq_upto_succ hk]
      exact (seq_step_eq_stages _ (pc_of (n_wb s)) _).1.symm
    · have hn : n_mem s = n_wb s := by unfold n_mem; rw [occ_eq_zero hw]; rfl
      rw [if_neg hw, ha.regs, hn]
  · rw [cycle_data_memory]
    by_cases hm : s.memory.has_insn = true
    · have ho := occ_eq_one hm
      have hk : n_mem s < code.length := by unfold n_fetch n_dec n_ex at hb; omega
      have hn : n_ex s = n_mem s + 1 := by unfold n_ex; rw [ho]
      rw [if_pos hm, ha.m hm, ha.data_memory, hn, seq_upto_succ hk]
      exact (seq_step_eq_stages _ (pc_of (n_mem s)) _).2.1.symm
    · have hn : n_ex s = n_mem s := by unfold n_ex; rw [occ_eq_zero hm]; rfl
      rw [if_neg hm, ha.data_memory, hn]
  · rw [cycle_zero_flag]
    by_cases he : s.execute.has_insn = true
    · have ho := occ_eq_one he
      have hk : n_ex s < code.length := by unfold n_fetch n_dec at hb; omega
      have hn : n_dec s = n_ex s + 1 := by unfold n_dec; rw [ho]
      rw [if_pos he, ha.e he, ha.zero_flag, hn, seq_upto_succ hk]
      exact (seq_step_eq_stages _ (pc_of (n_ex s)) _).2.2.1.symm
    · have hn : n_dec s = n_ex s := by unfold n_dec; rw [occ_eq_zero he]; rfl
      rw [if_neg he, ha.zero_flag, hn]
  · rw [cycle_positive_flag]
    by_cases he : s.execute.has_insn = true
    · have ho := occ_eq_one he
      have hk : n_ex s < code.length := by unfold n_fetch n_dec at hb; omega
      have hn : n_dec s = n_ex s + 1 := by unfold n_dec; rw [ho]
      rw [if_pos he, ha.e he, ha.positive_flag, hn, seq_upto_succ hk]
      exact (seq_step_eq_stages _ (pc_of (n_ex s)) _).2.2.2.symm
    · have hn : n_dec s = n_ex s := by unfold n_dec; rw [occ_eq_zero he]; rfl
      rw [if_neg he, ha.positive_flag, hn]

theorem not_advances_of_ex_dest {s : APEX_CPU} (hd : decode_checked s)
    (h : ∃ r ∈ s.decode.srcs, r ∈ s.execute.dests) : ¬ advances s := by
  intro ha
  unfold advances at ha
  have hm : dep_match s.decode (pending_ex s).1 (pending_ex s).2 := dep_match_of_dests h _ _
  rw [hazard_check_stall_count, if_pos hd, if_pos hm] at ha
  exact absurd ha (by decide)

theorem not_advances_of_mem_dest {s : APEX_CPU} (hd : decode_checked s)
    (h : ∃ r ∈ s.decode.srcs, r ∈ s.memory.dests) : ¬ advances s := by
  intro ha
  unfold advances at ha
  have hm : dep_match s.decode (pending_mem s).1 (pending_mem s).2 := dep_match_of_dests h _ _
  rw [hazard_check_stall_count, if_pos hd, if_pos hm] at ha
  split at ha <;> exact absurd ha (by decide)

/-- When Decode advances, the registers its instruction reads have, after this
tick's Writeback, the values sequential execution gives them just before the
instruction: the instructions still in Memory and Execute write none of
them. -/
theorem regs_agree_on_srcs {code : List APEX_Instruction} {H : Nat} {s : APEX_CPU}
    (hp : StraightCode code H) (ha : Agrees code H s) (hdc : decode_checked s)
    (hadv : advances s) :
    ∀ r ∈ s.decode.srcs,
      (seq_upto code (n_mem s)).regs r = (seq_upto code (n_dec s)).regs r := by
  intro r hr
  have hb := ha.bound
  have hlen := hp.in_code
  have hd1 := occ_eq_one hdc.1
  have he1 := occ_le_one s.execute
  have h1 : r ∉ s.execute.dests := fun hx => not_advances_of_ex_dest hdc ⟨r, hr, hx⟩ hadv
  have h2 : r ∉ s.memory.dests := fun hx => not_advances_of_mem_dest hdc ⟨r, hr, hx⟩ hadv
  have s1 : (seq_upto code (n_ex s)).regs r = (seq_upto code (n_mem s)).regs r := by
    by_cases hm : s.memory.has_insn = true
    · have ho := occ_eq_one hm
      have hk : n_mem s < code.length := by unfold n_fetch n_dec n_ex at hb; omega
      have hn : n_ex s = n_mem s + 1 := by unfold n_ex; rw [ho]
      rw [hn, seq_upto_succ hk]
      apply seq_step_regs_of_not_dest
      rw [← executed_dests, ← ha.m hm]; exact h2
    · have hn : n_ex s = n_mem s := by unfold n_ex; rw [occ_eq_zero hm]; rfl
      rw [hn]
  have s2 : (seq_upto code (n_dec s)).regs r = (seq_upto code (n_ex s)).regs r := by
    by_cases he : s.execute.has_insn = true
    · have ho := occ_eq_one he
      have hk : n_ex s < code.length := by unfold n_fetch n_dec at hb; omega
      have hn : n_dec s = n_ex s + 1 := by unfold n_dec; rw [ho]
      rw [hn, seq_upto_succ hk]
      apply seq_step_regs_of_not_dest
      rw [← decoded_dests, ← ha.e he]; exact h1
    · have hn : n_dec s = n_ex s := by unfold n_dec; rw [occ_eq_zero he]; rfl
      rw [hn]
  rw [s2, s1]

/-- What a tick in which Decode and Fetch do not advance does to the front of
the pipeline. -/
theorem agrees_front_stalled {code : List APEX_Instruction} {H : Nat} {s : APEX_CPU}
    (hp : StraightCode code H) (hr : Reachable code s) (ha : Agrees code H s)
    (hna : ¬ advances s) :
    (APEX_cpu_cycle s).execute.has_insn = false ∧
    (APEX_cpu_cycle s).decode = s.decode ∧ s.decode.has_insn = true ∧
    (APEX_cpu_cycle s).pc = s.pc ∧
    (APEX_cpu_cycle s).fetch.has_insn = s.fetch.has_insn := by
  have ht := agrees_not_taken hp ha
  have hsi := stall_inv_of_reachable hr
  have hd : s.decode.has_insn = true := by
    by_contra hd
    apply hna
    have hz : s.stall_count = 0 := by
      by_contra hne
      exact hd (hsi.reader hne).1
    unfold advances
    have hndc : ¬ decode_checked s := fun h => hd h.1
    rw [hazard_check_stall_count, if_neg hndc, hz]; rfl
  have hdc : decode_checked s := ⟨hd, ht⟩
  obtain ⟨h1, h2, h3, -⟩ := stalled_cycle hdc hna
  refine ⟨h3, h1, hd, h2, ?_⟩
  have hnf : ¬ fetches s := fun h => hna h.1
  rw [cycle_fetch_has_insn, if_neg hnf, hazard_check_fetch, ht]; rfl

/-- What a tick in which Decode and Fetch advance does to the front of the
pipeline. -/
theorem agrees_front_advancing {code : List APEX_Instruction} {H : Nat} {s : APEX_CPU}
    (hp : StraightCode code H) (ha : Agrees code H s) (hadv : advances s) :
    (APEX_cpu_cycle s).execute.has_insn = s.decode.has_insn ∧
    (s.decode.has_insn = true → (APEX_cpu_cycle s).execute = decoded code (n_dec s)) ∧
    (s.fetch.has_insn = true →
      fetches s ∧
      (APEX_cpu_cycle s).decode = fetched_latch (insn_at code (n_fetch s)) (pc_of (n_fetch s)) ∧
      (APEX_cpu_cycle s).pc = pc_of (n_fetch s + 1) ∧
      (APEX_cpu_cycle s).fetch.has_insn =
        decide ((insn_at code (n_fetch s)).opcode ≠ Opcode.HALT)) ∧
    (s.fetch.has_insn = false →
      ¬ fetches s ∧
      (APEX_cpu_cycle s).decode.has_insn = false ∧ (APEX_cpu_cycle s).pc = s.pc ∧
      (APEX_cpu_cycle s).fetch.has_insn = false) := by
  have ht := agrees_not_taken hp ha
  have hfe : (hazard_check s).1.fetch = s.fetch := by rw [hazard_check_fetch, ht]; rfl
  have hpc : (hazard_check s).1.pc = s.pc := by rw [hazard_check_pc, ht]; rfl
  have hsk : (hazard_check s).1.fetch_from_next_cycle = false := by
    rw [hazard_check_fetch_from_next_cycle, ht, ha.no_skip]; rfl
  refine ⟨?_, ?_, ?_, ?_⟩
  · by_cases hd : s.decode.has_insn = true
    · rw [hd, cycle_execute_has_insn]; exact ⟨hadv, hd, ht⟩
    · have : ¬ ((APEX_cpu_cycle s).execute.has_insn = true) := by
        rw [cycle_execute_has_insn]; exact fun h => hd h.2.1
      have hd' : s.decode.has_insn = false := by simpa using hd
      rw [hd']; simpa using this
  · intro hd
    have hdc : decode_checked s := ⟨hd, ht⟩
    rw [cycle_execute_eq s hadv hdc, (agrees_cycle_arch hp ha).1]
    unfold decoded
    rw [← ha.d hd]
    exact dec_latch_congr _ _ _ (regs_agree_on_srcs hp ha hdc hadv)
  · intro hf
    have hfon := ha.fetch_on
    rw [hf] at hfon
    have hle : n_fetch s ≤ H := by simpa using hfon.symm
    have hfits : pc_of (n_fetch s) ≤ 2147483647 :=
      le_trans (pc_of_mono (by omega)) hp.fits
    have hfits1 : pc_of (n_fetch s + 1) ≤ 2147483647 :=
      le_trans (pc_of_mono (by omega)) hp.fits
    have hfs : fetches s := ⟨hadv, by rw [hfe]; exact hf, hsk⟩
    have hl : load_fetch_latch (hazard_check s).1 =
        fetched_latch (insn_at code (n_fetch s)) (pc_of (n_fetch s)) := by
      rw [load_fetch_latch_eq _ (by rw [hfe]; exact ha.fetch_blank) (by rw [hfe]; exact hf),
        hazard_check_code_memory, hpc, ha.code_eq, ha.pc, code_memory_at_pc_of _ _ hfits]
    refine ⟨hfs, ?_, ?_, ?_⟩
    · rw [cycle_decode, if_pos hadv, if_pos hfs.2, hl]
    · rw [cycle_pc, if_pos hfs, hpc, ha.pc, pc_of_succ _ hfits1]
    · rw [cycle_fetch_has_insn, if_pos hfs, hl]; rfl
  · intro hf
    have hnf : ¬ fetches s := fun h => by
      have := h.2.1
      rw [hfe, hf] at this; exact absurd this (by decide)
    refine ⟨hnf, ?_, ?_, ?_⟩
    · have : ¬ ((APEX_cpu_cycle s).decode.has_insn = true) := by
        rw [cycle_decode_has_insn]; rintro (h | h)
        · exact hnf h
        · exact h.1 hadv
      simpa using this
    · rw [cycle_pc, if_neg hnf, hpc]
    · rw [cycle_fetch_has_insn, if_neg hnf, hfe, hf]

/-- The agreement with sequential execution is kept by every tick. -/
theorem agrees_cycle {code : List APEX_Instruction} {H : Nat} {s : APEX_CPU}
    (hp : StraightCode code H) (hr : Reachable code s) (ha : Agrees code H s) :
    Agrees code H (APEX_cpu_cycle s) := by
  have hc := ha.completed
  have hnw := n_wb_cycle s hc
  have hnm := n_mem_cycle s hc
  have hne := n_ex_cycle s hc
  obtain ⟨hregs, hdm, hzf, hpf⟩ := agrees_cycle_arch hp ha
  have hb := ha.bound
  have hm' : (APEX_cpu_cycle s).memory.has_insn = true →
      (APEX_cpu_cycle s).memory = executed code (n_mem (APEX_cpu_cycle s)) := by
    intro h
    rw [cycle_memory_has_insn] at h
    rw [hnm, cycle_memory_eq s h, ha.e h]; rfl
  have hw' : (APEX_cpu_cycle s).writeback.has_insn = true →
      (APEX_cpu_cycle s).writeback = accessed code (n_wb (APEX_cpu_cycle s)) := by
    intro h
    rw [cycle_writeback_has_insn] at h
    rw [hnw, cycle_writeback_eq s h, ha.m h, ha.data_memory]; rfl
  have hskip := (inv_cycle (inv_of_reachable hr)).no_skip
  by_cases hadv : advances s
  · obtain ⟨hx, hxe, hfon, hfoff⟩ := agrees_front_advancing hp ha hadv
    have hnd : n_dec (APEX_cpu_cycle s) = n_fetch s := by
      show n_ex (APEX_cpu_cycle s) + occ (APEX_cpu_cycle s).execute = n_dec s + occ s.decode
      rw [hne, occ_congr hx]
    have he' : (APEX_cpu_cycle s).execute.has_insn = true →
        (APEX_cpu_cycle s).execute = decoded code (n_ex (APEX_cpu_cycle s)) := by
      intro h
      rw [hx] at h
      rw [hne]; exact hxe h
    by_cases hf : s.fetch.has_insn = true
    · obtain ⟨-, hdec, hpc, hfh⟩ := hfon hf
      have hfo := ha.fetch_on
      rw [hf] at hfo
      have hle : n_fetch s ≤ H := by simpa using hfo.symm
      have hdi : (APEX_cpu_cycle s).decode.has_insn = true := by rw [hdec]; rfl
      have hnf : n_fetch (APEX_cpu_cycle s) = n_fetch s + 1 := by
        show n_dec (APEX_cpu_cycle s) + occ (APEX_cpu_cycle s).decode = n_fetch s + 1
        rw [hnd, occ_eq_one hdi]
      exact
        { code_eq := by rw [cycle_code_memory]; exact ha.code_eq
          completed := cycle_completed s hc
          d := fun _ => by rw [hnd]; exact hdec
          e := he'
          m := hm'
          w := hw'
          regs := by rw [hnw]; exact hregs
          data_memory := by rw [hnm]; exact hdm
          zero_flag := by rw [hne]; exact hzf
          positive_flag := by rw [hne]; exact hpf
          pc := by rw [hnf]; exact hpc
          bound := by rw [hnf]; omega
          fetch_on := by
            rw [hnf, hfh]
            by_cases hlt : n_fetch s < H
            · have h1 := hp.first _ hlt
              have h2 : n_fetch s + 1 ≤ H := hlt
              simp [h1, h2]
            · have heq : n_fetch s = H := by omega
              rw [heq, hp.halt]; simp
          fetch_blank := cycle_fetch_blank s ha.fetch_blank
          no_skip := hskip }
    · have hf' : s.fetch.has_insn = false := by simpa using hf
      obtain ⟨-, hdi, hpc, hfh⟩ := hfoff hf'
      have hnf : n_fetch (APEX_cpu_cycle s) = n_fetch s := by
        show n_dec (APEX_cpu_cycle s) + occ (APEX_cpu_cycle s).decode = n_fetch s
        rw [hnd, occ_eq_zero (by rw [hdi]; decide)]; rfl
      exact
        { code_eq := by rw [cycle_code_memory]; exact ha.code_eq
          completed := cycle_completed s hc
          d := fun h => by rw [hdi] at h; exact absurd h (by decide)
          e := he'
          m := hm'
          w := hw'
          regs := by rw [hnw]; exact hregs
          data_memory := by rw [hnm]; exact hdm
          zero_flag := by rw [hne]; exact hzf
          positive_flag := by rw [hne]; exact hpf
          pc := by rw [hnf, hpc]; exact ha.pc
          bound := by rw [hnf]; exact hb
          fetch_on := by rw [hnf, hfh, ← ha.fetch_on, hf']
          fetch_blank := cycle_fetch_blank s ha.fetch_blank
          no_skip := hskip }
  · obtain ⟨hx, hdec, hd, hpc, hfh⟩ := agrees_front_stalled hp hr ha hadv
    have hnd : n_dec (APEX_cpu_cycle s) = n_dec s := by
      show n_ex (APEX_cpu_cycle s) + occ (APEX_cpu_cycle s).execute = n_dec s
      rw [hne, occ_eq_zero (by rw [hx]; decide)]; rfl
    have hnf : n_fetch (APEX_cpu_cycle s) = n_fetch s := by
      show n_dec (APEX_cpu_cycle s) + occ (APEX_cpu_cycle s).decode = n_dec s + occ s.decode
      rw [hnd, hdec]
    exact
      { code_eq := by rw [cycle_code_memory]; exact ha.code_eq
        completed := cycle_completed s hc
        d := fun _ => by rw [hnd, hdec]; exact ha.d hd
        e := fun h => by rw [hx] at h; exact absurd h (by decide)
        m := hm'
        w := hw'
        regs := by rw [hnw]; exact hregs
        data_memory := by rw [hnm]; exact hdm
        zero_flag := by rw [hne]; exact hzf
        positive_flag := by rw [hne]; exact hpf
        pc := by rw [hnf, hpc]; exact ha.pc
        bound := by rw [hnf]; exact hb
        fetch_on := by rw [hnf, hfh]; exact ha.fetch_on
        fetch_blank := cycle_fetch_blank s ha.fetch_blank
        no_skip := hskip }

theorem agrees_ticks {code : List APEX_Instruction} {H : Nat} (hp : StraightCode code H)
    (n : Nat) : Agrees code H (ticks n (APEX_cpu_start code)) := by
  induction n with
  | zero => exact agrees_start hp
  | succ n ih => rw [ticks_succ]; exact agrees_cycle hp (reachable_ticks code n) ih

/-! ## A held instruction advances after at most two ticks -/

theorem stall_at_most_two {code : List APEX_Instruction} {s : APEX_CPU}
    (hr : Reachable code s) (hdc : decode_checked s) (hv : ∀ r ∈ s.decode.srcs, 0 ≤ r)
    (h0 : ¬ advances s) (h1 : ¬ advances (APEX_cpu_cycle s)) :
    advances (APEX_cpu_cycle (APEX_cpu_cycle s)) := by
  obtain ⟨hd1, -, he1, hdc1, -, hpe1, -, -, -⟩ := stalled_cycle hdc h0
  obtain ⟨hd2, -, -, hdc2, hm2, hpe2, hmd2, hmd21, hst2⟩ := stalled_cycle hdc1 h1
  have hsi1 := stall_inv_of_reachable (Reachable.cycle s hr)
  have hv1 : ∀ r ∈ (APEX_cpu_cycle s).decode.srcs, 0 ≤ r := by rw [hd1]; exact hv
  have hv2 : ∀ r ∈ (APEX_cpu_cycle (APEX_cpu_cycle s)).decode.srcs, 0 ≤ r := by
    rw [hd2]; exact hv1
  -- the stall counter is 1 after the second stalled tick
  have hs1 : (hazard_check (APEX_cpu_cycle s)).1.stall_count = 1 := by
    have hne : (hazard_check (APEX_cpu_cycle s)).1.stall_count ≠ 0 := h1
    rw [hazard_check_stall_count, if_pos hdc1, hpe1, if_neg (not_dep_match_none hv1)] at hne ⊢
    split
    · rfl
    · rename_i hnm
      rw [if_neg hnm] at hne
      rcases decay_stall_range hsi1.range with h | h
      · exact absurd h hne
      · exact h
  have hmem : (APEX_cpu_cycle (APEX_cpu_cycle s)).memory.has_insn = false := by
    rw [hm2]; exact he1
  have hpm2 : pending_mem (APEX_cpu_cycle (APEX_cpu_cycle s)) = (-1, -1) := by
    unfold pending_mem
    rw [hmd2, hmd21]; exact captured_of_empty hmem _ _
  unfold advances
  rw [hazard_check_stall_count, if_pos hdc2, hpe2, hpm2, if_neg (not_dep_match_none hv2),
    if_neg (not_dep_match_none hv2), hst2, hs1]
  rfl

theorem StraightLine.straight {code : List APEX_Instruction} {H : Nat}
    (h : StraightLine code H) : StraightCode code H :=
  { in_code := h.in_code, halt := h.halt, first := h.first, no_transfer := h.no_transfer,
    fits := h.fits }

theorem n_dec_cycle_stalled {code : List APEX_Instruction} {H : Nat} {s : APEX_CPU}
    (hp : StraightCode code H) (hr : Reachable code s) (ha : Agrees code H s)
    (hna : ¬ advances s) :
    n_dec (APEX_cpu_cycle s) = n_dec s ∧ (APEX_cpu_cycle s).decode.has_insn = true := by
  obtain ⟨hx, hdec, hd, -, -⟩ := agrees_front_stalled hp hr ha hna
  refine ⟨?_, by rw [hdec]; exact hd⟩
  show n_ex (APEX_cpu_cycle s) + occ (APEX_cpu_cycle s).execute = n_dec s
  rw [n_ex_cycle s ha.completed, occ_eq_zero (by rw [hx]; decide)]; rfl

theorem n_dec_cycle_advancing {code : List APEX_Instruction} {H : Nat} {s : APEX_CPU}
    (hp : StraightCode code H) (ha : Agrees code H s) (hadv : advances s) :
    n_dec (APEX_cpu_cycle s) = n_fetch s := by
  obtain ⟨hx, -⟩ := agrees_front_advancing hp ha hadv
  show n_ex (APEX_cpu_cycle s) + occ (APEX_cpu_cycle s).execute = n_dec s + occ s.decode
  rw [n_ex_cycle s ha.completed, occ_congr hx]

theorem agrees_decode_srcs {code : List APEX_Instruction} {H : Nat} {s : APEX_CPU}
    (hp : StraightLine code H) (ha : Agrees code H s) (hd : s.decode.has_insn = true) :
    ∀ r ∈ s.decode.srcs, 0 ≤ r := by
  have hk : n_dec s ≤ H := by
    have := ha.bound
    have := occ_eq_one hd
    unfold n_fetch at *
    omega
  rw [ha.d hd, fetched_latch_srcs]
  exact hp.srcs _ hk

/-- In a straight-line run an instruction in Decode advances in this tick or
one of the next two; until then it stays in Decode. -/
theorem advance_within {code : List APEX_Instruction} {H : Nat} (hp : StraightLine code H)
    (t : Nat) (hd : (ticks t (APEX_cpu_start code)).decode.has_insn = true) :
    ∃ j, j ≤ 2 ∧ advances (ticks (t + j) (APEX_cpu_start code)) ∧
      (ticks (t + j) (APEX_cpu_start code)).decode.has_insn = true ∧
      n_dec (ticks (t + j) (APEX_cpu_start code)) = n_dec (ticks t (APEX_cpu_start code)) := by
  have hr0 := reachable_ticks code t
  have ha0 := agrees_ticks hp.straight t
  by_cases h0 : advances (ticks t (APEX_cpu_start code))
  · exact ⟨0, by omega, h0, hd, rfl⟩
  · obtain ⟨hn1, hd1⟩ := n_dec_cycle_stalled hp.straight hr0 ha0 h0
    rw [← ticks_succ] at hn1 hd1
    have hr1 := reachable_ticks code (t + 1)
    have ha1 := agrees_ticks hp.straight (t + 1)
    by_cases h1 : advances (ticks (t + 1) (APEX_cpu_start code))
    · exact ⟨1, by omega, h1, hd1, hn1⟩
    · obtain ⟨hn2, hd2⟩ := n_dec_cycle_stalled hp.straight hr1 ha1 h1
      rw [← ticks_succ] at hn2 hd2
      refine ⟨2, le_refl 2, ?_, hd2, hn2.trans hn1⟩
      have hdc : decode_checked (ticks t (APEX_cpu_start code)) :=
        ⟨hd, agrees_not_taken hp.straight ha0⟩
      have := stall_at_most_two hr0 hdc (agrees_decode_srcs hp ha0 hd) h0
        (by rw [← ticks_succ]; exact h1)
      rw [← ticks_succ, ← ticks_succ] at this
      exact this

/-! ## The run reaches the HALT -/

theorem advances_start (code : List APEX_Instruction) : advances (APEX_cpu_start code) := by
  unfold advances
  have hnd : ¬ decode_checked (APEX_cpu_start code) := fun h => by
    have := h.1
    simp [APEX_cpu_start, APEX_cpu_init, CPU_Stage.zero] at this
  rw [hazard_check_stall_count, if_neg hnd]; rfl

/-- Every instruction up to the first HALT gets into Decode. -/
theorem reaches_decode {code : List APEX_Instruction} {H : Nat} (hp : StraightLine code H)
    (k : Nat) (hk : k ≤ H) :
    ∃ t, (ticks t (APEX_cpu_start code)).decode.has_insn = true ∧
      n_dec (ticks t (APEX_cpu_start code)) = k := by
  induction k with
  | zero =>
      have ha := agrees_start hp.straight
      have hadv := advances_start code
      obtain ⟨-, -, hfon, -⟩ := agrees_front_advancing hp.straight ha hadv
      obtain ⟨-, hdec, -, -⟩ := hfon rfl
      refine ⟨1, ?_, ?_⟩
      · rw [ticks_one, hdec]; rfl
      · rw [ticks_one, n_dec_cycle_advancing hp.straight ha hadv]
        simp [n_fetch, n_dec, n_ex, n_mem, n_wb, occ, APEX_cpu_start, APEX_cpu_init,
          CPU_Stage.zero]
  | succ k ih =>
      obtain ⟨t, hd, hn⟩ := ih (by omega)
      obtain ⟨j, -, hadv, hdj, hnj⟩ := advance_within hp t hd
      have ha := agrees_ticks hp.straight (t + j)
      have hnf : n_fetch (ticks (t + j) (APEX_cpu_start code)) = k + 1 := by
        show n_dec _ + occ _ = _
        rw [hnj, hn, occ_eq_one hdj]
      have hf : (ticks (t + j) (APEX_cpu_start code)).fetch.has_insn = true := by
        rw [ha.fetch_on, hnf]; exact decide_eq_true hk
      obtain ⟨-, -, hfon, -⟩ := agrees_front_advancing hp.straight ha hadv
      obtain ⟨-, hdec, -, -⟩ := hfon hf
      refine ⟨t + j + 1, ?_, ?_⟩
      · rw [ticks_succ, hdec]; rfl
      · rw [ticks_succ, n_dec_cycle_advancing hp.straight ha hadv, hnf]

/-- The HALT gets into Writeback. -/
theorem halt_reaches_writeback {code : List APEX_Instruction} {H : Nat}
    (hp : StraightLine code H) :
    ∃ T, (ticks T (APEX_cpu_start code)).writeback.has_insn = true ∧
      n_wb (ticks T (APEX_cpu_start code)) = H := by
  obtain ⟨t, hd, hn⟩ := reaches_decode hp H (le_refl H)
  obtain ⟨j, -, hadv, hdj, hnj⟩ := advance_within hp t hd
  have ha := agrees_ticks hp.straight (t + j)
  obtain ⟨hx, -⟩ := agrees_front_advancing hp.straight ha hadv
  have he1 : (ticks (t + j + 1) (APEX_cpu_start code)).execute.has_insn = true := by
    rw [ticks_succ, hx]; exact hdj
  have hn1 : n_ex (ticks (t + j + 1) (APEX_cpu_start code)) = H := by
    rw [ticks_succ, n_ex_cycle _ ha.completed, hnj, hn]
  have hm2 : (ticks (t + j + 1 + 1) (APEX_cpu_start code)).memory.has_insn = true := by
    rw [ticks_succ, cycle_memory_has_insn]; exact he1
  have hn2 : n_mem (ticks (t + j + 1 + 1) (APEX_cpu_start code)) = H := by
    rw [ticks_succ, n_mem_cycle _ (agrees_ticks hp.straight (t + j + 1)).completed]; exact hn1
  have hw3 : (ticks (t + j + 1 + 1 + 1) (APEX_cpu_start code)).writeback.has_insn = true := by
    rw [ticks_succ, cycle_writeback_has_insn]; exact hm2
  have hn3 : n_wb (ticks (t + j + 1 + 1 + 1) (APEX_cpu_start code)) = H := by
    rw [ticks_succ, n_wb_cycle _ (agrees_ticks hp.straight (t + j + 1 + 1)).completed]; exact hn2
  exact ⟨_, hw3, hn3⟩

/-- The tick that starts with the HALT in Writeback signals the end of the
run, and no other tick does. -/
theorem stop_iff_halt {code : List APEX_Instruction} {H : Nat} (hp : StraightCode code H)
    (T : Nat) :
    (APEX_cpu_tick (ticks T (APEX_cpu_start code))).2 = true ↔
      ((ticks T (APEX_cpu_start code)).writeback.has_insn = true ∧
        n_wb (ticks T (APEX_cpu_start code)) = H) := by
  have ha := agrees_ticks hp T
  have hb := ha.bound
  rw [cycle_stop]
  constructor
  · intro h
    simp only [Bool.and_eq_true, decide_eq_true_eq] at h
    refine ⟨h.1, ?_⟩
    have ho : (insn_at code (n_wb (ticks T (APEX_cpu_start code)))).opcode = Opcode.HALT := by
      rw [← accessed_opcode, ← ha.w h.1]; exact h.2
    have h1 : ¬ n_wb (ticks T (APEX_cpu_start code)) < H := fun hlt => hp.first _ hlt ho
    have := occ_eq_one h.1
    unfold n_fetch n_dec n_ex n_mem at hb
    omega
  · rintro ⟨hw, hn⟩
    have ho : (ticks T (APEX_cpu_start code)).writeback.opcode = Opcode.HALT := by
      rw [ha.w hw, accessed_opcode, hn]; exact hp.halt
    simp [hw, ho]

/-! ## The loop of `APEX_cpu_run` and the ticks -/

theorem run_loop_ticks (T : Nat) (s : APEX_CPU)
    (h : ∀ i < T, (APEX_cpu_tick (ticks i s)).2 = false)
    (hT : (APEX_cpu_tick (ticks T s)).2 = true) :
    run_loop none (T + 1) s = some (APEX_cpu_tick (ticks T s)).1 := by
  induction T generalizing s with
  | zero =>
      have : (APEX_cpu_tick s).2 = true := hT
      simp [run_loop, this, ticks]
  | succ T ih =>
      have h0 : (APEX_cpu_tick s).2 = false := h 0 (Nat.succ_pos T)
      have hstep : run_loop none (T + 1 + 1) s = run_loop none (T + 1) (APEX_cpu_cycle s) := by
        simp [run_loop, h0, APEX_cpu_cycle]
      rw [hstep, ticks_add_one]
      apply ih
      · intro i hi
        rw [← ticks_add_one]; exact h (i + 1) (Nat.succ_lt_succ hi)
      · rw [← ticks_add_one]; exact hT

theorem arch_ext {a b : Arch} (h1 : a.regs = b.regs) (h2 : a.data_memory = b.data_memory)
    (h3 : a.zero_flag = b.zero_flag) (h4 : a.positive_flag = b.positive_flag) : a = b := by
  cases a; cases b; simp_all

/-- In a straight-line run the state in which the HALT has retired holds the
result of sequential execution. -/
theorem final_arch {code : List APEX_Instruction} {H : Nat} (hp : StraightCode code H)
    (T : Nat) (hT : (APEX_cpu_tick (ticks T (APEX_cpu_start code))).2 = true) :
    (APEX_cpu_tick (ticks T (APEX_cpu_start code))).1.arch = seq_run code Arch.init := by
  have ha := agrees_ticks hp T
  have hb := ha.bound
  obtain ⟨hw, hn⟩ := (stop_iff_halt hp T).1 hT
  obtain ⟨h1, h2, h3, h4⟩ := agrees_cycle_arch hp ha
  have ho := occ_eq_one hw
  have hm1 := occ_le_one (ticks T (APEX_cpu_start code)).memory
  have he1 := occ_le_one (ticks T (APEX_cpu_start code)).execute
  have hnm : n_mem (ticks T (APEX_cpu_start code)) = H + 1 := by unfold n_mem; omega
  have hne : n_ex (ticks T (APEX_cpu_start code)) = H + 1 := by
    unfold n_fetch n_dec at hb
    unfold n_ex at hb ⊢; omega
  have hnd : n_dec (ticks T (APEX_cpu_start code)) = H + 1 := by
    unfold n_fetch at hb
    unfold n_dec n_ex at hb ⊢; omega
  have hfin : seq_upto code (H + 1) = seq_upto code H := by
    rw [seq_upto_succ hp.in_code, seq_step_halt hp.halt]
  rw [hnm, hfin] at h1
  rw [hne, hfin] at h2
  rw [hnd, hfin] at h3 h4
  rw [seq_run_eq_upto hp]
  exact arch_ext h1 h2 h3 h4

theorem straight_line_of (code : List APEX_Instruction) (hb : branch_free code = true)
    (hh : ∃ i ∈ code, i.opcode = Opcode.HALT) (hv : srcs_nonneg code)
    (hfit : pc_of code.length ≤ 2147483647) : ∃ H, StraightLine code H := by
  have hex : ∃ k, k < code.length ∧ (insn_at code k).opcode = Opcode.HALT := by
    obtain ⟨i, hi, ho⟩ := hh
    obtain ⟨n, hn, rfl⟩ := List.getElem_of_mem hi
    exact ⟨n, hn, by rw [insn_at_of_lt hn]; exact ho⟩
  obtain ⟨hlt, hhalt⟩ := Nat.find_spec hex
  have hmem : ∀ k ≤ Nat.find hex, insn_at code k ∈ code := by
    intro k hk
    have hk' : k < code.length := by omega
    rw [insn_at_of_lt hk']; exact List.getElem_mem hk'
  refine ⟨Nat.find hex, ?_⟩
  exact
    { in_code := hlt
      halt := hhalt
      first := fun k hk ho => Nat.find_min hex hk ⟨by omega, ho⟩
      no_transfer := by
        intro k hk
        unfold branch_free at hb
        rw [List.all_eq_true] at hb
        have := hb _ (hmem k hk)
        simp only [Bool.not_eq_true', Bool.or_eq_false_iff, decide_eq_false_iff_not] at this
        exact ⟨this.1.1.1.1, this.1.1.1.2, this.1.1.2, this.1.2, this.2⟩
      srcs := fun k hk => hv _ (hmem k hk)
      fits := le_trans (pc_of_mono hlt) hfit }

/-! ## The hazard bookkeeping along a run -/

theorem hazard_check_eq_checks (s : APEX_CPU) :
    (hazard_check s).1 = check_ex_dependency (check_mem_dependency (before_checks s)) := rfl

theorem before_checks_stall_count (s : APEX_CPU) :
    (before_checks s).stall_count = decay_stall s.stall_count := by
  simp [before_checks]

/-- C21, the claim as stated fails on the code.  (1) `ADD R1,R0,R0 ; HALT`: at
the start of tick 2 the ADD is in Decode, Execute and Memory are empty, so no
instruction departs them and none of the ADD's sources is a destination there;
but the pending destinations are still the 0 that `calloc` wrote, source
register 0 matches, and the hazard check leaves `stall_count` at 2; in tick 3
it is 1, and Decode and Fetch advance only in tick 4.  (2)
`MOVC R1,#5 ; BNZ #8 ; NOP ; ADD R2,R1,R1 ; HALT`: at the start of tick 6 the
ADD (the branch target) is in Decode, Execute and Memory are empty, but
`mem_dest` still holds the 1 captured from the MOVC in tick 4, when the check
found Decode flushed and did not reset it; the hazard check leaves
`stall_count` at 1. -/
theorem stall_without_match :
    (Reachable reads_r0 (ticks 1 (APEX_cpu_start reads_r0)) ∧
      decode_checked (ticks 1 (APEX_cpu_start reads_r0)) ∧
      (ticks 1 (APEX_cpu_start reads_r0)).execute.has_insn = false ∧
      (ticks 1 (APEX_cpu_start reads_r0)).memory.has_insn = false ∧
      (∀ r ∈ (ticks 1 (APEX_cpu_start reads_r0)).decode.srcs,
        r ∉ (ticks 1 (APEX_cpu_start reads_r0)).memory.dests ∧
        r ∉ (ticks 1 (APEX_cpu_start reads_r0)).execute.dests) ∧
      (hazard_check (ticks 1 (APEX_cpu_start reads_r0))).1.stall_count = 2 ∧
      ¬ advances (ticks 1 (APEX_cpu_start reads_r0)) ∧
      (hazard_check (ticks 2 (APEX_cpu_start reads_r0))).1.stall_count = 1 ∧
      advances (ticks 3 (APEX_cpu_start reads_r0))) ∧
    (Reachable stale_program (ticks 5 (APEX_cpu_start stale_program)) ∧
      decode_checked (ticks 5 (APEX_cpu_start stale_program)) ∧
      (ticks 5 (APEX_cpu_start stale_program)).decode.opcode = Opcode.ADD ∧
      (ticks 5 (APEX_cpu_start stale_program)).execute.has_insn = false ∧
      (ticks 5 (APEX_cpu_start stale_program)).memory.has_insn = false ∧
      (∀ r ∈ (ticks 5 (APEX_cpu_start stale_program)).decode.srcs,
        r ∉ (ticks 5 (APEX_cpu_start stale_program)).memory.dests ∧
        r ∉ (ticks 5 (APEX_cpu_start stale_program)).execute.dests) ∧
      (ticks 5 (APEX_cpu_start stale_program)).mem_dest = 1 ∧
      (hazard_check (ticks 5 (APEX_cpu_start stale_program))).1.stall_count = 1 ∧
      ¬ advances (ticks 5 (APEX_cpu_start stale_program))) :=
  ⟨⟨reachable_ticks reads_r0 1, by decide, by decide, by decide, by decide, by decide,
      by decide, by decide, by decide⟩,
    ⟨reachable_ticks stale_program 5, by decide, by decide, by decide, by decide, by decide,
      by decide, by decide, by decide⟩⟩

/-- C22, the claim as stated fails on the code.  In tick 1 of every run Decode
is empty at the hazard check, the two checks do not reach their reset, and the
four pending destinations keep the 0 that `calloc` wrote.  On
`MOVC R1,#5 ; BNZ #8 ; NOP ; ADD R2,R1,R1 ; HALT` the BNZ is taken in tick 4:
`get_mem_dest` captures 1 from the MOVC, the check finds Decode flushed, and
`mem_dest` is 1 (not -1) at the end of the hazard checks of ticks 4 and 5; in
tick 6, with Memory empty, this value captured two ticks earlier is compared
against the ADD in Decode and sets `stall_count` to 1. -/
theorem pending_not_reset :
    (∀ code : List APEX_Instruction,
      (hazard_check (APEX_cpu_start code)).1.mem_dest = 0 ∧
      (hazard_check (APEX_cpu_start code)).1.mem_dest1 = 0 ∧
      (hazard_check (APEX_cpu_start code)).1.ex_dest = 0 ∧
      (hazard_check (APEX_cpu_start code)).1.ex_dest1 = 0) ∧
    (taken (ticks 3 (APEX_cpu_start stale_program)) = true ∧
      (ticks 3 (APEX_cpu_start stale_program)).mem_dest = -1 ∧
      (ticks 3 (APEX_cpu_start stale_program)).memory.opcode = Opcode.MOVC ∧
      (ticks 3 (APEX_cpu_start stale_program)).memory.rd = 1 ∧
      (hazard_check (ticks 3 (APEX_cpu_start stale_program))).1.mem_dest = 1 ∧
      (hazard_check (ticks 4 (APEX_cpu_start stale_program))).1.mem_dest = 1) ∧
    ((ticks 5 (APEX_cpu_start stale_program)).memory.has_insn = false ∧
      (before_checks (ticks 5 (APEX_cpu_start stale_program))).mem_dest = 1 ∧
      dep_match (before_checks (ticks 5 (APEX_cpu_start stale_program))).decode
        (before_checks (ticks 5 (APEX_cpu_start stale_program))).mem_dest
        (before_checks (ticks 5 (APEX_cpu_start stale_program))).mem_dest1 ∧
      (hazard_check (ticks 5 (APEX_cpu_start stale_program))).1.stall_count = 1) :=
  ⟨fun _ => ⟨rfl, rfl, rfl, rfl⟩, by decide, by decide⟩

/-- C23 (last-checked wins): on every state on which the two dependency checks
run with Decode occupied, if a source register of the instruction in Decode
equals one of the two captured Memory destinations and a source register of it
equals one of the two captured Execute destinations, then
`check_mem_dependency` sets `stall_count` to 1 and `check_ex_dependency`, which
runs after it, overwrites that with 2. -/
theorem last_checked_wins (c : APEX_CPU) (hd : c.decode.has_insn = true)
    (hm : dep_match c.decode c.mem_dest c.mem_dest1)
    (he : dep_match c.decode c.ex_dest c.ex_dest1) :
    (check_mem_dependency c).stall_count = 1 ∧
    (check_ex_dependency (check_mem_dependency c)).stall_count = 2 := by
  refine ⟨?_, ?_⟩
  · rw [check_mem_dependency_stall_count, if_pos ⟨hd, hm⟩]
  · rw [check_ex_dependency_stall_count, check_mem_dependency_decode,
      check_mem_dependency_ex_dest, check_mem_dependency_ex_dest1, if_pos ⟨hd, he⟩]

/-- C23, witness: `MOVC R1,#1 ; MOVC R2,#2 ; ADD R3,R1,R2 ; HALT` in tick 4:
the ADD in Decode reads `R1`, captured from the MOVC in Memory, and `R2`,
captured from the MOVC in Execute; the hazard check of the tick leaves
`stall_count` at 2. -/
theorem last_checked_wins_witness :
    (before_checks (ticks 3 (APEX_cpu_start both_match_program))).decode.has_insn = true ∧
    (before_checks (ticks 3 (APEX_cpu_start both_match_program))).mem_dest = 1 ∧
    (before_checks (ticks 3 (APEX_cpu_start both_match_program))).ex_dest = 2 ∧
    dep_match (before_checks (ticks 3 (APEX_cpu_start both_match_program))).decode
      (before_checks (ticks 3 (APEX_cpu_start both_match_program))).mem_dest
      (before_checks (ticks 3 (APEX_cpu_start both_match_program))).mem_dest1 ∧
    dep_match (before_checks (ticks 3 (APEX_cpu_start both_match_program))).decode
      (before_checks (ticks 3 (APEX_cpu_start both_match_program))).ex_dest
      (before_checks (ticks 3 (APEX_cpu_start both_match_program))).ex_dest1 ∧
    (hazard_check (ticks 3 (APEX_cpu_start both_match_program))).1.stall_count = 2 :=
  ⟨by decide, by decide, by decide, by decide, by decide,
    (last_checked_wins (before_checks (ticks 3 (APEX_cpu_start both_match_program)))
      (by decide) (by decide) (by decide)).2⟩

/-! ## The stall counter -/

theorem check_mem_dependency_stall_le (c : APEX_CPU) (h : c.stall_count ≤ 1) :
    c.stall_count ≤ (check_mem_dependency c).stall_count := by
  rw [check_mem_dependency_stall_count]; split
  · exact h
  · exact le_refl _

theorem check_ex_dependency_stall_le (c : APEX_CPU) (h : c.stall_count ≤ 2) :
    c.stall_count ≤ (check_ex_dependency c).stall_count := by
  rw [check_ex_dependency_stall_count]; split
  · exact h
  · exact le_refl _

/-- In a run, Decode and Fetch are held only for an instruction that is in
Decode at the hazard check. -/
theorem decode_checked_of_stalled {code : List APEX_Instruction} {s : APEX_CPU}
    (hs : Reachable code s) (hna : ¬ advances s) : decode_checked s := by
  by_contra hd
  have hi := inv_of_reachable hs
  have hsi := stall_inv_of_reachable hs
  have hne : (hazard_check s).1.stall_count ≠ 0 := hna
  rw [hazard_check_stall_count, if_neg hd] at hne
  have h2 := decay_stall_ne_zero hsi.range hne
  have hr := hsi.reader (by rw [h2]; decide)
  have ht : ¬ taken s = false := fun ht => hd ⟨hr.1, ht⟩
  have ht' : taken s = true := by simpa using ht
  have := hi.stall_free (taken_has_insn ht')
  rw [h2] at this; exact absurd this (by decide)

/-- C25 (a stalled instruction does not advance): in every reachable state, if
`stall_count` is not 0 after the hazard check of the tick, then Decode holds an
instruction, and at the end of the tick `pc` has the value it had at the
start, the Decode latch is exactly as it was (the same instruction, still
occupied, operand values not read), and the Execute latch is empty. -/
theorem stalled_does_not_advance (code : List APEX_Instruction) (s : APEX_CPU)
    (hs : Reachable code s) (hst : (hazard_check s).1.stall_count ≠ 0) :
    s.decode.has_insn = true ∧
    (APEX_cpu_cycle s).pc = s.pc ∧
    (APEX_cpu_cycle s).decode = s.decode ∧
    (APEX_cpu_cycle s).execute.has_insn = false ∧
    (APEX_cpu_tick s).1.pc = s.pc ∧ (APEX_cpu_tick s).1.decode = s.decode ∧
    (APEX_cpu_tick s).1.execute.has_insn = false := by
  have hna : ¬ advances s := hst
  have hdc := decode_checked_of_stalled hs hna
  obtain ⟨h1, h2, h3, -⟩ := stalled_cycle hdc hna
  exact ⟨hdc.1, h2, h1, h3, h2, h1, h3⟩

/-- C25, witness: scenario 2 (`LOAD R1,R2,#0 ; ADD R3,R1,R1 ; HALT`) at the
start of tick 3: the ADD is held in Decode with `stall_count` 2. -/
theorem stalled_does_not_advance_witness :
    Reachable scenario2 (ticks 2 (APEX_cpu_start scenario2)) ∧
    (hazard_check (ticks 2 (APEX_cpu_start scenario2))).1.stall_count = 2 ∧
    (ticks 2 (APEX_cpu_start scenario2)).decode.opcode = Opcode.ADD ∧
    (APEX_cpu_cycle (ticks 2 (APEX_cpu_start scenario2))).decode =
      (ticks 2 (APEX_cpu_start scenario2)).decode :=
  ⟨reachable_ticks scenario2 2, by decide, by decide,
    (stalled_does_not_advance scenario2 (ticks 2 (APEX_cpu_start scenario2))
      (reachable_ticks scenario2 2) (by decide)).2.2.1⟩

/-! ## The flags -/

/-- C26 (flags are written only by arithmetic and compare execution):
`APEX_execute` leaves both flags as they are when the Execute latch is empty
or holds MOVC, LOAD, LDI, STORE, STI, BZ, BNZ, BP, BNP, JUMP, HALT or NOP; and
`APEX_writeback`, `APEX_memory`, `APEX_decode`, `APEX_fetch`, `stall_fetch`,
`get_mem_dest`, `get_ex_dest`, `check_mem_dependency` and `check_ex_dependency`
never change either flag, in a state in which the subscripts these functions
apply to `regs`, `regf`, `data_memory` and the code memory are inside the
arrays.  There every store of `APEX_writeback`, `APEX_memory` and the two
dependency checks goes to an element of the array it subscripts, and the
instruction `APEX_fetch` and `stall_fetch` read is one of the program.  (A
subscript outside an array is undefined behaviour in C; the flags are fields
of the structure that holds the arrays.  `REG_FILE_SIZE` and
`DATA_MEMORY_SIZE` stand for the values the absent `apex_macros.h` gives
them.) -/
theorem flags_written_only_by_execute (REG_FILE_SIZE DATA_MEMORY_SIZE : Int) (s : APEX_CPU)
    (hw : writeback_in_range REG_FILE_SIZE s.writeback)
    (hm : memory_in_range DATA_MEMORY_SIZE s.memory)
    (hd : decode_in_range REG_FILE_SIZE s.decode) (hf : fetch_in_range s) :
    ((s.execute.has_insn = false ∨ flag_neutral s.execute.opcode = true) →
      (APEX_execute s).zero_flag = s.zero_flag ∧
      (APEX_execute s).positive_flag = s.positive_flag) ∧
    ((APEX_writeback s).1.zero_flag = s.zero_flag ∧
      (APEX_writeback s).1.positive_flag = s.positive_flag) ∧
    ((APEX_memory s).zero_flag = s.zero_flag ∧ (APEX_memory s).positive_flag = s.positive_flag) ∧
    ((APEX_decode s).zero_flag = s.zero_flag ∧ (APEX_decode s).positive_flag = s.positive_flag) ∧
    ((APEX_fetch s).zero_flag = s.zero_flag ∧ (APEX_fetch s).positive_flag = s.positive_flag) ∧
    ((stall_fetch s).zero_flag = s.zero_flag ∧ (stall_fetch s).positive_flag = s.positive_flag) ∧
    ((get_mem_dest s).zero_flag = s.zero_flag ∧
      (get_mem_dest s).positive_flag = s.positive_flag) ∧
    ((get_ex_dest s).zero_flag = s.zero_flag ∧ (get_ex_dest s).positive_flag = s.positive_flag) ∧
    ((check_mem_dependency s).zero_flag = s.zero_flag ∧
      (check_mem_dependency s).positive_flag = s.positive_flag) ∧
    ((check_ex_dependency s).zero_flag = s.zero_flag ∧
      (check_ex_dependency s).positive_flag = s.positive_flag) ∧
    (∀ r, ¬ in_bounds REG_FILE_SIZE r → (APEX_writeback s).1.regs r = s.regs r) ∧
    (∀ a, ¬ in_bounds DATA_MEMORY_SIZE a → (APEX_memory s).data_memory a = s.data_memory a) ∧
    (∀ r, ¬ in_bounds REG_FILE_SIZE r →
      (check_mem_dependency s).regf r = s.regf r ∧
      (check_ex_dependency s).regf r = s.regf r) ∧
    (s.fetch.has_insn = true → (load_fetch_latch s).insn ∈ s.code_memory) := by
  refine ⟨?_, ⟨APEX_writeback_zero_flag s, APEX_writeback_positive_flag s⟩,
    ⟨APEX_memory_zero_flag s, APEX_memory_positive_flag s⟩,
    ⟨APEX_decode_zero_flag s, APEX_decode_positive_flag s⟩,
    ⟨APEX_fetch_zero_flag s, APEX_fetch_positive_flag s⟩,
    ⟨stall_fetch_zero_flag s, stall_fetch_positive_flag s⟩,
    ⟨get_mem_dest_zero_flag s, get_mem_dest_positive_flag s⟩,
    ⟨get_ex_dest_zero_flag s, get_ex_dest_positive_flag s⟩,
    ⟨check_mem_dependency_zero_flag s, check_mem_dependency_positive_flag s⟩,
    ⟨check_ex_dependency_zero_flag s, check_ex_dependency_positive_flag s⟩,
    writeback_stays_in_range REG_FILE_SIZE s hw,
    memory_stays_in_range DATA_MEMORY_SIZE s hm,
    fun r hr => ⟨check_mem_dependency_stays_in_range REG_FILE_SIZE s hd r hr,
      check_ex_dependency_stays_in_range REG_FILE_SIZE s hd r hr⟩,
    fetch_reads_program s hf⟩
  rw [APEX_execute_zero_flag_eq, APEX_execute_positive_flag_eq]
  rintro (h | h)
  · simp [h]
  · by_cases he : s.execute.has_insn = true
    · cases ho : s.execute.opcode <;> simp [flag_neutral, ho] at h <;>
        simp [he, ex_zero, ex_positive, ho]
    · simp [he]

/-- C26, witness: `MOVC R1,#42 ; MOVC R2,#8 ; NOP ; NOP ; STORE R1,R2,#0 ;
LOAD R3,R2,#0 ; HALT` at the start of tick 8, with 16 registers and 4096 words
of data memory: the STORE is in Memory with `memory_address = 8`, the LOAD in
Execute; `APEX_memory` performs the store and `APEX_execute` computes the
address of the LOAD, and the flags stay as they are. -/
theorem flags_written_only_by_execute_witness :
    writeback_in_range 16 store_at_memory.writeback ∧
    memory_in_range 4096 store_at_memory.memory ∧
    decode_in_range 16 store_at_memory.decode ∧ fetch_in_range store_at_memory ∧
    store_at_memory.memory.has_insn = true ∧
    store_at_memory.memory.opcode = Opcode.STORE ∧
    store_at_memory.memory.memory_address = 8 ∧
    (APEX_memory store_at_memory).data_memory 8 = 42 ∧
    store_at_memory.execute.opcode = Opcode.LOAD ∧
    ((APEX_memory store_at_memory).zero_flag = store_at_memory.zero_flag ∧
      (APEX_memory store_at_memory).positive_flag = store_at_memory.positive_flag) ∧
    ((APEX_execute store_at_memory).zero_flag = store_at_memory.zero_flag ∧
      (APEX_execute store_at_memory).positive_flag = store_at_memory.positive_flag) :=
  ⟨by decide, by decide, by decide, by decide, by decide, by decide, by decide, by decide,
    by decide,
    (flags_written_only_by_execute 16 4096 store_at_memory (by decide) (by decide) (by decide)
      (by decide)).2.2.1,
    (flags_written_only_by_execute 16 4096 store_at_memory (by decide) (by decide) (by decide)
      (by decide)).1 (Or.inr (by decide))⟩

/-! ## Effective address and auto-increment -/

theorem hazard_check_clock (s : APEX_CPU) : (hazard_check s).1.clock = s.clock := by
  simp [hazard_check]

theorem tick_clock (s : APEX_CPU) : (APEX_cpu_tick s).1.clock = s.clock := by
  rw [← hazard_check_clock s]
  unfold APEX_cpu_tick; dsimp only; split <;> simp

theorem cycle_clock (s : APEX_CPU) : (APEX_cpu_cycle s).clock = s.clock + 1 := by
  show (APEX_cpu_tick s).1.clock + 1 = s.clock + 1
  rw [tick_clock]

theorem ticks_clock (code : List APEX_Instruction) (n : Nat) :
    (ticks n (APEX_cpu_start code)).clock = (n : Int) + 1 := by
  induction n with
  | zero => rfl
  | succ n ih => rw [ticks_succ, cycle_clock, ih]; push_cast; ring

/-! ## How long a straight-line run takes -/

/-- Instruction number `k` of a straight-line program is in Decode at the start
of some tick numbered at most `3 k + 2`. -/
theorem reaches_decode_by {code : List APEX_Instruction} {H : Nat} (hp : StraightLine code H)
    (k : Nat) (hk : k ≤ H) :
    ∃ t, t ≤ 3 * k + 1 ∧ (ticks t (APEX_cpu_start code)).decode.has_insn = true ∧
      n_dec (ticks t (APEX_cpu_start code)) = k := by
  induction k with
  | zero =>
      have ha := agrees_start hp.straight
      have hadv := advances_start code
      obtain ⟨-, -, hfon, -⟩ := agrees_front_advancing hp.straight ha hadv
      obtain ⟨-, hdec, -, -⟩ := hfon rfl
      refine ⟨1, le_refl _, ?_, ?_⟩
      · rw [ticks_one, hdec]; rfl
      · rw [ticks_one, n_dec_cycle_advancing hp.straight ha hadv]
        simp [n_fetch, n_dec, n_ex, n_mem, n_wb, occ, APEX_cpu_start, APEX_cpu_init,
          CPU_Stage.zero]
  | succ k ih =>
      obtain ⟨t, ht, hd, hn⟩ := ih (by omega)
      obtain ⟨j, hj, hadv, hdj, hnj⟩ := advance_within hp t hd
      have ha := agrees_ticks hp.straight (t + j)
      have hnf : n_fetch (ticks (t + j) (APEX_cpu_start code)) = k + 1 := by
        show n_dec _ + occ _ = _
        rw [hnj, hn, occ_eq_one hdj]
      have hf : (ticks (t + j) (APEX_cpu_start code)).fetch.has_insn = true := by
        rw [ha.fetch_on, hnf]; exact decide_eq_true hk
      obtain ⟨-, -, hfon, -⟩ := agrees_front_advancing hp.straight ha hadv
      obtain ⟨-, hdec, -, -⟩ := hfon hf
      refine ⟨t + j + 1, by omega, ?_, ?_⟩
      · rw [ticks_succ, hdec]; rfl
      · rw [ticks_succ, n_dec_cycle_advancing hp.straight ha hadv, hnf]

/-- The HALT of a straight-line program whose first HALT is instruction `H` is
in Writeback at the start of some tick numbered at most `3 H + 5`. -/
theorem halt_reaches_writeback_by {code : List APEX_Instruction} {H : Nat}
    (hp : StraightLine code H) :
    ∃ T, T ≤ 3 * H + 4 ∧ (ticks T (APEX_cpu_start code)).writeback.has_insn = true ∧
      n_wb (ticks T (APEX_cpu_start code)) = H := by
  obtain ⟨t, ht, hd, hn⟩ := reaches_decode_by hp H (le_refl H)
  have ha := agrees_ticks hp.straight t
  have hr := reachable_ticks code t
  -- the HALT reads no register: it is not held
  have h0 : (ticks t (APEX_cpu_start code)).decode.srcs = [] := by
    rw [ha.d hd, fetched_latch_srcs, hn]
    simp [APEX_Instruction.srcs, srcs_of, hp.halt]
  have hadv : advances (ticks t (APEX_cpu_start code)) := advances_of_no_srcs hr h0
  obtain ⟨hx, -⟩ := agrees_front_advancing hp.straight ha hadv
  have he1 : (ticks (t + 1) (APEX_cpu_start code)).execute.has_insn = true := by
    rw [ticks_succ, hx]; exact hd
  have hn1 : n_ex (ticks (t + 1) (APEX_cpu_start code)) = H := by
    rw [ticks_succ, n_ex_cycle _ ha.completed, hn]
  have hm2 : (ticks (t + 1 + 1) (APEX_cpu_start code)).memory.has_insn = true := by
    rw [ticks_succ, cycle_memory_has_insn]; exact he1
  have hn2 : n_mem (ticks (t + 1 + 1) (APEX_cpu_start code)) = H := by
    rw [ticks_succ, n_mem_cycle _ (agrees_ticks hp.straight (t + 1)).completed]; exact hn1
  have hw3 : (ticks (t + 1 + 1 + 1) (APEX_cpu_start code)).writeback.has_insn = true := by
    rw [ticks_succ, cycle_writeback_has_insn]; exact hm2
  have hn3 : n_wb (ticks (t + 1 + 1 + 1) (APEX_cpu_start code)) = H := by
    rw [ticks_succ, n_wb_cycle _ (agrees_ticks hp.straight (t + 1 + 1)).completed]; exact hn2
  exact ⟨t + 1 + 1 + 1, by omega, hw3, hn3⟩

/-! ## The code-memory index in a straight-line run -/

theorem straight_code_of (code : List APEX_Instruction) (hb : branch_free code = true)
    (hh : ∃ i ∈ code, i.opcode = Opcode.HALT) (hfit : pc_of code.length ≤ 2147483647) :
    ∃ H, StraightCode code H := by
  have hex : ∃ k, k < code.length ∧ (insn_at code k).opcode = Opcode.HALT := by
    obtain ⟨i, hi, ho⟩ := hh
    obtain ⟨n, hn, rfl⟩ := List.getElem_of_mem hi
    exact ⟨n, hn, by rw [insn_at_of_lt hn]; exact ho⟩
  obtain ⟨hlt, hhalt⟩ := Nat.find_spec hex
  have hmem : ∀ k ≤ Nat.find hex, insn_at code k ∈ code := by
    intro k hk
    have hk' : k < code.length := by omega
    rw [insn_at_of_lt hk']; exact List.getElem_mem hk'
  refine ⟨Nat.find hex, ?_⟩
  exact
    { in_code := hlt
      halt := hhalt
      first := fun k hk ho => Nat.find_min hex hk ⟨by omega, ho⟩
      no_transfer := by
        intro k hk
        unfold branch_free at hb
        rw [List.all_eq_true] at hb
        have := hb _ (hmem k hk)
        simp only [Bool.not_eq_true', Bool.or_eq_false_iff, decide_eq_false_iff_not] at this
        exact ⟨this.1.1.1.1, this.1.1.1.2, this.1.1.2, this.1.2, this.2⟩
      fits := le_trans (pc_of_mono hlt) hfit }

theorem index_of_pc_of (k : Nat) (h : pc_of k ≤ 2147483647) :
    get_code_memory_index_from_pc (pc_of k) = (k : Int) := by
  unfold pc_of at h
  have h1 : wrap32 (pc_of k - 4000) = 4 * (k : Int) := by
    unfold pc_of; rw [wrap32_of_range] <;> omega
  unfold get_code_memory_index_from_pc
  rw [h1, Int.mul_comm, Int.mul_tdiv_cancel _ (by decide)]

theorem fetched_latch_insn (i : APEX_Instruction) (pc : Int) : (fetched_latch i pc).insn = i := by
  cases i; rfl

/-- The number of instructions fetched grows by one in a tick with a
successful fetch and not at all in any other tick. -/
theorem n_fetch_cycle {code : List APEX_Instruction} {H : Nat} {s : APEX_CPU}
    (hp : StraightCode code H) (hr : Reachable code s) (ha : Agrees code H s) :
    n_fetch (APEX_cpu_cycle s) = n_fetch s + if fetches s then 1 else 0 := by
  by_cases hadv : advances s
  · obtain ⟨-, -, hfon, hfoff⟩ := agrees_front_advancing hp ha hadv
    have hnd := n_dec_cycle_advancing hp ha hadv
    by_cases hf : s.fetch.has_insn = true
    · obtain ⟨hfs, hdec, -, -⟩ := hfon hf
      have hdi : (APEX_cpu_cycle s).decode.has_insn = true := by rw [hdec]; rfl
      show n_dec (APEX_cpu_cycle s) + occ (APEX_cpu_cycle s).decode = _
      rw [hnd, occ_eq_one hdi, if_pos hfs]
    · have hf' : s.fetch.has_insn = false := by simpa using hf
      obtain ⟨hnf, hdi, -, -⟩ := hfoff hf'
      show n_dec (APEX_cpu_cycle s) + occ (APEX_cpu_cycle s).decode = _
      rw [hnd, occ_eq_zero (by rw [hdi]; decide), if_neg hnf]
  · have hnf : ¬ fetches s := fun h => hadv h.1
    obtain ⟨-, hdec, -, -, -⟩ := agrees_front_stalled hp hr ha hadv
    obtain ⟨hnd, -⟩ := n_dec_cycle_stalled hp hr ha hadv
    show n_dec (APEX_cpu_cycle s) + occ (APEX_cpu_cycle s).decode = _
    rw [hnd, hdec, if_neg hnf]; rfl

theorem n_fetch_eq_fetch_count {code : List APEX_Instruction} {H : Nat}
    (hp : StraightCode code H) (n : Nat) :
    n_fetch (ticks n (APEX_cpu_start code)) = fetch_count code n := by
  induction n with
  | zero =>
      simp [fetch_count, ticks, n_fetch, n_dec, n_ex, n_mem, n_wb, occ, APEX_cpu_start,
        APEX_cpu_init, CPU_Stage.zero]
  | succ n ih =>
      rw [ticks_succ, n_fetch_cycle hp (reachable_ticks code n) (agrees_ticks hp n), ih]
      rfl

/-- In a straight-line run a read of the code memory uses the number of
instructions fetched so far as its index, and this is at most the number of
the first HALT. -/
theorem read_index_eq {code : List APEX_Instruction} {H : Nat} {s : APEX_CPU}
    (hp : StraightCode code H) (ha : Agrees code H s) (hrd : reads_code_memory s) :
    code_index_read s = (n_fetch s : Int) ∧ n_fetch s ≤ H := by
  have ht := agrees_not_taken hp ha
  have hf : s.fetch.has_insn = true := by
    have := hrd.1
    rw [hazard_check_fetch, ht] at this
    exact this
  have hfo := ha.fetch_on
  rw [hf] at hfo
  have hle : n_fetch s ≤ H := by simpa using hfo.symm
  have hfits : pc_of (n_fetch s) ≤ 2147483647 := le_trans (pc_of_mono (by omega)) hp.fits
  refine ⟨?_, hle⟩
  unfold code_index_read
  rw [hazard_check_pc, ht]
  show get_code_memory_index_from_pc s.pc = _
  rw [ha.pc, index_of_pc_of _ hfits]

theorem writeback_in_range_iff (n : Int) (w : CPU_Stage) :
    writeback_in_range n w ↔ ∀ r ∈ w.dests, in_bounds n r := by
  unfold writeback_in_range CPU_Stage.dests
  by_cases h : w.has_insn = true
  · cases ho : w.opcode <;> simp [h, dests_of]
  · simp [h]

theorem decode_in_range_iff (n : Int) (d : CPU_Stage) (h : d.has_insn = true) :
    decode_in_range n d ↔ ∀ r ∈ d.srcs, in_bounds n r := by
  unfold decode_in_range CPU_Stage.srcs
  cases ho : d.opcode <;> simp [h, srcs_of]

theorem accessed_dests (code : List APEX_Instruction) (k : Nat) :
    (accessed code k).dests = (insn_at code k).dests := by
  rw [← executed_dests]
  unfold accessed CPU_Stage.dests
  obtain ⟨h1, h2, h3, h4, h5⟩ := mem_latch_insn (executed code k) (seq_upto code k).data_memory
  rw [h1, h2, h3, h4, h5]

theorem executed_in_range (m : Int) (code : List APEX_Instruction) (k : Nat)
    (h : seq_address_in_range m (insn_at code k) (seq_upto code k)) :
    memory_in_range m (executed code k) := by
  unfold seq_address_in_range at h
  unfold memory_in_range executed decoded
  intro _
  cases ho : (insn_at code k).opcode <;> simp [ho] at h <;>
    simp [ex_latch, dec_latch, fetched_latch, ho, h]

theorem decoded_defined (code : List APEX_Instruction) (k : Nat)
    (h : (insn_at code k).opcode = Opcode.DIV →
      div_defined ((seq_upto code k).regs (insn_at code k).rs1)
        ((seq_upto code k).regs (insn_at code k).rs2)) :
    execute_defined (decoded code k) := by
  intro _ ho
  rw [decoded_opcode] at ho
  have := h ho
  simpa [decoded, dec_latch, fetched_latch, ho] using this

/-- In a run that agrees with the sequential execution of a program whose
sequential run is safe, every tick is defined. -/
theorem tick_defined_of_agrees {n m : Int} {code : List APEX_Instruction} {H : Nat}
    {s : APEX_CPU} (hp : StraightCode code H) (hs : SafeCode n m code H)
    (ha : Agrees code H s) : tick_defined n m s := by
  have hb := ha.bound
  have hw1 := occ_le_one s.writeback
  have hm1 := occ_le_one s.memory
  have he1 := occ_le_one s.execute
  have hd1 := occ_le_one s.decode
  unfold n_fetch n_dec n_ex n_mem at hb
  refine ⟨?_, ?_, ?_, ?_, ?_⟩
  · rw [writeback_in_range_iff]
    by_cases hw : s.writeback.has_insn = true
    · have := occ_eq_one hw
      rw [ha.w hw, accessed_dests]
      exact hs.dests _ (by omega)
    · simp [CPU_Stage.dests, hw]
  · by_cases hm : s.memory.has_insn = true
    · have := occ_eq_one hm
      rw [ha.m hm]
      exact executed_in_range m code _ (hs.addr _ (by unfold n_mem; omega))
    · intro h; exact absurd h hm
  · by_cases he : s.execute.has_insn = true
    · have := occ_eq_one he
      rw [ha.e he]
      exact decoded_defined code _ (hs.div _ (by unfold n_ex n_mem; omega))
    · intro h; exact absurd h he
  · intro hc
    have hd := hc.1
    have := occ_eq_one hd
    rw [decode_in_range_iff _ _ hd, ha.d hd, fetched_latch_srcs]
    exact hs.srcs _ (by unfold n_dec n_ex n_mem; omega)
  · intro hrd
    obtain ⟨h1, h2⟩ := read_index_eq hp ha hrd
    have hlen := hp.in_code
    rw [h1, ha.code_eq]
    unfold in_bounds
    omega

theorem run_loop_defined_ticks (n m : Int) (T : Nat) (s : APEX_CPU)
    (hd : ∀ i ≤ T, tick_defined n m (ticks i s))
    (h : ∀ i < T, (APEX_cpu_tick (ticks i s)).2 = false)
    (hT : (APEX_cpu_tick (ticks T s)).2 = true) :
    run_loop_defined n m none (T + 1) s = some (APEX_cpu_tick (ticks T s)).1 := by
  induction T generalizing s with
  | zero =>
      have h0 : tick_defined n m s := hd 0 (le_refl 0)
      have : (APEX_cpu_tick s).2 = true := hT
      simp [run_loop_defined, this, ticks, h0]
  | succ T ih =>
      have hd0 : tick_defined n m s := hd 0 (Nat.zero_le _)
      have h0 : (APEX_cpu_tick s).2 = false := h 0 (Nat.succ_pos T)
      have hstep : run_loop_defined n m none (T + 1 + 1) s =
          run_loop_defined n m none (T + 1) (APEX_cpu_cycle s) := by
        simp [run_loop_defined, h0, hd0, APEX_cpu_cycle]
      rw [hstep, ticks_add_one]
      apply ih
      · intro i hi
        rw [← ticks_add_one]; exact hd (i + 1) (Nat.succ_le_succ hi)
      · intro i hi
        rw [← ticks_add_one]; exact h (i + 1) (Nat.succ_lt_succ hi)
      · rw [← ticks_add_one]; exact hT

/-- A run that reaches a tick that is not defined before any tick has signalled
HALT returns no state, whatever the bound. -/
theorem run_loop_defined_none (n m : Int) (k : Nat) (s : APEX_CPU)
    (h : ∀ i < k, (APEX_cpu_tick (ticks i s)).2 = false)
    (hk : ¬ tick_defined n m (ticks k s)) (fuel : Nat) :
    run_loop_defined n m none fuel s = none := by
  induction k generalizing s fuel with
  | zero =>
      have h0 : ¬ tick_defined n m s := hk
      cases fuel with
      | zero => rfl
      | succ fuel => simp [run_loop_defined, h0]
  | succ k ih =>
      cases fuel with
      | zero => rfl
      | succ fuel =>
          have h0 : (APEX_cpu_tick s).2 = false := h 0 (Nat.succ_pos k)
          by_cases hd0 : tick_defined n m s
          · have hstep : run_loop_defined n m none (fuel + 1) s =
                run_loop_defined n m none fuel (APEX_cpu_cycle s) := by
              simp [run_loop_defined, h0, hd0, APEX_cpu_cycle]
            rw [hstep]
            apply ih
            · intro i hi
              rw [← ticks_add_one]; exact h (i + 1) (Nat.succ_lt_succ hi)
            · rw [← ticks_add_one]; exact hk
          · simp [run_loop_defined, hd0]

/-- A run restricted to defined ticks that returns a state is a run of
`run_loop` that returns the same state. -/
theorem run_loop_of_defined (n m : Int) (limit : Option Int) (fuel : Nat) (s f : APEX_CPU)
    (h : run_loop_defined n m limit fuel s = some f) : run_loop limit fuel s = some f := by
  induction fuel generalizing s with
  | zero => simp [run_loop_defined] at h
  | succ fuel ih =>
      unfold run_loop_defined at h
      unfold run_loop
      by_cases hd : tick_defined n m s
      · rw [if_pos hd] at h
        dsimp only at h ⊢
        by_cases hs : (APEX_cpu_tick s).2 = true ∨ limit = some (APEX_cpu_tick s).1.clock
        · rw [if_pos hs] at h ⊢; exact h
        · rw [if_neg hs] at h ⊢; exact ih _ h
      · rw [if_neg hd] at h; exact absurd h (by simp)

theorem safe_code_of {n m : Int} {code : List APEX_Instruction} {H : Nat}
    (hp : StraightCode code H) (hr : regs_in_range n code) (ha : addresses_in_range m code)
    (hz : no_div_by_zero code) (ho : no_div_overflow code) : SafeCode n m code H := by
  have hmem : ∀ k ≤ H, insn_at code k ∈ code := by
    intro k hk
    have hk' : k < code.length := lt_of_le_of_lt hk hp.in_code
    rw [insn_at_of_lt hk']; exact List.getElem_mem hk'
  have hreach : ∀ k ≤ H, seq_reaches code k := fun k hk j hj => hp.first j (by omega)
  have hlt : ∀ k ≤ H, k < code.length := fun k hk => lt_of_le_of_lt hk hp.in_code
  exact
    { srcs := fun k hk => (hr _ (hmem k hk)).1
      dests := fun k hk => (hr _ (hmem k hk)).2
      addr := fun k hk => ha k (hlt k hk) (hreach k hk)
      div := fun k hk hd => ⟨hz k (hlt k hk) (hreach k hk) hd, ho k (hlt k hk) (hreach k hk) hd⟩ }

theorem srcs_nonneg_of_in_range {n : Int} {code : List APEX_Instruction}
    (hr : regs_in_range n code) : srcs_nonneg code :=
  fun i hi r hrs => ((hr i hi).1 r hrs).1

/-! ## Sequential equivalence -/

/-- C20, the claim as stated, refuted on `MOVC R1,#-2147483648 ; MOVC R2,#-1 ;
DIV R3,R1,R2 ; HALT` (16 registers, 4096 words of data memory): the program is
straight-line and ends in HALT, all its register indices and effective
addresses are in range and its DIV does not divide by zero.  No tick up to
tick 6 signals HALT, and tick 7 starts with the DIV in the Execute latch with
`rs1_value = INT_MIN` and `rs2_value = -1`: the division of `APEX_execute` has
no `int` quotient, the process is killed, and the run returns no state,
whatever the bound on its length. -/
theorem sequential_equivalence_counterexample :
    branch_free div_overflow_program = true ∧
    div_overflow_program.length = 4 ∧
    (insn_at div_overflow_program 3).opcode = Opcode.HALT ∧
    regs_in_range 16 div_overflow_program ∧
    addresses_in_range 4096 div_overflow_program ∧
    no_div_by_zero div_overflow_program ∧
    (∀ i < 6, (APEX_cpu_tick (ticks i (APEX_cpu_start div_overflow_program))).2 = false) ∧
    (ticks 6 (APEX_cpu_start div_overflow_program)).execute.has_insn = true ∧
    (ticks 6 (APEX_cpu_start div_overflow_program)).execute.opcode = Opcode.DIV ∧
    (ticks 6 (APEX_cpu_start div_overflow_program)).execute.rs1_value = -2147483648 ∧
    (ticks 6 (APEX_cpu_start div_overflow_program)).execute.rs2_value = -1 ∧
    ¬ execute_defined (ticks 6 (APEX_cpu_start div_overflow_program)).execute ∧
    ∀ n, APEX_cpu_run_defined 16 4096 n (APEX_cpu_init div_overflow_program) none = none :=
  ⟨by decide, by decide, by decide, by decide, by decide, by decide, by decide, by decide,
    by decide, by decide, by decide, by decide,
    fun n => run_loop_defined_none 16 4096 6 (APEX_cpu_start div_overflow_program)
      (by decide) (by decide) n⟩

/-- C20 as amended (sequential equivalence): for every straight-line program
(no BZ/BNZ/BP/BNP/JUMP) that contains a HALT, with all register indices in
range, all effective addresses inside data memory, no DIV by zero and no DIV
of `INT_MIN` by -1 (and instruction addresses that are values of a 32-bit
`int`), the run of `APEX_cpu_run` from the initial state returns with every
tick defined, and the state it returns (HALT has retired) has the register
bank, the data memory and the two flags that executing the instructions one
at a time in program order up to the HALT produces. -/
theorem sequential_equivalence (REG_FILE_SIZE DATA_MEMORY_SIZE : Int)
    (code : List APEX_Instruction) (hb : branch_free code = true)
    (hh : ∃ i ∈ code, i.opcode = Opcode.HALT) (hr : regs_in_range REG_FILE_SIZE code)
    (ha : addresses_in_range DATA_MEMORY_SIZE code) (hz : no_div_by_zero code)
    (ho : no_div_overflow code) (hfit : pc_of code.length ≤ 2147483647) :
    ∃ n f,
      APEX_cpu_run_defined REG_FILE_SIZE DATA_MEMORY_SIZE n (APEX_cpu_init code) none = some f ∧
      APEX_cpu_run n (APEX_cpu_init code) none = some f ∧
      f.arch = seq_run code Arch.init := by
  obtain ⟨H, hp⟩ := straight_line_of code hb hh (srcs_nonneg_of_in_range hr) hfit
  have hs := safe_code_of hp.straight hr ha hz ho
  obtain ⟨T0, hw, hn⟩ := halt_reaches_writeback hp
  have hex : ∃ T, (APEX_cpu_tick (ticks T (APEX_cpu_start code))).2 = true :=
    ⟨T0, (stop_iff_halt hp.straight T0).2 ⟨hw, hn⟩⟩
  have hmin : ∀ i < Nat.find hex, (APEX_cpu_tick (ticks i (APEX_cpu_start code))).2 = false :=
    fun i hi => by simpa using Nat.find_min hex hi
  refine ⟨Nat.find hex + 1, (APEX_cpu_tick (ticks (Nat.find hex) (APEX_cpu_start code))).1,
    ?_, ?_, final_arch hp.straight _ (Nat.find_spec hex)⟩
  · show run_loop_defined _ _ none (Nat.find hex + 1) (APEX_cpu_start code) = _
    exact run_loop_defined_ticks _ _ _ _
      (fun i _ => tick_defined_of_agrees hp.straight hs (agrees_ticks hp.straight i)) hmin
      (Nat.find_spec hex)
  · show run_loop none (Nat.find hex + 1) (APEX_cpu_start code) = _
    exact run_loop_ticks _ _ hmin (Nat.find_spec hex)

/-- C20, witness: `MOVC R1,#42 ; MOVC R2,#8 ; NOP ; NOP ; STORE R1,R2,#0 ;
LOAD R3,R2,#0 ; HALT` with 16 registers and 4096 words of data memory.
Sequential execution leaves `R3 = 42` and `data_memory[8] = 42`, and so does
the pipeline. -/
theorem sequential_equivalence_witness :
    branch_free store_load_program = true ∧
    (∃ i ∈ store_load_program, i.opcode = Opcode.HALT) ∧
    regs_in_range 16 store_load_program ∧
    addresses_in_range 4096 store_load_program ∧
    no_div_by_zero store_load_program ∧ no_div_overflow store_load_program ∧
    pc_of store_load_program.length ≤ 2147483647 ∧
    (seq_run store_load_program Arch.init).regs 3 = 42 ∧
    (seq_run store_load_program Arch.init).data_memory 8 = 42 ∧
    ∃ n f,
      APEX_cpu_run_defined 16 4096 n (APEX_cpu_init store_load_program) none = some f ∧
      APEX_cpu_run n (APEX_cpu_init store_load_program) none = some f ∧
      f.arch = seq_run store_load_program Arch.init :=
  ⟨by decide, by decide, by decide, by decide, by decide, by decide, by decide, by decide,
    by decide,
    sequential_equivalence 16 4096 store_load_program (by decide) (by decide) (by decide)
      (by decide) (by decide) (by decide) (by decide)⟩

/-! ## Termination of the run -/

/-- C29, the claim as stated, refuted on `MOVC R1,#-2147483648 ; MOVC R2,#-1 ;
DIV R3,R1,R2 ; HALT` (`N = 4`, 16 registers, 4096 words of data memory): the
program is straight-line and ends in HALT, all its register indices and
effective addresses are in range and its DIV does not divide by zero, yet no
tick signals HALT at the end of a run of defined ticks: ticks 1 to 6 do not
signal it, and in tick 7 `APEX_execute` divides `INT_MIN` by -1, where the
process is killed. -/
theorem run_to_halt_counterexample :
    branch_free div_overflow_program = true ∧
    div_overflow_program.length = 4 ∧
    (insn_at div_overflow_program 3).opcode = Opcode.HALT ∧
    regs_in_range 16 div_overflow_program ∧
    addresses_in_range 4096 div_overflow_program ∧
    no_div_by_zero div_overflow_program ∧
    ¬ tick_defined 16 4096 (ticks 6 (APEX_cpu_start div_overflow_program)) ∧
    ¬ div_defined (ticks 6 (APEX_cpu_start div_overflow_program)).execute.rs1_value
      (ticks 6 (APEX_cpu_start div_overflow_program)).execute.rs2_value ∧
    ¬ ∃ T, (∀ i ≤ T, tick_defined 16 4096 (ticks i (APEX_cpu_start div_overflow_program))) ∧
      (APEX_cpu_tick (ticks T (APEX_cpu_start div_overflow_program))).2 = true := by
  refine ⟨by decide, by decide, by decide, by decide, by decide, by decide, by decide,
    by decide, ?_⟩
  rintro ⟨T, hd, hT⟩
  by_cases h : T < 6
  · have h6 : ∀ i < 6,
        (APEX_cpu_tick (ticks i (APEX_cpu_start div_overflow_program))).2 = false := by decide
    rw [h6 T h] at hT
    exact absurd hT (by decide)
  · have h6 : ¬ tick_defined 16 4096 (ticks 6 (APEX_cpu_start div_overflow_program)) := by
      decide
    exact h6 (hd 6 (by omega))

/-- C29 as amended (run-to-halt terminates): for every straight-line program
(no BZ/BNZ/BP/BNP/JUMP) of `N` instructions that contains a HALT, with all
register indices in range, all effective addresses inside data memory, no DIV
by zero and no DIV of `INT_MIN` by -1 (and instruction addresses that are
values of a 32-bit `int`), there is a tick numbered `T + 1 ≤ 3 N + 2` in which
`APEX_writeback` signals HALT and before which it does not; every tick up to
it is defined, and `APEX_cpu_run` returns in that tick, with `clock = T + 1`.
Every instruction is held in Decode for at most 2 stalled ticks, the HALT for
none. -/
theorem run_to_halt_bound (REG_FILE_SIZE DATA_MEMORY_SIZE : Int)
    (code : List APEX_Instruction) (hb : branch_free code = true)
    (hh : ∃ i ∈ code, i.opcode = Opcode.HALT) (hr : regs_in_range REG_FILE_SIZE code)
    (ha : addresses_in_range DATA_MEMORY_SIZE code) (hz : no_div_by_zero code)
    (ho : no_div_overflow code) (hfit : pc_of code.length ≤ 2147483647) :
    ∃ T, T + 1 ≤ 3 * code.length + 2 ∧
      (∀ i ≤ T, tick_defined REG_FILE_SIZE DATA_MEMORY_SIZE (ticks i (APEX_cpu_start code))) ∧
      (APEX_cpu_tick (ticks T (APEX_cpu_start code))).2 = true ∧
      (∀ i < T, (APEX_cpu_tick (ticks i (APEX_cpu_start code))).2 = false) ∧
      ∃ f,
        APEX_cpu_run_defined REG_FILE_SIZE DATA_MEMORY_SIZE (T + 1) (APEX_cpu_init code) none =
          some f ∧
        APEX_cpu_run (T + 1) (APEX_cpu_init code) none = some f ∧
        f.clock = (T : Int) + 1 := by
  obtain ⟨H, hp⟩ := straight_line_of code hb hh (srcs_nonneg_of_in_range hr) hfit
  have hs := safe_code_of hp.straight hr ha hz ho
  obtain ⟨T0, hT0, hw, hn⟩ := halt_reaches_writeback_by hp
  have hex : ∃ T, (APEX_cpu_tick (ticks T (APEX_cpu_start code))).2 = true :=
    ⟨T0, (stop_iff_halt hp.straight T0).2 ⟨hw, hn⟩⟩
  have hmin : ∀ i < Nat.find hex, (APEX_cpu_tick (ticks i (APEX_cpu_start code))).2 = false :=
    fun i hi => by simpa using Nat.find_min hex hi
  have hle : Nat.find hex ≤ T0 := Nat.find_min' hex ((stop_iff_halt hp.straight T0).2 ⟨hw, hn⟩)
  have hlen := hp.in_code
  have hdef : ∀ i, tick_defined REG_FILE_SIZE DATA_MEMORY_SIZE (ticks i (APEX_cpu_start code)) :=
    fun i => tick_defined_of_agrees hp.straight hs (agrees_ticks hp.straight i)
  refine ⟨Nat.find hex, by omega, fun i _ => hdef i, Nat.find_spec hex, hmin,
    (APEX_cpu_tick (ticks (Nat.find hex) (APEX_cpu_start code))).1, ?_, ?_, ?_⟩
  · show run_loop_defined _ _ none (Nat.find hex + 1) (APEX_cpu_start code) = _
    exact run_loop_defined_ticks _ _ _ _ (fun i _ => hdef i) hmin (Nat.find_spec hex)
  · show run_loop none (Nat.find hex + 1) (APEX_cpu_start code) = _
    exact run_loop_ticks _ _ hmin (Nat.find_spec hex)
  · rw [tick_clock, ticks_clock]

/-- C29, witness: scenario 2 (`LOAD R1,R2,#0 ; ADD R3,R1,R1 ; HALT`, `N = 3`)
with 16 registers and 4096 words of data memory: HALT retires in tick 9,
within the bound 11. -/
theorem run_to_halt_bound_witness :
    branch_free scenario2 = true ∧ (∃ i ∈ scenario2, i.opcode = Opcode.HALT) ∧
    regs_in_range 16 scenario2 ∧ addresses_in_range 4096 scenario2 ∧
    no_div_by_zero scenario2 ∧ no_div_overflow scenario2 ∧
    pc_of scenario2.length ≤ 2147483647 ∧
    (APEX_cpu_tick (ticks 8 (APEX_cpu_start scenario2))).2 = true ∧
    ∃ T, T + 1 ≤ 3 * scenario2.length + 2 ∧
      (∀ i ≤ T, tick_defined 16 4096 (ticks i (APEX_cpu_start scenario2))) ∧
      (APEX_cpu_tick (ticks T (APEX_cpu_start scenario2))).2 = true ∧
      (∀ i < T, (APEX_cpu_tick (ticks i (APEX_cpu_start scenario2))).2 = false) ∧
      ∃ f,
        APEX_cpu_run_defined 16 4096 (T + 1) (APEX_cpu_init scenario2) none = some f ∧
        APEX_cpu_run (T + 1) (APEX_cpu_init scenario2) none = some f ∧
        f.clock = (T : Int) + 1 :=
  ⟨by decide, by decide, by decide, by decide, by decide, by decide, by decide, by decide,
    run_to_halt_bound 16 4096 scenario2 (by decide) (by decide) (by decide) (by decide)
      (by decide) (by decide) (by decide)⟩

end Apex
